import Mathlib

/-!
# CipherStreamGuard: a buffer-swapping file-system minifilter

A shallow embedding of the read, write and directory-control callbacks of
`csgRead.c`, `csgWrite.c` and `csgDirCtrl.c`, and of `InstanceSetup` of `csg.c`.

* Every kernel routine the callbacks call is an external collaborator.  What
  such a routine answers in one invocation is a field of an environment record
  (`PreEnv`, `PostEnv`); every call is appended to a trace of `Event`s, so that
  "allocated", "released exactly once" and "copied `n` bytes" are statements
  about the trace.
* A pointer is a natural number, `0` being `NULL`.
* The caller's buffer and the substitute buffer are regions of memory, read
  and written by byte offset from their base address.
* A `try { ... leave ... } finally { ... }` block is a function computing the
  state at the end of the `try` part, followed by a function for the `finally`
  part.
* The one copy that stands outside any `try`, the copy of the safe callbacks,
  may raise.  The definitions named `_outcome` follow a post-operation callback
  to its return or to the exception that leaves the safe callback, and stop
  there: what the system does with that exception is not in the sources.  The
  definitions of the same names without `_outcome` are the runs in which that
  copy runs to its end.
* `LOG_PRINT` only formats debug output and is left out.
-/

namespace CipherStreamGuard

/-! ## Scalars, flags and constants -/

/-- Modelled from the spec: `NTSTATUS` is declared in the kit headers, which are
not among the sources.  It is the status of the result slot, a signed 32-bit
value. -/
abbrev NTSTATUS := Int

/-- Modelled from the spec: the macro `NT_SUCCESS` is declared in the kit
headers, which are not among the sources.  It is the test "the operation did
not fail", `((NTSTATUS)(Status)) >= 0`. -/
def NT_SUCCESS (Status : NTSTATUS) : Bool := decide (0 ≤ Status)

/-- Modelled from the spec: the status `STATUS_SUCCESS` of the kit headers. -/
def STATUS_SUCCESS : NTSTATUS := 0

/-- Modelled from the spec: the failure status `STATUS_UNSUCCESSFUL` of the kit
headers, `0xC0000001` as a signed value. -/
def STATUS_UNSUCCESSFUL : NTSTATUS := -1073741823

/-- Modelled from the spec: the failure status `STATUS_INSUFFICIENT_RESOURCES` of
the kit headers, `0xC000009A` as a signed value. -/
def STATUS_INSUFFICIENT_RESOURCES : NTSTATUS := -1073741670

/-- Modelled from the spec: the macro `FlagOn` is declared in the kit headers,
which are not among the sources.  It is the test of an execution-context flag,
`((_F) & (_SF))` read as a truth value. -/
def FlagOn (F SF : Nat) : Bool := (F &&& SF) != 0

/-- Modelled from the spec: `IRP_NOCACHE` of the kit headers, the `IrpFlags`
bit of an uncached transfer. -/
def IRP_NOCACHE : Nat := 0x00000001

/-- Modelled from the spec: `FLTFL_CALLBACK_DATA_IRP_OPERATION` of the kit
headers, the `Data->Flags` bit of an operation whose transport takes an MDL. -/
def FLTFL_CALLBACK_DATA_IRP_OPERATION : Nat := 0x00000001

/-- Modelled from the spec: `FLTFL_CALLBACK_DATA_FAST_IO_OPERATION` of the kit
headers, the `Data->Flags` bit of a fast, non-deferrable operation. -/
def FLTFL_CALLBACK_DATA_FAST_IO_OPERATION : Nat := 0x00000002

/-- Modelled from the spec: `FLTFL_CALLBACK_DATA_SYSTEM_BUFFER` of the kit
headers, the `Data->Flags` bit of a buffer that is addressable everywhere. -/
def FLTFL_CALLBACK_DATA_SYSTEM_BUFFER : Nat := 0x00000008

/-- Modelled from the spec: `FLTFL_POST_OPERATION_DRAINING` of the kit headers,
the post-operation flag of an operation that is being drained. -/
def FLTFL_POST_OPERATION_DRAINING : Nat := 0x00000001

/-- The constant `MIN_SECTOR_SIZE` of `csg.c`. -/
def MIN_SECTOR_SIZE : Nat := 0x200

/-- Modelled from the spec: the macro `ROUND_TO_SIZE(_length, _alignment)` is
declared in the kit headers, which are not among the sources.  It is the
rounding `(L + (A - 1)) AND NOT (A - 1)` of claim C26, in the headers
`(((ULONG_PTR)(_length)) + ((_alignment)-1)) & ~(ULONG_PTR)((_alignment) - 1)`:
the alignment is a `ULONG`, so `_alignment - 1` is taken modulo `2^32`, and the
sum, the complement and the conjunction are taken on 64-bit values.  (With a
32-bit `ULONG_PTR` the value that is left after the cast to `ULONG` is the
same.) -/
def ROUND_TO_SIZE (length alignment : Nat) : Nat :=
  ((length + (alignment + 2 ^ 32 - 1) % 2 ^ 32) % 2 ^ 64) &&&
    (2 ^ 64 - 1 - (alignment + 2 ^ 32 - 1) % 2 ^ 32)

/-- The cast `(ULONG)x`. -/
def toULONG (x : Nat) : Nat := x % 2 ^ 32

/-- The statement `if (FlagOn(IRP_NOCACHE,iopb->IrpFlags)) { len = (ULONG)ROUND_TO_SIZE(len,volCtx->SectorSize); }`
of `csgPreReadBuffers` and `csgPreWriteBuffers`: the value of `len` after it. -/
def roundIfNoCache (IrpFlags len SectorSize : Nat) : Nat :=
  if FlagOn IRP_NOCACHE IrpFlags then toULONG (ROUND_TO_SIZE len SectorSize) else len

/-- Modelled from the spec: the values of `FLT_PREOP_CALLBACK_STATUS` of the kit
headers that this filter returns from a pre-operation callback. -/
inductive FLT_PREOP_CALLBACK_STATUS where
  | FLT_PREOP_SUCCESS_WITH_CALLBACK
  | FLT_PREOP_SUCCESS_NO_CALLBACK
  | FLT_PREOP_COMPLETE
  deriving DecidableEq, Repr

/-- Modelled from the spec: the values of `FLT_POSTOP_CALLBACK_STATUS` of the
kit headers that this filter returns from a post-operation callback. -/
inductive FLT_POSTOP_CALLBACK_STATUS where
  | FLT_POSTOP_FINISHED_PROCESSING
  | FLT_POSTOP_MORE_PROCESSING_REQUIRED
  deriving DecidableEq, Repr

open FLT_PREOP_CALLBACK_STATUS FLT_POSTOP_CALLBACK_STATUS

/-! ## Data model (`csgStruct.h` and the callback data) -/

/-- The structure `VOLUME_CONTEXT`: the display name (as code units) and the
sector size of the volume. -/
structure VOLUME_CONTEXT where
  Name : List Nat
  SectorSize : Nat
  deriving DecidableEq, Repr

/-- The structure `PRE_2_POST_CONTEXT`: the state a pre-operation callback
hands to its post-operation callback. -/
structure PRE_2_POST_CONTEXT where
  VolCtx : VOLUME_CONTEXT
  SwappedBuffer : Nat
  deriving DecidableEq, Repr

/-- Modelled from the spec: the result slot `Data->IoStatus` (status and bytes
transferred), declared in the kit headers. -/
structure IO_STATUS_BLOCK where
  Status : NTSTATUS
  Information : Nat
  deriving DecidableEq, Repr

/-- Modelled from the spec: the part of `Data->Iopb`, declared in the kit
headers, that the callbacks use.  `Length`, `Buffer` and
`MdlAddress` stand for the members of `Parameters.Read`, `Parameters.Write` or
`Parameters.DirectoryControl.QueryDirectory`, `Buffer` being `ReadBuffer`,
`WriteBuffer` or `DirectoryBuffer`. -/
structure FLT_IO_PARAMETER_BLOCK where
  IrpFlags : Nat
  Length : Nat
  Buffer : Nat
  MdlAddress : Nat
  deriving DecidableEq, Repr

/-- Modelled from the spec: the callback data (the operation descriptor),
declared in the kit headers.  `Dirty` is the mark set by
`FltSetCallbackDataDirty`. -/
structure FLT_CALLBACK_DATA where
  Flags : Nat
  Iopb : FLT_IO_PARAMETER_BLOCK
  IoStatus : IO_STATUS_BLOCK
  Dirty : Bool
  deriving DecidableEq, Repr

/-- The bytes of a region of memory, by offset from its base address. -/
abbrev Region := Nat → Nat

/-- The two regions a callback touches: the caller's original buffer and the
substitute buffer. -/
structure Memory where
  original : Region
  swapped : Region

/-- The effect of `RtlCopyMemory(dst, src, n)` on the destination. -/
def RtlCopyMemory (dst src : Region) (n : Nat) : Region :=
  fun i => if i < n then src i else dst i

/-- What happens to a copy made inside `try { } except`: it runs to the end, or
it raises an exception with a code after having written some of the bytes. -/
inductive CopyOutcome where
  | completed
  | faulted (code : NTSTATUS) (written : Nat → Bool)

/-- The destination after a guarded copy of `n` bytes. -/
def guardedCopy (dst src : Region) (n : Nat) : CopyOutcome → Region
  | .completed => RtlCopyMemory dst src n
  | .faulted _ written => fun i => if i < n ∧ written i = true then src i else dst i

/-- Modelled from the spec: the answer of `FltDoCompletionProcessingWhenSafe`, a
routine of the filter manager.  It is `FALSE` (rejected), and then `retValue`
is left alone; or `TRUE` (accepted) after having run the safe callback on the
spot, and then `retValue` is what the safe callback returned; or `TRUE` after
having posted the safe callback to a worker thread, and then `retValue` is
`FLT_POSTOP_MORE_PROCESSING_REQUIRED`.  (The comment in `csgPostReadBuffers`:
"the called routine will do (or has done) the freeing".) -/
inductive DeferOutcome where
  | rejected
  | synchronous
  | posted
  deriving DecidableEq, Repr

/-- One call of an external routine, with the arguments and the result that
matter.  `RtlCopyMemory toOriginal n` is a copy of `n` bytes into the caller's
buffer (`toOriginal = true`) or into the substitute buffer. -/
inductive Event where
  | ASSERT (holds : Bool)
  | FltGetVolumeContext (found : Bool)
  | ExAllocatePoolWithTag (size : Nat) (result : Nat)
  | IoAllocateMdl (buffer : Nat) (length : Nat) (result : Nat)
  | MmBuildMdlForNonPagedPool (mdl : Nat)
  | ExAllocateFromNPagedLookasideList (result : Bool)
  | MmGetSystemAddressForMdlSafe (mdl : Nat) (result : Nat)
  | RtlCopyMemory (toOriginal : Bool) (n : Nat)
  | FltSetCallbackDataDirty
  | FltDoCompletionProcessingWhenSafe (answer : DeferOutcome)
  | FltLockUserBuffer (status : NTSTATUS)
  | ExFreePool (p : Nat)
  | IoFreeMdl (mdl : Nat)
  | FltReleaseContext
  | ExFreeToNPagedLookasideList
  deriving DecidableEq, Repr

/-- A trace of calls, oldest first. -/
abbrev Trace := List Event

/-! ## Pre-operation callbacks -/

/-- What the external routines answer during one pre-operation callback.
`FltGetVolumeContext` is `none` when the lookup returns a failure status;
`ExAllocatePoolWithTag` maps the requested size to the new pointer;
`poolContents` is what a new block contains; `IoAllocateMdl` maps buffer and
length to the new MDL; `MmGetSystemAddressForMdlSafe` maps an MDL to a system
address; `RtlCopyMemory` is the fate of the guarded copy. -/
structure PreEnv where
  FltGetVolumeContext : Option VOLUME_CONTEXT
  ExAllocatePoolWithTag : Nat → Nat
  poolContents : Region
  IoAllocateMdl : Nat → Nat → Nat
  ExAllocateFromNPagedLookasideList : Bool
  MmGetSystemAddressForMdlSafe : Nat → Nat
  RtlCopyMemory : CopyOutcome

/-- The locals of a pre-operation callback, its in/out arguments, the memory
and the trace. -/
structure PreState where
  retValue : FLT_PREOP_CALLBACK_STATUS
  newBuf : Nat
  newMdl : Nat
  volCtx : Option VOLUME_CONTEXT
  Data : FLT_CALLBACK_DATA
  CompletionContext : Option PRE_2_POST_CONTEXT
  memory : Memory
  trace : Trace

/-- The state at the declarations of a pre-operation callback. -/
def PreState.init (Data : FLT_CALLBACK_DATA) (memory : Memory) : PreState :=
  { retValue := FLT_PREOP_SUCCESS_NO_CALLBACK, newBuf := 0, newMdl := 0, volCtx := none,
    Data := Data, CompletionContext := none, memory := memory, trace := [] }

/-- Append a call to the trace. -/
def PreState.log (s : PreState) (e : Event) : PreState :=
  { s with trace := s.trace ++ [e] }

/-- The `finally` block shared, word for word, by the three pre-operation
callbacks. -/
def preFinally (s : PreState) : PreState :=
  if s.retValue ≠ FLT_PREOP_SUCCESS_WITH_CALLBACK then
    let s := if s.newBuf ≠ 0 then s.log (.ExFreePool s.newBuf) else s
    let s := if s.newMdl ≠ 0 then s.log (.IoFreeMdl s.newMdl) else s
    let s := if s.volCtx.isSome then s.log .FltReleaseContext else s
    s
  else s

/-- The last statements of the `try` block of the three pre-operation
callbacks, from the lookaside allocation on: get a `PRE_2_POST_CONTEXT`, swap
the buffer and the MDL, mark the data dirty, fill the context and ask for the
post-operation callback. -/
def preSwap (env : PreEnv) (s : PreState) (volCtx : VOLUME_CONTEXT) : PreState :=
  let s := s.log (.ExAllocateFromNPagedLookasideList env.ExAllocateFromNPagedLookasideList)
  if env.ExAllocateFromNPagedLookasideList = false then s
  else
    let s := { s with Data := { s.Data with
                 Iopb := { s.Data.Iopb with Buffer := s.newBuf, MdlAddress := s.newMdl },
                 Dirty := true } }
    let s := s.log .FltSetCallbackDataDirty
    { s with CompletionContext := some { SwappedBuffer := s.newBuf, VolCtx := volCtx },
             retValue := FLT_PREOP_SUCCESS_WITH_CALLBACK }

/-- The `try` block of `csgPreReadBuffers`. -/
def csgPreReadBuffers_try (env : PreEnv) (Data : FLT_CALLBACK_DATA) (memory : Memory) :
    PreState :=
  let s := PreState.init Data memory
  let readLen := Data.Iopb.Length
  if readLen = 0 then s
  else
    match env.FltGetVolumeContext with
    | none => s.log (.FltGetVolumeContext false)
    | some volCtx =>
      let s := { s.log (.FltGetVolumeContext true) with volCtx := some volCtx }
      let readLen := roundIfNoCache Data.Iopb.IrpFlags readLen volCtx.SectorSize
      let newBuf := env.ExAllocatePoolWithTag readLen
      let s := { s.log (.ExAllocatePoolWithTag readLen newBuf) with newBuf := newBuf }
      if newBuf = 0 then s
      else
        let s := { s with memory := { s.memory with swapped := env.poolContents } }
        if FlagOn Data.Flags FLTFL_CALLBACK_DATA_IRP_OPERATION then
          let newMdl := env.IoAllocateMdl newBuf readLen
          let s := { s.log (.IoAllocateMdl newBuf readLen newMdl) with newMdl := newMdl }
          if newMdl = 0 then s
          else preSwap env (s.log (.MmBuildMdlForNonPagedPool newMdl)) volCtx
        else preSwap env s volCtx

/-- The callback `csgPreReadBuffers`. -/
def csgPreReadBuffers (env : PreEnv) (Data : FLT_CALLBACK_DATA) (memory : Memory) : PreState :=
  preFinally (csgPreReadBuffers_try env Data memory)

/-- The `try` block of `csgPreWriteBuffers`. -/
def csgPreWriteBuffers_try (env : PreEnv) (Data : FLT_CALLBACK_DATA) (memory : Memory) :
    PreState :=
  let s := PreState.init Data memory
  let writeLen := Data.Iopb.Length
  if writeLen = 0 then s
  else
    match env.FltGetVolumeContext with
    | none => s.log (.FltGetVolumeContext false)
    | some volCtx =>
      let s := { s.log (.FltGetVolumeContext true) with volCtx := some volCtx }
      let writeLen := roundIfNoCache Data.Iopb.IrpFlags writeLen volCtx.SectorSize
      let newBuf := env.ExAllocatePoolWithTag writeLen
      let s := { s.log (.ExAllocatePoolWithTag writeLen newBuf) with newBuf := newBuf }
      if newBuf = 0 then s
      else
        let s := { s with memory := { s.memory with swapped := env.poolContents } }
        -- the guarded copy and what follows it, once `origBuf` is known
        let copy (s : PreState) : PreState :=
          let s := { s.log (.RtlCopyMemory false writeLen) with
                     memory := { s.memory with
                       swapped := guardedCopy s.memory.swapped s.memory.original writeLen
                                    env.RtlCopyMemory } }
          match env.RtlCopyMemory with
          | .faulted code _ =>
            { s with Data := { s.Data with IoStatus := { Status := code, Information := 0 } },
                     retValue := FLT_PREOP_COMPLETE }
          | .completed => preSwap env s volCtx
        -- the statements after the MDL of the new buffer has been dealt with
        let rest (s : PreState) : PreState :=
          if Data.Iopb.MdlAddress ≠ 0 then
            let origBuf := env.MmGetSystemAddressForMdlSafe Data.Iopb.MdlAddress
            let s := s.log (.MmGetSystemAddressForMdlSafe Data.Iopb.MdlAddress origBuf)
            if origBuf = 0 then
              { s with Data := { s.Data with
                         IoStatus := { Status := STATUS_INSUFFICIENT_RESOURCES,
                                       Information := 0 } },
                       retValue := FLT_PREOP_COMPLETE }
            else copy s
          else copy s
        if FlagOn Data.Flags FLTFL_CALLBACK_DATA_IRP_OPERATION then
          let newMdl := env.IoAllocateMdl newBuf writeLen
          let s := { s.log (.IoAllocateMdl newBuf writeLen newMdl) with newMdl := newMdl }
          if newMdl = 0 then s
          else rest (s.log (.MmBuildMdlForNonPagedPool newMdl))
        else rest s

/-- The callback `csgPreWriteBuffers`. -/
def csgPreWriteBuffers (env : PreEnv) (Data : FLT_CALLBACK_DATA) (memory : Memory) : PreState :=
  preFinally (csgPreWriteBuffers_try env Data memory)

/-- The `try` block of `csgPreDirCtrlBuffers` (the same text in `csgDirCtrl.c`
and in `csgPreDirCtrl.c`). -/
def csgPreDirCtrlBuffers_try (env : PreEnv) (Data : FLT_CALLBACK_DATA) (memory : Memory) :
    PreState :=
  let s := PreState.init Data memory
  if Data.Iopb.Length = 0 then s
  else
    match env.FltGetVolumeContext with
    | none => s.log (.FltGetVolumeContext false)
    | some volCtx =>
      let s := { s.log (.FltGetVolumeContext true) with volCtx := some volCtx }
      let newBuf := env.ExAllocatePoolWithTag Data.Iopb.Length
      let s := { s.log (.ExAllocatePoolWithTag Data.Iopb.Length newBuf) with newBuf := newBuf }
      if newBuf = 0 then s
      else
        let s := { s with memory := { s.memory with swapped := env.poolContents } }
        let newMdl := env.IoAllocateMdl newBuf Data.Iopb.Length
        let s := { s.log (.IoAllocateMdl newBuf Data.Iopb.Length newMdl) with newMdl := newMdl }
        if newMdl = 0 then s
        else preSwap env (s.log (.MmBuildMdlForNonPagedPool newMdl)) volCtx

/-- The callback `csgPreDirCtrlBuffers`. -/
def csgPreDirCtrlBuffers (env : PreEnv) (Data : FLT_CALLBACK_DATA) (memory : Memory) :
    PreState :=
  preFinally (csgPreDirCtrlBuffers_try env Data memory)

/-! ## Post-operation callbacks -/

/-- What the external routines answer during one post-operation callback and
its safe-context callback.  `FltLockUserBuffer` is the status of the lock call
and `lockedMdl` the MDL it builds for a buffer that had none. -/
structure PostEnv where
  MmGetSystemAddressForMdlSafe : Nat → Nat
  RtlCopyMemory : CopyOutcome
  FltDoCompletionProcessingWhenSafe : DeferOutcome
  FltLockUserBuffer : NTSTATUS
  lockedMdl : Nat

/-- The locals of a post-operation callback, its in/out arguments, the memory
and the trace.  `queued` says that the safe callback has been posted to a
worker thread and has not run yet. -/
structure PostState where
  retValue : FLT_POSTOP_CALLBACK_STATUS
  cleanupAllocatedBuffer : Bool
  Data : FLT_CALLBACK_DATA
  memory : Memory
  trace : Trace
  queued : Bool

/-- Append a call to the trace. -/
def PostState.log (s : PostState) (e : Event) : PostState :=
  { s with trace := s.trace ++ [e] }

/-- Store a status and zero bytes in the result slot. -/
def PostState.fail (s : PostState) (status : NTSTATUS) : PostState :=
  { s with Data := { s.Data with IoStatus := { Status := status, Information := 0 } } }

/-- The three releases that end the post-operation callbacks and the safe
callbacks: `ExFreePool( p2pCtx->SwappedBuffer )`, `FltReleaseContext( p2pCtx->VolCtx )`
and `ExFreeToNPagedLookasideList( &Pre2PostContextList, p2pCtx )`. -/
def PostState.release (s : PostState) (p2pCtx : PRE_2_POST_CONTEXT) : PostState :=
  ((s.log (.ExFreePool p2pCtx.SwappedBuffer)).log .FltReleaseContext).log
    .ExFreeToNPagedLookasideList

/-- The effect of a successful `FltLockUserBuffer` on the parameter block: a
buffer without an MDL gets the MDL the call builds. -/
def lockUserBuffer (env : PostEnv) (Data : FLT_CALLBACK_DATA) : FLT_CALLBACK_DATA :=
  if Data.Iopb.MdlAddress = 0 then
    { Data with Iopb := { Data.Iopb with MdlAddress := env.lockedMdl } }
  else Data

/-- How a run of a safe callback, of a post-operation callback or of a post-step
ends: the routine returns, in the state `s`; or an exception with the code
`code` leaves a safe callback, `s` being the state at that moment.  What the
filter manager does with an exception that left a safe callback is not in the
sources and is not modelled. -/
inductive PostOutcome where
  | returned (s : PostState)
  | raised (code : NTSTATUS) (s : PostState)

/-- The state in which a run ends. -/
def PostOutcome.state : PostOutcome → PostState
  | .returned s => s
  | .raised _ s => s

/-- The body shared by `SwapPostReadBuffersWhenSafe` and
`SwapPostDirCtrlBuffersWhenSafe`, which differ in the number of bytes they
copy: `count` gives it from the callback data.  The state `s` is the one the
callback is entered with.  The copy stands outside any `try` ("we don't need a
try/except because we will always have a system buffer address"): `unguarded`
is its fate.  When the copy raises, the exception leaves the callback and the
statements after the copy, the three releases, are not reached. -/
def swapPostBuffersWhenSafe_outcome (unguarded : CopyOutcome)
    (count : FLT_CALLBACK_DATA → Nat) (env : PostEnv) (p2pCtx : PRE_2_POST_CONTEXT)
    (s : PostState) : PostOutcome :=
  let s := s.log (.ASSERT (s.Data.IoStatus.Information != 0))
  let status := env.FltLockUserBuffer
  let s := s.log (.FltLockUserBuffer status)
  -- the `if (!NT_SUCCESS(status)) ... else ...` statement
  let body : PostOutcome :=
    if !NT_SUCCESS status then .returned (s.fail status)
    else
      let s := { s with Data := lockUserBuffer env s.Data }
      let origBuf := env.MmGetSystemAddressForMdlSafe s.Data.Iopb.MdlAddress
      let s := s.log (.MmGetSystemAddressForMdlSafe s.Data.Iopb.MdlAddress origBuf)
      if origBuf = 0 then .returned (s.fail STATUS_INSUFFICIENT_RESOURCES)
      else
        let s := { s.log (.RtlCopyMemory true (count s.Data)) with
                   memory := { s.memory with
                     original := guardedCopy s.memory.original s.memory.swapped (count s.Data)
                                   unguarded } }
        match unguarded with
        | .faulted code _ => .raised code s
        | .completed => .returned s
  -- the three releases and the `return`, reached unless the copy raised
  match body with
  | .returned s =>
    .returned { s.release p2pCtx with retValue := FLT_POSTOP_FINISHED_PROCESSING }
  | .raised code s => .raised code s

/-- The state in which a safe callback returns on a run in which its copy runs
to its end: `swapPostBuffersWhenSafe_outcome` with a copy that completes.  The
run in which the copy raises is in `swapPostBuffersWhenSafe_outcome` only. -/
def swapPostBuffersWhenSafe (count : FLT_CALLBACK_DATA → Nat) (env : PostEnv)
    (p2pCtx : PRE_2_POST_CONTEXT) (s : PostState) : PostState :=
  (swapPostBuffersWhenSafe_outcome .completed count env p2pCtx s).state

/-- The safe callback `SwapPostReadBuffersWhenSafe`, which copies
`Data->IoStatus.Information` bytes, on a run in which its copy runs to its end.
Both fates of the copy are in `SwapPostReadBuffersWhenSafe_outcome`. -/
def SwapPostReadBuffersWhenSafe (env : PostEnv) (p2pCtx : PRE_2_POST_CONTEXT)
    (s : PostState) : PostState :=
  swapPostBuffersWhenSafe (fun Data => Data.IoStatus.Information) env p2pCtx s

/-- The safe callback `SwapPostDirCtrlBuffersWhenSafe`, which copies
`iopb->Parameters.DirectoryControl.QueryDirectory.Length` bytes, on a run in
which its copy runs to its end.  Both fates of the copy are in
`SwapPostDirCtrlBuffersWhenSafe_outcome`. -/
def SwapPostDirCtrlBuffersWhenSafe (env : PostEnv) (p2pCtx : PRE_2_POST_CONTEXT)
    (s : PostState) : PostState :=
  swapPostBuffersWhenSafe (fun Data => Data.Iopb.Length) env p2pCtx s

/-- The `try` block shared by `csgPostReadBuffers` and `csgPostDirCtrlBuffers`,
which differ in the safe callback they name and in the number of bytes they
copy.  `Flags` plays no part in it: the one statement of the block that
mentions `Flags` hands it to `FltDoCompletionProcessingWhenSafe`, whose answer
is a field of the environment.  `safe` is the safe callback as a function from
state to state, so on a run in which it returns; `postBuffers_outcome` is the
same block with the fate of the copy of the safe callback left open. -/
def postBuffers_try (count : FLT_CALLBACK_DATA → Nat)
    (safe : PostEnv → PRE_2_POST_CONTEXT → PostState → PostState)
    (env : PostEnv) (p2pCtx : PRE_2_POST_CONTEXT) (s : PostState) : PostState :=
  if !NT_SUCCESS s.Data.IoStatus.Status || s.Data.IoStatus.Information == 0 then s
  else
    -- the guarded copy, once `origBuf` is known
    let copy (s : PostState) : PostState :=
      let s := { s.log (.RtlCopyMemory true (count s.Data)) with
                 memory := { s.memory with
                   original := guardedCopy s.memory.original s.memory.swapped (count s.Data)
                                 env.RtlCopyMemory } }
      match env.RtlCopyMemory with
      | .faulted code _ => s.fail code
      | .completed => s
    if s.Data.Iopb.MdlAddress ≠ 0 then
      let origBuf := env.MmGetSystemAddressForMdlSafe s.Data.Iopb.MdlAddress
      let s := s.log (.MmGetSystemAddressForMdlSafe s.Data.Iopb.MdlAddress origBuf)
      if origBuf = 0 then s.fail STATUS_INSUFFICIENT_RESOURCES
      else copy s
    else if FlagOn s.Data.Flags FLTFL_CALLBACK_DATA_SYSTEM_BUFFER ||
            FlagOn s.Data.Flags FLTFL_CALLBACK_DATA_FAST_IO_OPERATION then
      copy s
    else
      let s := s.log (.FltDoCompletionProcessingWhenSafe env.FltDoCompletionProcessingWhenSafe)
      match env.FltDoCompletionProcessingWhenSafe with
      | .synchronous => { safe env p2pCtx s with cleanupAllocatedBuffer := false }
      | .posted =>
        { s with retValue := FLT_POSTOP_MORE_PROCESSING_REQUIRED, queued := true,
                 cleanupAllocatedBuffer := false }
      | .rejected => s.fail STATUS_UNSUCCESSFUL

/-- The state at the declarations of `csgPostReadBuffers` and
`csgPostDirCtrlBuffers`, after `ASSERT(!FlagOn(Flags, FLTFL_POST_OPERATION_DRAINING))`.
The `ASSERT` is recorded in the trace with its truth value; it compiles to
nothing in a free build and stops nothing here. -/
def PostState.init (Data : FLT_CALLBACK_DATA) (Flags : Nat) (memory : Memory) : PostState :=
  { retValue := FLT_POSTOP_FINISHED_PROCESSING, cleanupAllocatedBuffer := true, Data := Data,
    memory := memory, trace := [.ASSERT (!FlagOn Flags FLTFL_POST_OPERATION_DRAINING)],
    queued := false }

/-- The `finally` block shared by `csgPostReadBuffers` and
`csgPostDirCtrlBuffers`. -/
def postFinally (p2pCtx : PRE_2_POST_CONTEXT) (s : PostState) : PostState :=
  if s.cleanupAllocatedBuffer then s.release p2pCtx else s

/-- The callback `csgPostReadBuffers`, on the runs in which the copy of the safe
callback, if it is made on the spot, runs to its end.  Both fates of that copy
are in `csgPostReadBuffers_outcome`. -/
def csgPostReadBuffers (env : PostEnv) (Data : FLT_CALLBACK_DATA)
    (CompletionContext : PRE_2_POST_CONTEXT) (Flags : Nat) (memory : Memory) : PostState :=
  postFinally CompletionContext
    (postBuffers_try (fun Data => Data.IoStatus.Information) SwapPostReadBuffersWhenSafe env
      CompletionContext (PostState.init Data Flags memory))

/-- The callback `csgPostDirCtrlBuffers`, on the runs in which the copy of the
safe callback, if it is made on the spot, runs to its end.  Both fates of that
copy are in `csgPostDirCtrlBuffers_outcome`. -/
def csgPostDirCtrlBuffers (env : PostEnv) (Data : FLT_CALLBACK_DATA)
    (CompletionContext : PRE_2_POST_CONTEXT) (Flags : Nat) (memory : Memory) : PostState :=
  postFinally CompletionContext
    (postBuffers_try (fun Data => Data.Iopb.Length) SwapPostDirCtrlBuffersWhenSafe env
      CompletionContext (PostState.init Data Flags memory))

/-- The callback `csgPostWriteBuffers`. -/
def csgPostWriteBuffers (Data : FLT_CALLBACK_DATA) (CompletionContext : PRE_2_POST_CONTEXT)
    (Flags : Nat) (memory : Memory) : PostState :=
  let _ := Flags
  ({ retValue := FLT_POSTOP_FINISHED_PROCESSING, cleanupAllocatedBuffer := true, Data := Data,
     memory := memory, trace := [], queued := false } : PostState).release CompletionContext

/-! ## A whole operation: pre-operation callback, lower layers, post-operation callback -/

/-- The safe callback run by the worker thread, when the post-operation
callback left it posted, on a run in which it returns (`runQueued_outcome`
leaves the fate of its copy open). -/
def runQueued (safe : PostEnv → PRE_2_POST_CONTEXT → PostState → PostState) (env : PostEnv)
    (p2pCtx : PRE_2_POST_CONTEXT) (s : PostState) : PostState :=
  if s.queued then { safe env p2pCtx s with queued := false } else s

/-- The read post-step brought to its end: `csgPostReadBuffers`, then
`SwapPostReadBuffersWhenSafe` once if it was posted.  This is the post-step on
the runs in which the copy of the safe callback runs to its end;
`readPostStep_outcome` follows both fates of that copy. -/
def readPostStep (env : PostEnv) (Data : FLT_CALLBACK_DATA)
    (CompletionContext : PRE_2_POST_CONTEXT) (Flags : Nat) (memory : Memory) : PostState :=
  runQueued SwapPostReadBuffersWhenSafe env CompletionContext
    (csgPostReadBuffers env Data CompletionContext Flags memory)

/-- The directory-control post-step brought to its end: `csgPostDirCtrlBuffers`,
then `SwapPostDirCtrlBuffersWhenSafe` once if it was posted.  This is the
post-step on the runs in which the copy of the safe callback runs to its end;
`dirCtrlPostStep_outcome` follows both fates of that copy. -/
def dirCtrlPostStep (env : PostEnv) (Data : FLT_CALLBACK_DATA)
    (CompletionContext : PRE_2_POST_CONTEXT) (Flags : Nat) (memory : Memory) : PostState :=
  runQueued SwapPostDirCtrlBuffersWhenSafe env CompletionContext
    (csgPostDirCtrlBuffers env Data CompletionContext Flags memory)

/-- The operations of the registration table `Callbacks` of `csg.c`. -/
inductive Kind where
  | Read
  | Write
  | DirectoryEnumeration
  deriving DecidableEq, Repr

/-- The pre-operation callback registered for a kind of operation. -/
def preStep : Kind → PreEnv → FLT_CALLBACK_DATA → Memory → PreState
  | .Read => csgPreReadBuffers
  | .Write => csgPreWriteBuffers
  | .DirectoryEnumeration => csgPreDirCtrlBuffers

/-- The post-operation callback registered for a kind of operation, brought to
its end, on the runs in which the copy of the safe callback runs to its end
(`postStep_outcome` follows both fates of that copy). -/
def postStep : Kind → PostEnv → FLT_CALLBACK_DATA → PRE_2_POST_CONTEXT → Nat → Memory → PostState
  | .Read => readPostStep
  | .Write => fun _ => csgPostWriteBuffers
  | .DirectoryEnumeration => dirCtrlPostStep

/-- Number of objects taken from `Pre2PostContextList`. -/
def linksAcquired (t : Trace) : Nat :=
  t.countP fun e => e matches .ExAllocateFromNPagedLookasideList true

/-- Number of objects given back to `Pre2PostContextList`. -/
def linksReleased (t : Trace) : Nat :=
  t.countP fun e => e matches .ExFreeToNPagedLookasideList

/-- Number of calls of `ExFreePool` on the pointer `p`. -/
def poolFrees (p : Nat) (t : Trace) : Nat := t.count (.ExFreePool p)

/-- Number of calls of `IoFreeMdl` on the MDL `m`. -/
def mdlFrees (m : Nat) (t : Trace) : Nat := t.count (.IoFreeMdl m)

/-- Number of calls of `FltReleaseContext`. -/
def contextReleases (t : Trace) : Nat := t.count .FltReleaseContext

/-- Sizes of the pool blocks asked for, oldest first. -/
def poolRequests (t : Trace) : List Nat :=
  t.filterMap fun e => match e with
    | .ExAllocatePoolWithTag size _ => some size
    | _ => none

/-- Byte counts of the copies into the caller's buffer, oldest first. -/
def copiesToOriginal (t : Trace) : List Nat :=
  t.filterMap fun e => match e with
    | .RtlCopyMemory true n => some n
    | _ => none

/-! ## Sample inputs -/

/-- A volume with 512-byte sectors. -/
def volume512 : VOLUME_CONTEXT := { Name := [67, 58], SectorSize := 0x200 }

/-- An environment in which every routine succeeds: pool blocks are at address
`4096`, zero-filled; MDLs are at `8192`; system addresses are at `12288`. -/
def preEnvOk : PreEnv :=
  { FltGetVolumeContext := some volume512
    ExAllocatePoolWithTag := fun _ => 4096
    poolContents := fun _ => 0
    IoAllocateMdl := fun _ _ => 8192
    ExAllocateFromNPagedLookasideList := true
    MmGetSystemAddressForMdlSafe := fun _ => 12288
    RtlCopyMemory := .completed }

/-- The callback data of an IRP based operation of `len` bytes with
`IrpFlags = irpFlags`, on a user buffer at `256` described by the MDL `mdl`. -/
def dataOf (len irpFlags mdl : Nat) : FLT_CALLBACK_DATA :=
  { Flags := FLTFL_CALLBACK_DATA_IRP_OPERATION
    Iopb := { IrpFlags := irpFlags, Length := len, Buffer := 256, MdlAddress := mdl }
    IoStatus := { Status := 0, Information := 0 }
    Dirty := false }

/-- A memory whose caller buffer holds `i + 1` at offset `i` and whose
substitute region holds `200 + i`. -/
def memoryOf : Memory := { original := fun i => i + 1, swapped := fun i => 200 + i }

/-- A volume with 768-byte sectors. -/
def volume768 : VOLUME_CONTEXT := { Name := [68, 58], SectorSize := 0x300 }

/-- The environment `preEnvOk` on the volume `v`. -/
def preEnvOn (v : VOLUME_CONTEXT) : PreEnv := { preEnvOk with FltGetVolumeContext := some v }

/-- A post-operation environment in which every routine succeeds and the safe
callback is posted to a worker thread. -/
def postEnvOk : PostEnv :=
  { MmGetSystemAddressForMdlSafe := fun _ => 12288
    RtlCopyMemory := .completed
    FltDoCompletionProcessingWhenSafe := .posted
    FltLockUserBuffer := STATUS_SUCCESS
    lockedMdl := 16384 }

/-- The callback data `Data` once the lower layers have filled the result slot. -/
def completedWith (Data : FLT_CALLBACK_DATA) (status : NTSTATUS) (information : Nat) :
    FLT_CALLBACK_DATA :=
  { Data with IoStatus := { Status := status, Information := information } }

/-- A completion context for the pool block of `preEnvOk` on `volume512`. -/
def linkOk : PRE_2_POST_CONTEXT := { VolCtx := volume512, SwappedBuffer := 4096 }

/-- Modelled from the spec: the failure status `STATUS_ACCESS_VIOLATION` of the
kit headers, `0xC0000005` as a signed value. -/
def STATUS_ACCESS_VIOLATION : NTSTATUS := -1073741819

/-- Modelled from the spec: the failure status `STATUS_CANCELLED` of the kit
headers, `0xC0000120` as a signed value. -/
def STATUS_CANCELLED : NTSTATUS := -1073741536

/-- The offsets below 1024. -/
def firstKilobyte : Nat → Bool := fun i => decide (i < 1024)

/-- The environment `preEnvOk` with a copy that faults after one kilobyte. -/
def preEnvFault : PreEnv :=
  { preEnvOk with RtlCopyMemory := .faulted STATUS_ACCESS_VIOLATION firstKilobyte }

/-- The statement `ctx->SectorSize = max(volProp->SectorSize,MIN_SECTOR_SIZE)` of
`InstanceSetup`: the sector size stored for a volume that reports `reported`. -/
def usedSectorSize (reported : Nat) : Nat := max reported MIN_SECTOR_SIZE

/-! ## The ways through a pre-operation callback

Each pre-operation callback ends in one of a few states, according to what the
external routines answer.  `PrePaths` lists them for a callback without a copy
stage (`csgPreReadBuffers`, `csgPreDirCtrlBuffers`), `PreWritePaths` for
`csgPreWriteBuffers`.  `wantMdl` says whether the callback builds an MDL and
`size` is the number of bytes it asks the pool for. -/

/-- The value of `newMdl` once the MDL stage is over. -/
def newMdlOf (wantMdl : Bool) (m : Nat) : Nat := if wantMdl then m else 0

/-- The calls of the MDL stage, `m` being the value of `newMdl` after it. -/
def mdlEvents (wantMdl : Bool) (b n m : Nat) : Trace :=
  if wantMdl then
    if m = 0 then [.IoAllocateMdl b n m] else [.IoAllocateMdl b n m, .MmBuildMdlForNonPagedPool m]
  else []

/-- The call by which the `finally` block frees the MDL, if there is one. -/
def mdlFree (m : Nat) : Trace := if m = 0 then [] else [.IoFreeMdl m]

/-- The call by which `csgPreWriteBuffers` maps the MDL of the original buffer,
if there is one. -/
def mapEvents (env : PreEnv) (Data : FLT_CALLBACK_DATA) : Trace :=
  if Data.Iopb.MdlAddress = 0 then []
  else [.MmGetSystemAddressForMdlSafe Data.Iopb.MdlAddress
          (env.MmGetSystemAddressForMdlSafe Data.Iopb.MdlAddress)]

/-- The callback data after the swap. -/
def swappedData (Data : FLT_CALLBACK_DATA) (b m : Nat) : FLT_CALLBACK_DATA :=
  { Data with Iopb := { Data.Iopb with Buffer := b, MdlAddress := m }, Dirty := true }

/-- The callback data with a status and zero bytes in the result slot. -/
def failedData (Data : FLT_CALLBACK_DATA) (status : NTSTATUS) : FLT_CALLBACK_DATA :=
  { Data with IoStatus := { Status := status, Information := 0 } }

/-- The ways that end before the new buffer exists: zero length, no volume
context, no pool block. -/
def PrePathsEarly (size : VOLUME_CONTEXT → Nat) (env : PreEnv) (Data : FLT_CALLBACK_DATA)
    (memory : Memory) (r : PreState) : Prop :=
  (Data.Iopb.Length = 0 ∧ r = PreState.init Data memory) ∨
  (Data.Iopb.Length ≠ 0 ∧ env.FltGetVolumeContext = none ∧
    r = { PreState.init Data memory with trace := [.FltGetVolumeContext false] }) ∨
  (∃ v, Data.Iopb.Length ≠ 0 ∧ env.FltGetVolumeContext = some v ∧
    env.ExAllocatePoolWithTag (size v) = 0 ∧
    r = { PreState.init Data memory with
          volCtx := some v
          trace := [.FltGetVolumeContext true, .ExAllocatePoolWithTag (size v) 0,
                    .FltReleaseContext] })

/-- The way that ends at a failed `IoAllocateMdl`. -/
def PrePathNoMdl (wantMdl : Bool) (size : VOLUME_CONTEXT → Nat) (env : PreEnv)
    (Data : FLT_CALLBACK_DATA) (memory : Memory) (r : PreState) : Prop :=
  ∃ v b, Data.Iopb.Length ≠ 0 ∧ env.FltGetVolumeContext = some v ∧
    env.ExAllocatePoolWithTag (size v) = b ∧ b ≠ 0 ∧ wantMdl = true ∧
    env.IoAllocateMdl b (size v) = 0 ∧
    r = { PreState.init Data memory with
          volCtx := some v, newBuf := b
          memory := { memory with swapped := env.poolContents }
          trace := [.FltGetVolumeContext true, .ExAllocatePoolWithTag (size v) b,
                    .IoAllocateMdl b (size v) 0, .ExFreePool b, .FltReleaseContext] }

/-- The facts common to the ways that get past the MDL stage: the volume
context `v`, the new buffer `b` and the value `m` of `newMdl`. -/
def PastMdl (wantMdl : Bool) (size : VOLUME_CONTEXT → Nat) (env : PreEnv)
    (Data : FLT_CALLBACK_DATA) (v : VOLUME_CONTEXT) (b m : Nat) : Prop :=
  Data.Iopb.Length ≠ 0 ∧ env.FltGetVolumeContext = some v ∧
    env.ExAllocatePoolWithTag (size v) = b ∧ b ≠ 0 ∧
    newMdlOf wantMdl (env.IoAllocateMdl b (size v)) = m ∧ (wantMdl = true → m ≠ 0)

/-- The ways through `csgPreReadBuffers` and `csgPreDirCtrlBuffers`. -/
def PrePaths (wantMdl : Bool) (size : VOLUME_CONTEXT → Nat) (env : PreEnv)
    (Data : FLT_CALLBACK_DATA) (memory : Memory) (r : PreState) : Prop :=
  PrePathsEarly size env Data memory r ∨
  PrePathNoMdl wantMdl size env Data memory r ∨
  (∃ v b m, PastMdl wantMdl size env Data v b m ∧
    env.ExAllocateFromNPagedLookasideList = false ∧
    r = { PreState.init Data memory with
          volCtx := some v, newBuf := b, newMdl := m
          memory := { memory with swapped := env.poolContents }
          trace := [.FltGetVolumeContext true, .ExAllocatePoolWithTag (size v) b] ++
                   mdlEvents wantMdl b (size v) m ++
                   [.ExAllocateFromNPagedLookasideList false, .ExFreePool b] ++ mdlFree m ++
                   [.FltReleaseContext] }) ∨
  (∃ v b m, PastMdl wantMdl size env Data v b m ∧
    env.ExAllocateFromNPagedLookasideList = true ∧
    r = { retValue := FLT_PREOP_SUCCESS_WITH_CALLBACK
          newBuf := b, newMdl := m, volCtx := some v
          Data := swappedData Data b m
          CompletionContext := some { VolCtx := v, SwappedBuffer := b }
          memory := { memory with swapped := env.poolContents }
          trace := [.FltGetVolumeContext true, .ExAllocatePoolWithTag (size v) b] ++
                   mdlEvents wantMdl b (size v) m ++
                   [.ExAllocateFromNPagedLookasideList true, .FltSetCallbackDataDirty] })

/-- The ways through `csgPreWriteBuffers`. -/
def PreWritePaths (wantMdl : Bool) (size : VOLUME_CONTEXT → Nat) (env : PreEnv)
    (Data : FLT_CALLBACK_DATA) (memory : Memory) (r : PreState) : Prop :=
  PrePathsEarly size env Data memory r ∨
  PrePathNoMdl wantMdl size env Data memory r ∨
  (∃ v b m, PastMdl wantMdl size env Data v b m ∧
    Data.Iopb.MdlAddress ≠ 0 ∧ env.MmGetSystemAddressForMdlSafe Data.Iopb.MdlAddress = 0 ∧
    r = { retValue := FLT_PREOP_COMPLETE
          newBuf := b, newMdl := m, volCtx := some v
          Data := failedData Data STATUS_INSUFFICIENT_RESOURCES
          CompletionContext := none
          memory := { memory with swapped := env.poolContents }
          trace := [.FltGetVolumeContext true, .ExAllocatePoolWithTag (size v) b] ++
                   mdlEvents wantMdl b (size v) m ++ mapEvents env Data ++
                   [.ExFreePool b] ++ mdlFree m ++ [.FltReleaseContext] }) ∨
  (∃ v b m code written, PastMdl wantMdl size env Data v b m ∧
    (Data.Iopb.MdlAddress ≠ 0 → env.MmGetSystemAddressForMdlSafe Data.Iopb.MdlAddress ≠ 0) ∧
    env.RtlCopyMemory = .faulted code written ∧
    r = { retValue := FLT_PREOP_COMPLETE
          newBuf := b, newMdl := m, volCtx := some v
          Data := failedData Data code
          CompletionContext := none
          memory := { memory with
            swapped := guardedCopy env.poolContents memory.original (size v)
                         (.faulted code written) }
          trace := [.FltGetVolumeContext true, .ExAllocatePoolWithTag (size v) b] ++
                   mdlEvents wantMdl b (size v) m ++ mapEvents env Data ++
                   [.RtlCopyMemory false (size v), .ExFreePool b] ++ mdlFree m ++
                   [.FltReleaseContext] }) ∨
  (∃ v b m, PastMdl wantMdl size env Data v b m ∧
    (Data.Iopb.MdlAddress ≠ 0 → env.MmGetSystemAddressForMdlSafe Data.Iopb.MdlAddress ≠ 0) ∧
    env.RtlCopyMemory = .completed ∧ env.ExAllocateFromNPagedLookasideList = false ∧
    r = { PreState.init Data memory with
          volCtx := some v, newBuf := b, newMdl := m
          memory := { memory with
            swapped := RtlCopyMemory env.poolContents memory.original (size v) }
          trace := [.FltGetVolumeContext true, .ExAllocatePoolWithTag (size v) b] ++
                   mdlEvents wantMdl b (size v) m ++ mapEvents env Data ++
                   [.RtlCopyMemory false (size v), .ExAllocateFromNPagedLookasideList false,
                    .ExFreePool b] ++ mdlFree m ++ [.FltReleaseContext] }) ∨
  (∃ v b m, PastMdl wantMdl size env Data v b m ∧
    (Data.Iopb.MdlAddress ≠ 0 → env.MmGetSystemAddressForMdlSafe Data.Iopb.MdlAddress ≠ 0) ∧
    env.RtlCopyMemory = .completed ∧ env.ExAllocateFromNPagedLookasideList = true ∧
    r = { retValue := FLT_PREOP_SUCCESS_WITH_CALLBACK
          newBuf := b, newMdl := m, volCtx := some v
          Data := swappedData Data b m
          CompletionContext := some { VolCtx := v, SwappedBuffer := b }
          memory := { memory with
            swapped := RtlCopyMemory env.poolContents memory.original (size v) }
          trace := [.FltGetVolumeContext true, .ExAllocatePoolWithTag (size v) b] ++
                   mdlEvents wantMdl b (size v) m ++ mapEvents env Data ++
                   [.RtlCopyMemory false (size v), .ExAllocateFromNPagedLookasideList true,
                    .FltSetCallbackDataDirty] })

/-- The number of bytes `csgPreReadBuffers` and `csgPreWriteBuffers` ask the
pool for on a volume `v`. -/
def transferSize (Data : FLT_CALLBACK_DATA) (v : VOLUME_CONTEXT) : Nat :=
  roundIfNoCache Data.Iopb.IrpFlags Data.Iopb.Length v.SectorSize

/-! ## The ways through a post-operation callback -/

/-- The three releases, as calls. -/
def releaseEvents (p2pCtx : PRE_2_POST_CONTEXT) : Trace :=
  [.ExFreePool p2pCtx.SwappedBuffer, .FltReleaseContext, .ExFreeToNPagedLookasideList]

/-- There is data to copy back: the operation succeeded and transferred
something. -/
def HasData (Data : FLT_CALLBACK_DATA) : Prop :=
  NT_SUCCESS Data.IoStatus.Status = true ∧ Data.IoStatus.Information ≠ 0

/-- The post-operation callback has an address for the original buffer: its
MDL can be mapped, or it has no MDL and is a system buffer or belongs to a fast
I/O operation. -/
def Addressable (env : PostEnv) (Data : FLT_CALLBACK_DATA) : Prop :=
  (Data.Iopb.MdlAddress ≠ 0 ∧ env.MmGetSystemAddressForMdlSafe Data.Iopb.MdlAddress ≠ 0) ∨
  (Data.Iopb.MdlAddress = 0 ∧
    (FlagOn Data.Flags FLTFL_CALLBACK_DATA_SYSTEM_BUFFER = true ∨
     FlagOn Data.Flags FLTFL_CALLBACK_DATA_FAST_IO_OPERATION = true))

/-- The post-operation callback has to get to a safe IRQL: the original buffer
has no MDL and is neither a system buffer nor the buffer of a fast I/O
operation. -/
def NeedsSafeContext (Data : FLT_CALLBACK_DATA) : Prop :=
  Data.Iopb.MdlAddress = 0 ∧ FlagOn Data.Flags FLTFL_CALLBACK_DATA_SYSTEM_BUFFER = false ∧
    FlagOn Data.Flags FLTFL_CALLBACK_DATA_FAST_IO_OPERATION = false

/-- The call by which a post-operation callback maps the MDL of the original
buffer, if there is one. -/
def postMapEvents (env : PostEnv) (Data : FLT_CALLBACK_DATA) : Trace :=
  if Data.Iopb.MdlAddress = 0 then []
  else [.MmGetSystemAddressForMdlSafe Data.Iopb.MdlAddress
          (env.MmGetSystemAddressForMdlSafe Data.Iopb.MdlAddress)]

/-- The ways through a safe callback entered in state `s` that copies `n`
bytes: the lock fails; the MDL cannot be mapped; the copy is made. -/
def SafePaths (n : Nat) (env : PostEnv) (p2pCtx : PRE_2_POST_CONTEXT) (s r : PostState) :
    Prop :=
  (NT_SUCCESS env.FltLockUserBuffer = false ∧
    r = { s with
          retValue := FLT_POSTOP_FINISHED_PROCESSING
          Data := failedData s.Data env.FltLockUserBuffer
          trace := s.trace ++
            [.ASSERT (s.Data.IoStatus.Information != 0),
             .FltLockUserBuffer env.FltLockUserBuffer] ++ releaseEvents p2pCtx }) ∨
  (NT_SUCCESS env.FltLockUserBuffer = true ∧
    env.MmGetSystemAddressForMdlSafe (lockUserBuffer env s.Data).Iopb.MdlAddress = 0 ∧
    r = { s with
          retValue := FLT_POSTOP_FINISHED_PROCESSING
          Data := failedData (lockUserBuffer env s.Data) STATUS_INSUFFICIENT_RESOURCES
          trace := s.trace ++
            [.ASSERT (s.Data.IoStatus.Information != 0),
             .FltLockUserBuffer env.FltLockUserBuffer,
             .MmGetSystemAddressForMdlSafe (lockUserBuffer env s.Data).Iopb.MdlAddress 0] ++
            releaseEvents p2pCtx }) ∨
  (NT_SUCCESS env.FltLockUserBuffer = true ∧
    env.MmGetSystemAddressForMdlSafe (lockUserBuffer env s.Data).Iopb.MdlAddress ≠ 0 ∧
    r = { s with
          retValue := FLT_POSTOP_FINISHED_PROCESSING
          Data := lockUserBuffer env s.Data
          memory := { s.memory with
            original := RtlCopyMemory s.memory.original s.memory.swapped n }
          trace := s.trace ++
            [.ASSERT (s.Data.IoStatus.Information != 0),
             .FltLockUserBuffer env.FltLockUserBuffer,
             .MmGetSystemAddressForMdlSafe (lockUserBuffer env s.Data).Iopb.MdlAddress
               (env.MmGetSystemAddressForMdlSafe (lockUserBuffer env s.Data).Iopb.MdlAddress),
             .RtlCopyMemory true n] ++ releaseEvents p2pCtx })

/-- The ways through `csgPostReadBuffers` and `csgPostDirCtrlBuffers` that end
in the callback itself, `n` being the number of bytes a copy moves: nothing to
copy; the MDL cannot be mapped; the copy runs to its end; the copy faults; the
safe context is refused. -/
def PostDirectPaths (n : Nat) (env : PostEnv) (Data : FLT_CALLBACK_DATA)
    (p2pCtx : PRE_2_POST_CONTEXT) (Flags : Nat) (memory : Memory) (r : PostState) : Prop :=
  (¬ HasData Data ∧
    r = { PostState.init Data Flags memory with
          trace := (PostState.init Data Flags memory).trace ++ releaseEvents p2pCtx }) ∨
  (HasData Data ∧ Data.Iopb.MdlAddress ≠ 0 ∧
    env.MmGetSystemAddressForMdlSafe Data.Iopb.MdlAddress = 0 ∧
    r = { PostState.init Data Flags memory with
          Data := failedData Data STATUS_INSUFFICIENT_RESOURCES
          trace := (PostState.init Data Flags memory).trace ++
            [.MmGetSystemAddressForMdlSafe Data.Iopb.MdlAddress 0] ++ releaseEvents p2pCtx }) ∨
  (HasData Data ∧ Addressable env Data ∧ env.RtlCopyMemory = .completed ∧
    r = { PostState.init Data Flags memory with
          memory := { memory with original := RtlCopyMemory memory.original memory.swapped n }
          trace := (PostState.init Data Flags memory).trace ++ postMapEvents env Data ++
            [.RtlCopyMemory true n] ++ releaseEvents p2pCtx }) ∨
  (∃ code written, HasData Data ∧ Addressable env Data ∧
    env.RtlCopyMemory = .faulted code written ∧
    r = { PostState.init Data Flags memory with
          Data := failedData Data code
          memory := { memory with
            original := guardedCopy memory.original memory.swapped n (.faulted code written) }
          trace := (PostState.init Data Flags memory).trace ++ postMapEvents env Data ++
            [.RtlCopyMemory true n] ++ releaseEvents p2pCtx }) ∨
  (HasData Data ∧ NeedsSafeContext Data ∧ env.FltDoCompletionProcessingWhenSafe = .rejected ∧
    r = { PostState.init Data Flags memory with
          Data := failedData Data STATUS_UNSUCCESSFUL
          trace := (PostState.init Data Flags memory).trace ++
            [.FltDoCompletionProcessingWhenSafe .rejected] ++ releaseEvents p2pCtx })

/-- The ways through `csgPostReadBuffers` and `csgPostDirCtrlBuffers`: the
direct ones; the safe callback is posted; the safe callback is run on the
spot. -/
def PostPaths (n : Nat) (env : PostEnv) (Data : FLT_CALLBACK_DATA)
    (p2pCtx : PRE_2_POST_CONTEXT) (Flags : Nat) (memory : Memory) (r : PostState) : Prop :=
  PostDirectPaths n env Data p2pCtx Flags memory r ∨
  (HasData Data ∧ NeedsSafeContext Data ∧ env.FltDoCompletionProcessingWhenSafe = .posted ∧
    r = { PostState.init Data Flags memory with
          retValue := FLT_POSTOP_MORE_PROCESSING_REQUIRED
          cleanupAllocatedBuffer := false
          queued := true
          trace := (PostState.init Data Flags memory).trace ++
            [.FltDoCompletionProcessingWhenSafe .posted] }) ∨
  (∃ x, HasData Data ∧ NeedsSafeContext Data ∧
    env.FltDoCompletionProcessingWhenSafe = .synchronous ∧
    SafePaths n env p2pCtx
      ((PostState.init Data Flags memory).log (.FltDoCompletionProcessingWhenSafe .synchronous))
      x ∧
    r = { x with cleanupAllocatedBuffer := false })

/-- The ways through a post-step brought to its end: the direct ones, or the
safe callback has run, on the spot or on the worker thread. -/
def PostStepPaths (n : Nat) (env : PostEnv) (Data : FLT_CALLBACK_DATA)
    (p2pCtx : PRE_2_POST_CONTEXT) (Flags : Nat) (memory : Memory) (r : PostState) : Prop :=
  PostDirectPaths n env Data p2pCtx Flags memory r ∨
  (∃ x, HasData Data ∧ NeedsSafeContext Data ∧
    env.FltDoCompletionProcessingWhenSafe ≠ .rejected ∧
    SafePaths n env p2pCtx
      ((PostState.init Data Flags memory).log
        (.FltDoCompletionProcessingWhenSafe env.FltDoCompletionProcessingWhenSafe)) x ∧
    r = { x with cleanupAllocatedBuffer := false })

/-! ## Vocabulary of the claims -/

/-- The number `r` is the smallest multiple of `A` that is at least `L`. -/
def IsLeastMultipleAtLeast (A L r : Nat) : Prop :=
  A ∣ r ∧ L ≤ r ∧ ∀ m, A ∣ m → L ≤ m → r ≤ m

/-- The original buffer can be reached and written: the callback has an address
for it and its copy runs to the end; or it needs a safe context, gets one, the
lock succeeds and the locked buffer can be mapped. -/
def DestinationReachable (env : PostEnv) (Data : FLT_CALLBACK_DATA) : Prop :=
  (Addressable env Data ∧ env.RtlCopyMemory = .completed) ∨
  (NeedsSafeContext Data ∧ env.FltDoCompletionProcessingWhenSafe ≠ .rejected ∧
    NT_SUCCESS env.FltLockUserBuffer = true ∧
    env.MmGetSystemAddressForMdlSafe (lockUserBuffer env Data).Iopb.MdlAddress ≠ 0)

/-! ## Vocabulary of the later claims -/

/-- One of the four degradable failures shows in a trace: the volume context
lookup failed, or the pool, the MDL allocator or the lookaside list returned
`NULL`. -/
def DegradableFailure (t : Trace) : Prop :=
  Event.FltGetVolumeContext false ∈ t ∨ (∃ n, Event.ExAllocatePoolWithTag n 0 ∈ t) ∨
    (∃ b n, Event.IoAllocateMdl b n 0 ∈ t) ∨ Event.ExAllocateFromNPagedLookasideList false ∈ t

/-- Number of calls of `FltDoCompletionProcessingWhenSafe`. -/
def deferralAttempts (t : Trace) : Nat :=
  t.countP fun e => e matches .FltDoCompletionProcessingWhenSafe _

/-- The pointers handed to `ExFreePool`, oldest first. -/
def poolFreed (t : Trace) : List Nat :=
  t.filterMap fun e => match e with
    | .ExFreePool p => some p
    | _ => none

/-- The body of the safe callbacks when the fate of their copy is left open.
The copy stands outside any `try`, so an exception it raises leaves the
callback: the statements after the copy are not reached and the callback does
not return, which is the result `none`.  `unguarded` is the fate of the copy. -/
def swapPostBuffersWhenSafe_raising (unguarded : CopyOutcome)
    (count : FLT_CALLBACK_DATA → Nat) (env : PostEnv) (p2pCtx : PRE_2_POST_CONTEXT)
    (s : PostState) : Option PostState :=
  let s := s.log (.ASSERT (s.Data.IoStatus.Information != 0))
  let status := env.FltLockUserBuffer
  let s := s.log (.FltLockUserBuffer status)
  if !NT_SUCCESS status then
    some { (s.fail status).release p2pCtx with retValue := FLT_POSTOP_FINISHED_PROCESSING }
  else
    let s := { s with Data := lockUserBuffer env s.Data }
    let origBuf := env.MmGetSystemAddressForMdlSafe s.Data.Iopb.MdlAddress
    let s := s.log (.MmGetSystemAddressForMdlSafe s.Data.Iopb.MdlAddress origBuf)
    if origBuf = 0 then
      some { (s.fail STATUS_INSUFFICIENT_RESOURCES).release p2pCtx with
             retValue := FLT_POSTOP_FINISHED_PROCESSING }
    else
      match unguarded with
      | .faulted _ _ => none
      | .completed =>
        some { ({ s.log (.RtlCopyMemory true (count s.Data)) with
                  memory := { s.memory with
                    original := RtlCopyMemory s.memory.original s.memory.swapped
                                  (count s.Data) } }).release p2pCtx with
               retValue := FLT_POSTOP_FINISHED_PROCESSING }

/-- The safe callback `SwapPostReadBuffersWhenSafe` when the fate of its copy is
left open. -/
def SwapPostReadBuffersWhenSafe_raising (unguarded : CopyOutcome) (env : PostEnv)
    (p2pCtx : PRE_2_POST_CONTEXT) (s : PostState) : Option PostState :=
  swapPostBuffersWhenSafe_raising unguarded (fun Data => Data.IoStatus.Information) env
    p2pCtx s

/-- The environment `preEnvOk` with an empty `Pre2PostContextList`. -/
def preEnvNoLink : PreEnv := { preEnvOk with ExAllocateFromNPagedLookasideList := false }

/-- The environment `postEnvOk` with a guarded copy that faults after one
kilobyte. -/
def postEnvFault : PostEnv :=
  { postEnvOk with RtlCopyMemory := .faulted STATUS_ACCESS_VIOLATION firstKilobyte }

/-- The environment `postEnvOk` with a filter manager that cannot get to a safe
IRQL. -/
def postEnvRejected : PostEnv := { postEnvOk with FltDoCompletionProcessingWhenSafe := .rejected }

/-- A read of 100 bytes into a user buffer without MDL that the lower layers
completed with 100 bytes. -/
def userRead : FLT_CALLBACK_DATA := completedWith (dataOf 100 0 0) STATUS_SUCCESS 100

/-- What claim C15 says of a post-operation callback `post` whose safe callback
is `safe`, called where it asks for a safe context.  When the safe callback is
posted, `post` has made no call but the request, its result slot and the
caller's buffer are as they were and it returns
`FLT_POSTOP_MORE_PROCESSING_REQUIRED`.  When the safe callback has run on the
spot, `post` adds nothing to what the safe callback did and returns what the
safe callback returned. -/
def LeavesReleaseToSafeCallback
    (post : PostEnv → FLT_CALLBACK_DATA → PRE_2_POST_CONTEXT → Nat → Memory → PostState)
    (safe : PostEnv → PRE_2_POST_CONTEXT → PostState → PostState)
    (env : PostEnv) (Data : FLT_CALLBACK_DATA) (p2pCtx : PRE_2_POST_CONTEXT) (Flags : Nat)
    (memory : Memory) : Prop :=
  (env.FltDoCompletionProcessingWhenSafe = .posted →
    (post env Data p2pCtx Flags memory).retValue = FLT_POSTOP_MORE_PROCESSING_REQUIRED ∧
    (post env Data p2pCtx Flags memory).queued = true ∧
    (post env Data p2pCtx Flags memory).trace =
      [.ASSERT (!FlagOn Flags FLTFL_POST_OPERATION_DRAINING),
       .FltDoCompletionProcessingWhenSafe .posted] ∧
    poolFreed (post env Data p2pCtx Flags memory).trace = [] ∧
    contextReleases (post env Data p2pCtx Flags memory).trace = 0 ∧
    linksReleased (post env Data p2pCtx Flags memory).trace = 0 ∧
    (post env Data p2pCtx Flags memory).Data = Data ∧
    (post env Data p2pCtx Flags memory).memory = memory) ∧
  (env.FltDoCompletionProcessingWhenSafe = .synchronous →
    (post env Data p2pCtx Flags memory).retValue =
      (safe env p2pCtx ((PostState.init Data Flags memory).log
        (.FltDoCompletionProcessingWhenSafe .synchronous))).retValue ∧
    (post env Data p2pCtx Flags memory).queued = false ∧
    (post env Data p2pCtx Flags memory).trace =
      (safe env p2pCtx ((PostState.init Data Flags memory).log
        (.FltDoCompletionProcessingWhenSafe .synchronous))).trace ∧
    (post env Data p2pCtx Flags memory).Data =
      (safe env p2pCtx ((PostState.init Data Flags memory).log
        (.FltDoCompletionProcessingWhenSafe .synchronous))).Data ∧
    (post env Data p2pCtx Flags memory).memory =
      (safe env p2pCtx ((PostState.init Data Flags memory).log
        (.FltDoCompletionProcessingWhenSafe .synchronous))).memory)

/-- What claim C16 says of the state `r` in which a post-operation callback
ends: the result slot holds `STATUS_UNSUCCESSFUL` and 0 bytes, no copy into the
caller's buffer was made and that buffer is as it was, the three releases were
made once each, no safe callback is left to run and the return value is
`FLT_POSTOP_FINISHED_PROCESSING`. -/
def FailedOutright (Data : FLT_CALLBACK_DATA) (p2pCtx : PRE_2_POST_CONTEXT) (memory : Memory)
    (r : PostState) : Prop :=
  r.Data.IoStatus = { Status := STATUS_UNSUCCESSFUL, Information := 0 } ∧
  r.Data.Iopb = Data.Iopb ∧
  copiesToOriginal r.trace = [] ∧
  r.memory.original = memory.original ∧
  poolFreed r.trace = [p2pCtx.SwappedBuffer] ∧
  contextReleases r.trace = 1 ∧
  linksReleased r.trace = 1 ∧
  r.queued = false ∧
  r.retValue = FLT_POSTOP_FINISHED_PROCESSING

/-- The acquisitions of a swap all show as successes in a trace: the volume
context was found, the pool returned a block, no call of `IoAllocateMdl`
returned `NULL` and the lookaside list returned an object. -/
def SwapAcquired (t : Trace) : Prop :=
  Event.FltGetVolumeContext true ∈ t ∧ (∃ n b, b ≠ 0 ∧ Event.ExAllocatePoolWithTag n b ∈ t) ∧
    (t.all fun e => !(e matches .IoAllocateMdl _ _ 0)) = true ∧
    Event.ExAllocateFromNPagedLookasideList true ∈ t

/-- The pool blocks obtained from `ExAllocatePoolWithTag`, oldest first. -/
def poolAcquired (t : Trace) : List Nat :=
  t.filterMap fun e => match e with
    | .ExAllocatePoolWithTag _ p => if p = 0 then none else some p
    | _ => none

/-- The MDLs obtained from `IoAllocateMdl`, oldest first. -/
def mdlAcquired (t : Trace) : List Nat :=
  t.filterMap fun e => match e with
    | .IoAllocateMdl _ _ m => if m = 0 then none else some m
    | _ => none

/-- The MDLs handed to `IoFreeMdl`, oldest first. -/
def mdlFreed (t : Trace) : List Nat :=
  t.filterMap fun e => match e with
    | .IoFreeMdl m => some m
    | _ => none

/-- Number of volume context references obtained from `FltGetVolumeContext`. -/
def contextsAcquired (t : Trace) : Nat := t.count (.FltGetVolumeContext true)

/-- What claim C19 says of a trace: the pool blocks freed are the pool blocks
obtained, the MDLs freed are the MDLs obtained, as many context references were
released as were obtained, and at most one of each was obtained. -/
def ReleasedWhatWasAcquired (t : Trace) : Prop :=
  poolFreed t = poolAcquired t ∧ mdlFreed t = mdlAcquired t ∧
    contextReleases t = contextsAcquired t ∧
    (poolAcquired t).length ≤ 1 ∧ (mdlAcquired t).length ≤ 1 ∧ contextsAcquired t ≤ 1

/-! ## Instance setup (`InstanceSetup` of `csg.c`) -/

/-- Modelled from the spec: the failure status `STATUS_FLT_DO_NOT_ATTACH` of the
kit headers, `0xC01C000F` as a signed value. -/
def STATUS_FLT_DO_NOT_ATTACH : NTSTATUS := -1071906801

/-- Modelled from the spec: the failure status
`STATUS_FLT_CONTEXT_ALREADY_DEFINED` of the kit headers, `0xC01C0002` as a signed
value. -/
def STATUS_FLT_CONTEXT_ALREADY_DEFINED : NTSTATUS := -1071906814

/-- Modelled from the spec: the failure status `STATUS_FLT_DELETING_OBJECT` of
the kit headers, `0xC01C000B` as a signed value. -/
def STATUS_FLT_DELETING_OBJECT : NTSTATUS := -1071906805

/-- Modelled from the spec: the members of `FLT_VOLUME_PROPERTIES`, declared in
the kit headers, that `InstanceSetup` reads.  A name is the list of its code
units. -/
structure FLT_VOLUME_PROPERTIES where
  SectorSize : Nat
  RealDeviceName : List Nat
  FileSystemDeviceName : List Nat
  deriving DecidableEq, Repr

/-- Modelled from the spec: the member `Length` of a `UNICODE_STRING`, the
number of bytes of its code units (`sizeof(WCHAR)` each). -/
def unicodeLength (name : List Nat) : Nat := 2 * name.length

/-- Modelled from the spec: `RtlCopyUnicodeString` of the kit, which copies as
many code units of the source as fit `MaximumLength` bytes. -/
def RtlCopyUnicodeString (MaximumLength : Nat) (source : List Nat) : List Nat :=
  source.take (MaximumLength / 2)

/-- Modelled from the spec: `RtlAppendUnicodeToString` of the kit, which appends
the source when the result fits `MaximumLength` bytes and leaves the destination
alone otherwise. -/
def RtlAppendUnicodeToString (MaximumLength : Nat) (destination source : List Nat) :
    List Nat :=
  if unicodeLength destination + unicodeLength source ≤ MaximumLength then
    destination ++ source
  else destination

/-- What the external routines answer during one call of `InstanceSetup`.
`newContext` is the contents of the context `FltAllocateContext` returns,
`volProp` the properties `FltGetVolumeProperties` fills in, `dosName` the name
`RtlVolumeDeviceToDosName` returns when it succeeds, and
`ExAllocatePoolWithTag` maps the requested size to the new pointer. -/
structure SetupEnv where
  FltAllocateContext : NTSTATUS
  newContext : VOLUME_CONTEXT
  FltGetVolumeProperties : NTSTATUS
  volProp : FLT_VOLUME_PROPERTIES
  FltGetDiskDeviceObject : NTSTATUS
  RtlVolumeDeviceToDosName : NTSTATUS
  dosName : List Nat
  ExAllocatePoolWithTag : Nat → Nat
  FltSetVolumeContext : NTSTATUS

/-- One call of an external routine made by `InstanceSetup`.
`FltSetVolumeContext ctx status` carries the contents of the context handed to
the filter manager. -/
inductive SetupEvent where
  | FltAllocateContext (status : NTSTATUS)
  | FltGetVolumeProperties (status : NTSTATUS)
  | ASSERT (holds : Bool)
  | FltGetDiskDeviceObject (status : NTSTATUS)
  | RtlVolumeDeviceToDosName (status : NTSTATUS)
  | ExAllocatePoolWithTag (size : Nat) (result : Nat)
  | FltSetVolumeContext (ctx : VOLUME_CONTEXT) (status : NTSTATUS)
  | FltReleaseContext
  | ObDereferenceObject
  deriving DecidableEq, Repr

/-- The locals of `InstanceSetup` and the trace: `ctx` is the contents of the
context once it is allocated, `devObj` says whether `devObj` is non-`NULL`. -/
structure SetupState where
  status : NTSTATUS
  ctx : Option VOLUME_CONTEXT
  devObj : Bool
  trace : List SetupEvent

/-- Append a call to the trace. -/
def SetupState.log (s : SetupState) (e : SetupEvent) : SetupState :=
  { s with trace := s.trace ++ [e] }

/-- The end of the `try` block of `InstanceSetup`, from `FltSetVolumeContext`
on: the context `ctx` is set, and `STATUS_FLT_CONTEXT_ALREADY_DEFINED` is turned
into `STATUS_SUCCESS`. -/
def setVolumeContext (env : SetupEnv) (s : SetupState) (ctx : VOLUME_CONTEXT) : SetupState :=
  let status := env.FltSetVolumeContext
  let s := { s.log (.FltSetVolumeContext ctx status) with ctx := some ctx, status := status }
  if status = STATUS_FLT_CONTEXT_ALREADY_DEFINED then { s with status := STATUS_SUCCESS }
  else s

/-- The branch `if (!NT_SUCCESS(status))` of `InstanceSetup`, taken when no DOS
name was obtained: pick the real device name or else the file system device
name, allocate a buffer for it and a colon, copy it and append the colon.
`size` is a `USHORT`. -/
def useNtName (env : SetupEnv) (s : SetupState) (ctx : VOLUME_CONTEXT) : SetupState :=
  let s := s.log (.ASSERT (ctx.Name == []))
  let named (workingName : List Nat) : SetupState :=
    let size := (unicodeLength workingName + 2) % 2 ^ 16
    let buffer := env.ExAllocatePoolWithTag size
    let s := s.log (.ExAllocatePoolWithTag size buffer)
    if buffer = 0 then { s with status := STATUS_INSUFFICIENT_RESOURCES }
    else
      let name := RtlCopyUnicodeString size workingName
      let name := RtlAppendUnicodeToString size name [58]
      setVolumeContext env s { ctx with Name := name }
  if unicodeLength env.volProp.RealDeviceName > 0 then named env.volProp.RealDeviceName
  else if unicodeLength env.volProp.FileSystemDeviceName > 0 then
    named env.volProp.FileSystemDeviceName
  else { s with status := STATUS_FLT_DO_NOT_ATTACH }

/-- The `try` block of `InstanceSetup`. -/
def InstanceSetup_try (env : SetupEnv) : SetupState :=
  let s : SetupState := { status := STATUS_SUCCESS, ctx := none, devObj := false, trace := [] }
  let status := env.FltAllocateContext
  let s := { s.log (.FltAllocateContext status) with status := status }
  if !NT_SUCCESS status then s
  else
    let s := { s with ctx := some env.newContext }
    let status := env.FltGetVolumeProperties
    let s := { s.log (.FltGetVolumeProperties status) with status := status }
    if !NT_SUCCESS status then s
    else
      let volProp := env.volProp
      let s := s.log (.ASSERT (volProp.SectorSize == 0 ||
        decide (volProp.SectorSize ≥ MIN_SECTOR_SIZE)))
      let ctx : VOLUME_CONTEXT :=
        { Name := [], SectorSize := max volProp.SectorSize MIN_SECTOR_SIZE }
      let s := { s with ctx := some ctx }
      let status := env.FltGetDiskDeviceObject
      let s := { s.log (.FltGetDiskDeviceObject status) with
                 status := status, devObj := NT_SUCCESS status }
      if NT_SUCCESS status then
        let status := env.RtlVolumeDeviceToDosName
        let s := { s.log (.RtlVolumeDeviceToDosName status) with status := status }
        if !NT_SUCCESS status then useNtName env s ctx
        else setVolumeContext env s { ctx with Name := env.dosName }
      else useNtName env s ctx

/-- The `finally` block of `InstanceSetup`. -/
def setupFinally (s : SetupState) : SetupState :=
  let s := if s.ctx.isSome then s.log .FltReleaseContext else s
  let s := if s.devObj then s.log .ObDereferenceObject else s
  s

/-- The routine `InstanceSetup`; the status it returns is the field `status`. -/
def InstanceSetup (env : SetupEnv) : SetupState := setupFinally (InstanceSetup_try env)

/-- No DOS name was obtained: the disk device object or the DOS name lookup
returned a failure status. -/
def DosNameFailed (env : SetupEnv) : Prop :=
  NT_SUCCESS env.FltGetDiskDeviceObject = false ∨
    NT_SUCCESS env.RtlVolumeDeviceToDosName = false

/-- No usable identifying information: no DOS name was obtained and the real
device name and the file system device name are both empty. -/
def NoUsableName (env : SetupEnv) : Prop :=
  DosNameFailed env ∧ env.volProp.RealDeviceName = [] ∧ env.volProp.FileSystemDeviceName = []

/-- The name `InstanceSetup` falls back to when no DOS name was obtained. -/
def workingNameOf (env : SetupEnv) : List Nat :=
  if env.volProp.RealDeviceName ≠ [] then env.volProp.RealDeviceName
  else env.volProp.FileSystemDeviceName

/-- The conditions under which `InstanceSetup` returns a failure status. -/
def AttachRefused (env : SetupEnv) : Prop :=
  NT_SUCCESS env.FltAllocateContext = false ∨
  NT_SUCCESS env.FltGetVolumeProperties = false ∨
  NoUsableName env ∨
  (DosNameFailed env ∧ workingNameOf env ≠ [] ∧
    env.ExAllocatePoolWithTag ((unicodeLength (workingNameOf env) + 2) % 2 ^ 16) = 0) ∨
  (NT_SUCCESS env.FltSetVolumeContext = false ∧
    env.FltSetVolumeContext ≠ STATUS_FLT_CONTEXT_ALREADY_DEFINED)

/-- A volume that reports 512-byte sectors and the real device name `\D`. -/
def volProp512 : FLT_VOLUME_PROPERTIES :=
  { SectorSize := 0x200, RealDeviceName := [92, 68], FileSystemDeviceName := [] }

/-- An environment of `InstanceSetup` in which every routine succeeds and the
DOS name is `C:`. -/
def setupEnvOk : SetupEnv :=
  { FltAllocateContext := STATUS_SUCCESS
    newContext := { Name := [], SectorSize := 0 }
    FltGetVolumeProperties := STATUS_SUCCESS
    volProp := volProp512
    FltGetDiskDeviceObject := STATUS_SUCCESS
    RtlVolumeDeviceToDosName := STATUS_SUCCESS
    dosName := [67, 58]
    ExAllocatePoolWithTag := fun _ => 4096
    FltSetVolumeContext := STATUS_SUCCESS }

/-- The environment `setupEnvOk` on a volume that reports no sector size. -/
def setupEnvNoSector : SetupEnv :=
  { setupEnvOk with volProp := { volProp512 with SectorSize := 0 } }

/-- The environment `setupEnvOk` with a filter manager that refuses the context
because the volume is being torn down. -/
def setupEnvDeleting : SetupEnv :=
  { setupEnvOk with FltSetVolumeContext := STATUS_FLT_DELETING_OBJECT }

/-- The environment `setupEnvOk` without a DOS name and without pool memory for
the real device name. -/
def setupEnvNoPool : SetupEnv :=
  { setupEnvOk with RtlVolumeDeviceToDosName := STATUS_UNSUCCESSFUL
                    ExAllocatePoolWithTag := fun _ => 0 }

/-- The environment `setupEnvOk` without a DOS name on a volume without
names. -/
def setupEnvNoName : SetupEnv :=
  { setupEnvOk with RtlVolumeDeviceToDosName := STATUS_UNSUCCESSFUL
                    volProp := { volProp512 with RealDeviceName := [] } }

/-- A call of `MmGetSystemAddressForMdlSafe` returned `NULL`. -/
def MappingFailed (t : Trace) : Prop := ∃ m, Event.MmGetSystemAddressForMdlSafe m 0 ∈ t

/-- The call of `FltLockUserBuffer` returned the failure status `status`. -/
def LockFailed (t : Trace) (status : NTSTATUS) : Prop :=
  Event.FltLockUserBuffer status ∈ t ∧ NT_SUCCESS status = false

/-- No copy was made, in either direction. -/
def NoCopy (t : Trace) : Prop := ∀ toOriginal n, Event.RtlCopyMemory toOriginal n ∉ t

/-- A post-step that started from `memory` ended in `r` with the operation
failed with `status` and no byte copied: the result slot holds `status` and 0
bytes, `RtlCopyMemory` was not called and the memory is as it was. -/
def FailedWithoutCopy (status : NTSTATUS) (memory : Memory) (r : PostState) : Prop :=
  r.Data.IoStatus = { Status := status, Information := 0 } ∧ NoCopy r.trace ∧
    r.memory.original = memory.original ∧ r.memory.swapped = memory.swapped

/-- A post-operation environment in which no MDL can be mapped. -/
def postEnvUnmapped : PostEnv := { postEnvOk with MmGetSystemAddressForMdlSafe := fun _ => 0 }

/-- A post-operation environment in which the user buffer cannot be locked. -/
def postEnvUnlocked : PostEnv := { postEnvOk with FltLockUserBuffer := STATUS_ACCESS_VIOLATION }

/-- A pre-operation environment in which no MDL can be mapped. -/
def preEnvUnmapped : PreEnv := { preEnvOk with MmGetSystemAddressForMdlSafe := fun _ => 0 }

/-- What claim C24 says of the trace `t` of a pre-operation callback, `wanted`
being the condition under which the callback builds an MDL.  For every pool
block `b` of `n` bytes the callback obtained: `IoAllocateMdl` is called over `b`
and `n` exactly when `wanted` holds, and `MmBuildMdlForNonPagedPool` is called
exactly on the MDL so allocated, when `wanted` holds and the allocation did not
return `NULL`.  And no MDL is allocated over anything else than a pool block the
callback obtained. -/
def MdlBuiltExactlyWhen (wanted : Bool) (env : PreEnv) (t : Trace) : Prop :=
  (∀ b n, b ≠ 0 → Event.ExAllocatePoolWithTag n b ∈ t →
    ((∃ m, Event.IoAllocateMdl b n m ∈ t) ↔ wanted = true) ∧
    (∀ m, Event.MmBuildMdlForNonPagedPool m ∈ t ↔
      wanted = true ∧ m = env.IoAllocateMdl b n ∧ m ≠ 0)) ∧
  (∀ b n m, Event.IoAllocateMdl b n m ∈ t →
    b ≠ 0 ∧ Event.ExAllocatePoolWithTag n b ∈ t ∧ m = env.IoAllocateMdl b n)

/-- The callback data of a fast I/O operation of `len` bytes on a user buffer at
`256`. -/
def fastIoData (len : Nat) : FLT_CALLBACK_DATA :=
  { dataOf len 0 0 with Flags := FLTFL_CALLBACK_DATA_FAST_IO_OPERATION }

/-- The value `origBuf` has when `csgPostReadBuffers` or `csgPostDirCtrlBuffers`
gets to its copy, following the `if ... else if ... else` of the two callbacks:
the system address of the MDL when there is an MDL, whatever the flags; the
buffer address of the parameter block when there is no MDL and the buffer is a
system buffer or the operation is fast I/O.  It is `none` when the callback
does not get to its copy: the MDL cannot be mapped, or the callback asks for a
safe context. -/
def origBufOf (env : PostEnv) (Data : FLT_CALLBACK_DATA) : Option Nat :=
  if Data.Iopb.MdlAddress ≠ 0 then
    let origBuf := env.MmGetSystemAddressForMdlSafe Data.Iopb.MdlAddress
    if origBuf = 0 then none else some origBuf
  else if FlagOn Data.Flags FLTFL_CALLBACK_DATA_SYSTEM_BUFFER ||
          FlagOn Data.Flags FLTFL_CALLBACK_DATA_FAST_IO_OPERATION then
    some Data.Iopb.Buffer
  else none

/-- What claim C25 says of the state `r` in which a post-operation callback that
copies `n` bytes ends.  The callback calls `FltDoCompletionProcessingWhenSafe`
once when there is data and the buffer needs a safe context, and never
otherwise.  When there is data and an MDL, the callback maps the MDL and asks
for no safe context, whatever the flags; if the mapping succeeds, `origBuf` is
the mapped address and the callback makes its copy.  When there is data, no MDL
and one of the two flags, the callback maps nothing, `origBuf` is the buffer
address of the parameter block and the callback makes its copy. -/
def DeferralRule (n : Nat) (env : PostEnv) (Data : FLT_CALLBACK_DATA) (r : PostState) :
    Prop :=
  (deferralAttempts r.trace = 1 ↔ HasData Data ∧ NeedsSafeContext Data) ∧
  (deferralAttempts r.trace = 0 ↔ ¬ (HasData Data ∧ NeedsSafeContext Data)) ∧
  (HasData Data → Data.Iopb.MdlAddress ≠ 0 →
    Event.MmGetSystemAddressForMdlSafe Data.Iopb.MdlAddress
      (env.MmGetSystemAddressForMdlSafe Data.Iopb.MdlAddress) ∈ r.trace ∧
    deferralAttempts r.trace = 0 ∧
    (env.MmGetSystemAddressForMdlSafe Data.Iopb.MdlAddress ≠ 0 →
      origBufOf env Data = some (env.MmGetSystemAddressForMdlSafe Data.Iopb.MdlAddress) ∧
      copiesToOriginal r.trace = [n])) ∧
  (HasData Data → Data.Iopb.MdlAddress = 0 →
    (FlagOn Data.Flags FLTFL_CALLBACK_DATA_SYSTEM_BUFFER = true ∨
      FlagOn Data.Flags FLTFL_CALLBACK_DATA_FAST_IO_OPERATION = true) →
    (∀ m a, Event.MmGetSystemAddressForMdlSafe m a ∉ r.trace) ∧
    deferralAttempts r.trace = 0 ∧
    origBufOf env Data = some Data.Iopb.Buffer ∧
    copiesToOriginal r.trace = [n])

/-- A read of 100 bytes, completed with 100 bytes, into a system buffer that
also has the MDL `77`. -/
def systemBufferRead : FLT_CALLBACK_DATA :=
  { completedWith (dataOf 100 0 77) STATUS_SUCCESS 100 with
    Flags := FLTFL_CALLBACK_DATA_IRP_OPERATION ||| FLTFL_CALLBACK_DATA_SYSTEM_BUFFER }

/-- A fast I/O read of 100 bytes, completed with 100 bytes, into a buffer
without MDL. -/
def fastIoRead : FLT_CALLBACK_DATA :=
  { completedWith (dataOf 100 0 0) STATUS_SUCCESS 100 with
    Flags := FLTFL_CALLBACK_DATA_FAST_IO_OPERATION }

/-- Byte counts of the copies from the caller's buffer into the substitute
buffer, oldest first. -/
def copiesFromOriginal (t : Trace) : List Nat :=
  t.filterMap fun e => match e with
    | .RtlCopyMemory false n => some n
    | _ => none

/-- The conditions of claim C28 on what the external routines answer to
`csgPreWriteBuffers`: the length is not zero, the volume context `v`, the pool
block and, for an IRP operation, the MDL are obtained, and then either the MDL
of the original buffer cannot be mapped, or it can (if there is one) and the
copy faults. -/
def WriteSourceUnreadable (env : PreEnv) (Data : FLT_CALLBACK_DATA) : Prop :=
  Data.Iopb.Length ≠ 0 ∧
  ∃ v, env.FltGetVolumeContext = some v ∧
    env.ExAllocatePoolWithTag (transferSize Data v) ≠ 0 ∧
    (FlagOn Data.Flags FLTFL_CALLBACK_DATA_IRP_OPERATION = true →
      env.IoAllocateMdl (env.ExAllocatePoolWithTag (transferSize Data v))
        (transferSize Data v) ≠ 0) ∧
    ((Data.Iopb.MdlAddress ≠ 0 ∧
        env.MmGetSystemAddressForMdlSafe Data.Iopb.MdlAddress = 0) ∨
     ((Data.Iopb.MdlAddress ≠ 0 →
        env.MmGetSystemAddressForMdlSafe Data.Iopb.MdlAddress ≠ 0) ∧
      ∃ code written, env.RtlCopyMemory = .faulted code written))

/-- The swap is in place in the state `r` a pre-operation callback ends in: the
buffer reference and the MDL address of the parameter block hold the new buffer
and the new MDL and the dirty mark is set, the rest of the callback data being
as in `Data`; `FltSetCallbackDataDirty` was called; one link was taken; and the
completion context holds the new buffer. -/
def SwapInstalled (Data : FLT_CALLBACK_DATA) (r : PreState) : Prop :=
  r.newBuf ≠ 0 ∧ r.Data = swappedData Data r.newBuf r.newMdl ∧
    Event.FltSetCallbackDataDirty ∈ r.trace ∧ linksAcquired r.trace = 1 ∧
    ∃ v, r.CompletionContext = some { VolCtx := v, SwappedBuffer := r.newBuf }

/-- No part of the swap is in place in the state `r` a pre-operation callback
ends in: the parameter block and the dirty mark are as in `Data`,
`FltSetCallbackDataDirty` was not called, no link was taken and no completion
context is handed out. -/
def SwapAbsent (Data : FLT_CALLBACK_DATA) (r : PreState) : Prop :=
  r.Data.Iopb = Data.Iopb ∧ r.Data.Dirty = Data.Dirty ∧
    Event.FltSetCallbackDataDirty ∉ r.trace ∧ linksAcquired r.trace = 0 ∧
    r.CompletionContext = none

/-- What claim C29 says of the state `r` a pre-operation callback ends in:
either it returns `FLT_PREOP_SUCCESS_WITH_CALLBACK` and the whole swap is in
place, or it returns something else and no part of the swap is; so each part of
the swap is there exactly when the return value is
`FLT_PREOP_SUCCESS_WITH_CALLBACK`. -/
def SwapAllOrNothing (Data : FLT_CALLBACK_DATA) (r : PreState) : Prop :=
  ((r.retValue = FLT_PREOP_SUCCESS_WITH_CALLBACK ∧ SwapInstalled Data r) ∨
    (r.retValue ≠ FLT_PREOP_SUCCESS_WITH_CALLBACK ∧ SwapAbsent Data r)) ∧
  (r.retValue = FLT_PREOP_SUCCESS_WITH_CALLBACK ↔
    Event.FltSetCallbackDataDirty ∈ r.trace) ∧
  (r.retValue = FLT_PREOP_SUCCESS_WITH_CALLBACK ↔ linksAcquired r.trace = 1) ∧
  (r.retValue = FLT_PREOP_SUCCESS_WITH_CALLBACK ↔ r.CompletionContext ≠ none) ∧
  (r.retValue = FLT_PREOP_SUCCESS_WITH_CALLBACK ↔
    r.Data = swappedData Data r.newBuf r.newMdl ∧ r.newBuf ≠ 0 ∧ r.Data.Dirty = true ∧
      Event.FltSetCallbackDataDirty ∈ r.trace)

/-- The result slot `after` is the slot `before`, or it holds a failure status
and 0 bytes. -/
def SlotKeptOrFailed (before after : IO_STATUS_BLOCK) : Prop :=
  after = before ∨ (NT_SUCCESS after.Status = false ∧ after.Information = 0)

/-- The copy back was made and ran to its end: a copy into the caller's buffer
is in the trace and, if it is the guarded copy of the post-operation callback
(no safe context was asked for), it did not fault. -/
def CopyBackSucceeded (env : PostEnv) (r : PostState) : Prop :=
  copiesToOriginal r.trace ≠ [] ∧
    (deferralAttempts r.trace = 0 → env.RtlCopyMemory = .completed)

/-- What claim C30 says of the state `r` a post-step that was given the callback
data `Data` ends in: the result slot is kept or failed; a failure status given
is kept, with its byte count; a copy back that succeeded leaves the slot as it
was; the byte count is the one given or 0. -/
def SlotRule (env : PostEnv) (Data : FLT_CALLBACK_DATA) (r : PostState) : Prop :=
  SlotKeptOrFailed Data.IoStatus r.Data.IoStatus ∧
  (NT_SUCCESS Data.IoStatus.Status = false → r.Data.IoStatus = Data.IoStatus) ∧
  (CopyBackSucceeded env r → r.Data.IoStatus = Data.IoStatus) ∧
  (r.Data.IoStatus.Information = Data.IoStatus.Information ∨
    r.Data.IoStatus.Information = 0)

/-- Exception codes are failure statuses: if the guarded copy faults, the code
of the exception is not a success status. -/
def FaultsAreFailures (env : PostEnv) : Prop :=
  ∀ code written, env.RtlCopyMemory = .faulted code written → NT_SUCCESS code = false

/-! ## The post-steps with the fate of the deferred copy left open

The copy of the safe callbacks is the one copy of the filter that stands
outside any `try`.  The definitions of this section follow the post-operation
callbacks and the post-steps through both fates of that copy; the definitions
without `_outcome` above are the runs in which it runs to its end. -/

/-- The safe callback `SwapPostReadBuffersWhenSafe`, the fate of its copy left
open. -/
def SwapPostReadBuffersWhenSafe_outcome (unguarded : CopyOutcome) (env : PostEnv)
    (p2pCtx : PRE_2_POST_CONTEXT) (s : PostState) : PostOutcome :=
  swapPostBuffersWhenSafe_outcome unguarded (fun Data => Data.IoStatus.Information) env
    p2pCtx s

/-- The safe callback `SwapPostDirCtrlBuffersWhenSafe`, the fate of its copy left
open. -/
def SwapPostDirCtrlBuffersWhenSafe_outcome (unguarded : CopyOutcome) (env : PostEnv)
    (p2pCtx : PRE_2_POST_CONTEXT) (s : PostState) : PostOutcome :=
  swapPostBuffersWhenSafe_outcome unguarded (fun Data => Data.Iopb.Length) env p2pCtx s

/-- The `try` and the `finally` block shared by `csgPostReadBuffers` and
`csgPostDirCtrlBuffers`, the fate `unguarded` of the copy of the safe callback
left open.  When `FltDoCompletionProcessingWhenSafe` runs the safe callback on
the spot and its copy raises, the run is followed up to the exception that
leaves the safe callback and ends there, in the state of that moment: whether a
handler of the filter manager accepts the exception, and the `finally` block
then runs while the stack unwinds, is not in the sources.  When the safe
callback is posted, the post-operation callback has returned before the copy is
made, and no `finally` block stands around the copy. -/
def postBuffers_outcome (unguarded : CopyOutcome) (count : FLT_CALLBACK_DATA → Nat)
    (env : PostEnv) (p2pCtx : PRE_2_POST_CONTEXT) (s : PostState) : PostOutcome :=
  if !NT_SUCCESS s.Data.IoStatus.Status || s.Data.IoStatus.Information == 0 then
    .returned (postFinally p2pCtx s)
  else
    -- the guarded copy, once `origBuf` is known
    let copy (s : PostState) : PostState :=
      let s := { s.log (.RtlCopyMemory true (count s.Data)) with
                 memory := { s.memory with
                   original := guardedCopy s.memory.original s.memory.swapped (count s.Data)
                                 env.RtlCopyMemory } }
      match env.RtlCopyMemory with
      | .faulted code _ => s.fail code
      | .completed => s
    if s.Data.Iopb.MdlAddress ≠ 0 then
      let origBuf := env.MmGetSystemAddressForMdlSafe s.Data.Iopb.MdlAddress
      let s := s.log (.MmGetSystemAddressForMdlSafe s.Data.Iopb.MdlAddress origBuf)
      if origBuf = 0 then .returned (postFinally p2pCtx (s.fail STATUS_INSUFFICIENT_RESOURCES))
      else .returned (postFinally p2pCtx (copy s))
    else if FlagOn s.Data.Flags FLTFL_CALLBACK_DATA_SYSTEM_BUFFER ||
            FlagOn s.Data.Flags FLTFL_CALLBACK_DATA_FAST_IO_OPERATION then
      .returned (postFinally p2pCtx (copy s))
    else
      let s := s.log (.FltDoCompletionProcessingWhenSafe env.FltDoCompletionProcessingWhenSafe)
      match env.FltDoCompletionProcessingWhenSafe with
      | .synchronous =>
        match swapPostBuffersWhenSafe_outcome unguarded count env p2pCtx s with
        | .returned x => .returned (postFinally p2pCtx { x with cleanupAllocatedBuffer := false })
        | .raised code x => .raised code x
      | .posted =>
        .returned (postFinally p2pCtx
          { s with retValue := FLT_POSTOP_MORE_PROCESSING_REQUIRED, queued := true,
                   cleanupAllocatedBuffer := false })
      | .rejected => .returned (postFinally p2pCtx (s.fail STATUS_UNSUCCESSFUL))

/-- The callback `csgPostDirCtrlBuffers`, the fate of the copy of its safe
callback left open. -/
def csgPostDirCtrlBuffers_outcome (unguarded : CopyOutcome) (env : PostEnv)
    (Data : FLT_CALLBACK_DATA) (CompletionContext : PRE_2_POST_CONTEXT) (Flags : Nat)
    (memory : Memory) : PostOutcome :=
  postBuffers_outcome unguarded (fun Data => Data.Iopb.Length) env CompletionContext
    (PostState.init Data Flags memory)

/-- The safe callback run by the worker thread when the post-operation callback
returned and left it posted, the fate of its copy left open. -/
def runQueued_outcome (unguarded : CopyOutcome) (count : FLT_CALLBACK_DATA → Nat)
    (env : PostEnv) (p2pCtx : PRE_2_POST_CONTEXT) : PostOutcome → PostOutcome
  | .returned s =>
    if s.queued then
      match swapPostBuffersWhenSafe_outcome unguarded count env p2pCtx s with
      | .returned x => .returned { x with queued := false }
      | .raised code x => .raised code { x with queued := false }
    else .returned s
  | .raised code s => .raised code s

/-- The directory-control post-step brought to its end, the fate of the deferred
copy left open. -/
def dirCtrlPostStep_outcome (unguarded : CopyOutcome) (env : PostEnv)
    (Data : FLT_CALLBACK_DATA) (CompletionContext : PRE_2_POST_CONTEXT) (Flags : Nat)
    (memory : Memory) : PostOutcome :=
  runQueued_outcome unguarded (fun Data => Data.Iopb.Length) env CompletionContext
    (csgPostDirCtrlBuffers_outcome unguarded env Data CompletionContext Flags memory)

/-- The post-step gets to the copy of the safe callback: there is data, the
buffer needs a safe context, `FltDoCompletionProcessingWhenSafe` accepts, the
lock succeeds and the locked buffer can be mapped. -/
def DeferredCopyReached (env : PostEnv) (Data : FLT_CALLBACK_DATA) : Prop :=
  HasData Data ∧ NeedsSafeContext Data ∧ env.FltDoCompletionProcessingWhenSafe ≠ .rejected ∧
    NT_SUCCESS env.FltLockUserBuffer = true ∧
    env.MmGetSystemAddressForMdlSafe (lockUserBuffer env Data).Iopb.MdlAddress ≠ 0

/-- The state in which an exception leaves the safe callback of a post-step that
was given `Data`, `Flags` and `memory`: the calls made are the `ASSERT` of the
post-operation callback, the request for a safe context, and the `ASSERT`, the
lock, the mapping and the copy of the safe callback. -/
def RaisedIn (n : Nat) (env : PostEnv) (Data : FLT_CALLBACK_DATA) (Flags : Nat)
    (memory : Memory) (unguarded : CopyOutcome) (x : PostState) : Prop :=
  x.trace =
    [.ASSERT (!FlagOn Flags FLTFL_POST_OPERATION_DRAINING),
     .FltDoCompletionProcessingWhenSafe env.FltDoCompletionProcessingWhenSafe,
     .ASSERT (Data.IoStatus.Information != 0),
     .FltLockUserBuffer env.FltLockUserBuffer,
     .MmGetSystemAddressForMdlSafe (lockUserBuffer env Data).Iopb.MdlAddress
       (env.MmGetSystemAddressForMdlSafe (lockUserBuffer env Data).Iopb.MdlAddress),
     .RtlCopyMemory true n] ∧
  x.memory.original = guardedCopy memory.original memory.swapped n unguarded ∧
  x.Data.IoStatus = Data.IoStatus

/-- A copy that raises `STATUS_ACCESS_VIOLATION` after one kilobyte. -/
def faultAfterKilobyte : CopyOutcome := .faulted STATUS_ACCESS_VIOLATION firstKilobyte

/-- What claim C24 says of the state `r` in which `csgPreReadBuffers` or
`csgPreWriteBuffers` ends, in terms of what the external routines answer: when
the length is not zero, the volume context `v` is found and the pool returns a
block `b` for the `n` bytes asked, the callback has made that request; it has
called `IoAllocateMdl` over `b` and `n` exactly when `wanted` holds; and it has
called `MmBuildMdlForNonPagedPool` exactly on the MDL so obtained, when `wanted`
holds and the MDL is not `NULL`. -/
def BuildsMdlOverNewBuffer (wanted : Bool) (env : PreEnv) (Data : FLT_CALLBACK_DATA)
    (size : VOLUME_CONTEXT → Nat) (r : PreState) : Prop :=
  ∀ v, Data.Iopb.Length ≠ 0 → env.FltGetVolumeContext = some v →
    env.ExAllocatePoolWithTag (size v) ≠ 0 →
    Event.ExAllocatePoolWithTag (size v) (env.ExAllocatePoolWithTag (size v)) ∈ r.trace ∧
    (Event.IoAllocateMdl (env.ExAllocatePoolWithTag (size v)) (size v)
        (env.IoAllocateMdl (env.ExAllocatePoolWithTag (size v)) (size v)) ∈ r.trace ↔
      wanted = true) ∧
    (∀ m, Event.MmBuildMdlForNonPagedPool m ∈ r.trace ↔
      wanted = true ∧ m = env.IoAllocateMdl (env.ExAllocatePoolWithTag (size v)) (size v) ∧
        m ≠ 0)

/-! # Proofs -/

/-! ## Rounding -/

theorem mask_land (x j : Nat) (hx : x < 2 ^ 64) (hj : j ≤ 64) :
    x &&& (2 ^ 64 - 1 - (2 ^ j - 1)) = 2 ^ j * (x / 2 ^ j) := by
  have hm : 2 ^ j - 1 < 2 ^ 64 := by
    have : 2 ^ j ≤ 2 ^ 64 := Nat.pow_le_pow_right (by norm_num) hj
    have : 0 < 2 ^ j := Nat.two_pow_pos j
    omega
  have e : 2 ^ 64 - 1 - (2 ^ j - 1) = 2 ^ 64 - ((2 ^ j - 1) + 1) := by omega
  rw [e]
  apply Nat.eq_of_testBit_eq
  intro i
  rw [Nat.testBit_and, Nat.testBit_two_pow_sub_succ hm, Nat.testBit_two_pow_sub_one,
    Nat.testBit_mul_pow_two, ← Nat.shiftRight_eq_div_pow, Nat.testBit_shiftRight]
  by_cases h1 : i < j
  · simp [h1, Nat.not_le.mpr h1]
  · have h2 : j ≤ i := Nat.le_of_not_lt h1
    by_cases h3 : i < 64
    · simp [h1, h2, h3, Nat.add_sub_cancel' h2]
    · have : x.testBit i = false := by
        apply Nat.testBit_lt_two_pow
        exact lt_of_lt_of_le hx (Nat.pow_le_pow_right (by norm_num) (Nat.le_of_not_lt h3))
      simp [h1, h2, h3, Nat.add_sub_cancel' h2, this]

/-- The rounding of `csgPreReadBuffers` and `csgPreWriteBuffers` for a power of
two and a sum that fits 32 bits. -/
theorem round_pow2 (L j : Nat) (hL : 0 < L) (h : L + 2 ^ j - 1 < 2 ^ 32) :
    toULONG (ROUND_TO_SIZE L (2 ^ j)) = 2 ^ j * ((L + 2 ^ j - 1) / 2 ^ j) := by
  have hpos : 0 < 2 ^ j := Nat.two_pow_pos j
  have hA : 2 ^ j < 2 ^ 32 := by omega
  have hj : j < 32 := (Nat.pow_lt_pow_iff_right (by norm_num)).mp hA
  have e1 : (2 ^ j + 2 ^ 32 - 1) % 2 ^ 32 = 2 ^ j - 1 := by
    have : 2 ^ j + 2 ^ 32 - 1 = (2 ^ j - 1) + 2 ^ 32 := by omega
    rw [this, Nat.add_mod_right, Nat.mod_eq_of_lt (by omega)]
  have e2 : (L + (2 ^ j - 1)) % 2 ^ 64 = L + 2 ^ j - 1 := by
    rw [Nat.mod_eq_of_lt (by omega)]; omega
  unfold ROUND_TO_SIZE toULONG
  rw [e1, e2, mask_land _ j (by omega) (by omega)]
  apply Nat.mod_eq_of_lt
  have := Nat.mul_div_le (L + 2 ^ j - 1) (2 ^ j)
  omega

/-- For a power of two and a sum that fits 32 bits, the rounding gives the
smallest multiple that is at least the length. -/
theorem round_least (L j : Nat) (hL : 0 < L) (h : L + 2 ^ j - 1 < 2 ^ 32) :
    IsLeastMultipleAtLeast (2 ^ j) L (toULONG (ROUND_TO_SIZE L (2 ^ j))) := by
  rw [round_pow2 L j hL h]
  have hpos : 0 < 2 ^ j := Nat.two_pow_pos j
  refine ⟨Dvd.intro _ rfl, ?_, ?_⟩
  · have h1 := Nat.div_add_mod (L + 2 ^ j - 1) (2 ^ j)
    have h2 := Nat.mod_lt (L + 2 ^ j - 1) hpos
    omega
  · rintro m ⟨q, rfl⟩ hm
    apply Nat.mul_le_mul_left
    apply Nat.le_of_lt_succ
    apply (Nat.div_lt_iff_lt_mul hpos).mpr
    have : (q + 1) * 2 ^ j = 2 ^ j * q + 2 ^ j := by ring
    rw [Nat.succ_eq_add_one, this]
    omega

/-! ## Every callback follows one of its ways -/

theorem csgPreReadBuffers_paths (env : PreEnv) (Data : FLT_CALLBACK_DATA) (memory : Memory) :
    PrePaths (FlagOn Data.Flags FLTFL_CALLBACK_DATA_IRP_OPERATION) (transferSize Data)
      env Data memory (csgPreReadBuffers env Data memory) := by
  by_cases h0 : Data.Iopb.Length = 0
  · left; left
    simp [csgPreReadBuffers, csgPreReadBuffers_try, preFinally, PreState.init, h0]
  cases hv : env.FltGetVolumeContext with
  | none =>
    left; right; left
    simp [csgPreReadBuffers, csgPreReadBuffers_try, preFinally, PreState.init, PreState.log,
      h0, hv]
  | some v =>
    by_cases hb : env.ExAllocatePoolWithTag (transferSize Data v) = 0
    · left; right; right
      refine ⟨v, h0, hv, hb, ?_⟩
      simp only [transferSize] at hb
      simp [csgPreReadBuffers, csgPreReadBuffers_try, preFinally, PreState.init, PreState.log,
        transferSize, h0, hv, hb]
    right
    have hb2 := hb
    simp only [transferSize] at hb2
    by_cases hirp : FlagOn Data.Flags FLTFL_CALLBACK_DATA_IRP_OPERATION = true
    · by_cases hm : env.IoAllocateMdl (env.ExAllocatePoolWithTag (transferSize Data v))
          (transferSize Data v) = 0
      · left
        refine ⟨v, _, h0, hv, rfl, hb, hirp, hm, ?_⟩
        simp only [transferSize] at hm
        simp [csgPreReadBuffers, csgPreReadBuffers_try, preFinally, PreState.init, PreState.log,
          transferSize, h0, hv, hb2, hirp, hm]
      · right
        have hm2 := hm
        simp only [transferSize] at hm2
        cases hl : env.ExAllocateFromNPagedLookasideList
        · left
          refine ⟨v, _, _, ⟨h0, hv, rfl, hb, rfl, ?_⟩, rfl, ?_⟩
          · simp [newMdlOf, hirp, hm]
          · simp [csgPreReadBuffers, csgPreReadBuffers_try, preFinally, preSwap, PreState.init,
              PreState.log, newMdlOf, mdlEvents, mdlFree, transferSize, h0, hv, hb2, hirp, hm2,
              hl]
        · right
          refine ⟨v, _, _, ⟨h0, hv, rfl, hb, rfl, ?_⟩, rfl, ?_⟩
          · simp [newMdlOf, hirp, hm]
          · simp [csgPreReadBuffers, csgPreReadBuffers_try, preFinally, preSwap, PreState.init,
              PreState.log, newMdlOf, mdlEvents, mdlFree, swappedData, transferSize, h0, hv, hb2,
              hirp, hm2, hl]
    · right
      cases hl : env.ExAllocateFromNPagedLookasideList
      · left
        refine ⟨v, _, _, ⟨h0, hv, rfl, hb, rfl, ?_⟩, rfl, ?_⟩
        · simp [hirp]
        · simp [csgPreReadBuffers, csgPreReadBuffers_try, preFinally, preSwap, PreState.init,
            PreState.log, newMdlOf, mdlEvents, mdlFree, transferSize, h0, hv, hb2, hirp, hl]
      · right
        refine ⟨v, _, _, ⟨h0, hv, rfl, hb, rfl, ?_⟩, rfl, ?_⟩
        · simp [hirp]
        · simp [csgPreReadBuffers, csgPreReadBuffers_try, preFinally, preSwap, PreState.init,
            PreState.log, newMdlOf, mdlEvents, mdlFree, swappedData, transferSize, h0, hv, hb2,
            hirp, hl]

/-- The callback `csgPreDirCtrlBuffers` follows one of the ways of `PrePaths`. -/
theorem csgPreDirCtrlBuffers_paths (env : PreEnv) (Data : FLT_CALLBACK_DATA) (memory : Memory) :
    PrePaths true (fun _ => Data.Iopb.Length) env Data memory
      (csgPreDirCtrlBuffers env Data memory) := by
  by_cases h0 : Data.Iopb.Length = 0
  · left; left
    simp [csgPreDirCtrlBuffers, csgPreDirCtrlBuffers_try, preFinally, PreState.init, h0]
  cases hv : env.FltGetVolumeContext with
  | none =>
    left; right; left
    simp [csgPreDirCtrlBuffers, csgPreDirCtrlBuffers_try, preFinally, PreState.init,
      PreState.log, h0, hv]
  | some v =>
    by_cases hb : env.ExAllocatePoolWithTag Data.Iopb.Length = 0
    · left; right; right
      refine ⟨v, h0, hv, hb, ?_⟩
      simp [csgPreDirCtrlBuffers, csgPreDirCtrlBuffers_try, preFinally, PreState.init,
        PreState.log, h0, hv, hb]
    right
    by_cases hm : env.IoAllocateMdl (env.ExAllocatePoolWithTag Data.Iopb.Length)
        Data.Iopb.Length = 0
    · left
      refine ⟨v, _, h0, hv, rfl, hb, rfl, hm, ?_⟩
      simp [csgPreDirCtrlBuffers, csgPreDirCtrlBuffers_try, preFinally, PreState.init,
        PreState.log, h0, hv, hb, hm]
    · right
      cases hl : env.ExAllocateFromNPagedLookasideList
      · left
        refine ⟨v, _, _, ⟨h0, hv, rfl, hb, rfl, ?_⟩, rfl, ?_⟩
        · simp [newMdlOf, hm]
        · simp [csgPreDirCtrlBuffers, csgPreDirCtrlBuffers_try, preFinally, preSwap,
            PreState.init, PreState.log, newMdlOf, mdlEvents, mdlFree, h0, hv, hb, hm, hl]
      · right
        refine ⟨v, _, _, ⟨h0, hv, rfl, hb, rfl, ?_⟩, rfl, ?_⟩
        · simp [newMdlOf, hm]
        · simp [csgPreDirCtrlBuffers, csgPreDirCtrlBuffers_try, preFinally, preSwap,
            PreState.init, PreState.log, newMdlOf, mdlEvents, mdlFree, swappedData, h0, hv, hb,
            hm, hl]

/-- The callback `csgPreWriteBuffers` follows one of the ways of
`PreWritePaths`. -/
theorem csgPreWriteBuffers_paths (env : PreEnv) (Data : FLT_CALLBACK_DATA) (memory : Memory) :
    PreWritePaths (FlagOn Data.Flags FLTFL_CALLBACK_DATA_IRP_OPERATION) (transferSize Data)
      env Data memory (csgPreWriteBuffers env Data memory) := by
  by_cases h0 : Data.Iopb.Length = 0
  · left; left
    simp [csgPreWriteBuffers, csgPreWriteBuffers_try, preFinally, PreState.init, h0]
  cases hv : env.FltGetVolumeContext with
  | none =>
    left; right; left
    simp [csgPreWriteBuffers, csgPreWriteBuffers_try, preFinally, PreState.init, PreState.log,
      h0, hv]
  | some v =>
    by_cases hb : env.ExAllocatePoolWithTag (transferSize Data v) = 0
    · left; right; right
      refine ⟨v, h0, hv, hb, ?_⟩
      simp only [transferSize] at hb
      simp [csgPreWriteBuffers, csgPreWriteBuffers_try, preFinally, PreState.init, PreState.log,
        transferSize, h0, hv, hb]
    right
    have hb2 := hb
    simp only [transferSize] at hb2
    by_cases hirp : FlagOn Data.Flags FLTFL_CALLBACK_DATA_IRP_OPERATION = true
    · by_cases hm : env.IoAllocateMdl (env.ExAllocatePoolWithTag (transferSize Data v))
          (transferSize Data v) = 0
      · left
        refine ⟨v, _, h0, hv, rfl, hb, hirp, hm, ?_⟩
        simp only [transferSize] at hm
        simp [csgPreWriteBuffers, csgPreWriteBuffers_try, preFinally, PreState.init,
          PreState.log, transferSize, h0, hv, hb2, hirp, hm]
      · right
        have hm2 := hm
        simp only [transferSize] at hm2
        by_cases ho : Data.Iopb.MdlAddress = 0
        · right
          cases hc : env.RtlCopyMemory with
          | faulted code written =>
            left
            refine ⟨v, _, _, code, written, ⟨h0, hv, rfl, hb, rfl, ?_⟩, fun h => absurd ho h, rfl, ?_⟩
            · simp [newMdlOf, hirp, hm]
            · simp [csgPreWriteBuffers, csgPreWriteBuffers_try, preFinally, preSwap,
                PreState.init, PreState.log, newMdlOf, mdlEvents, mdlFree, mapEvents,
                swappedData, failedData, guardedCopy, transferSize, h0, hv, hb2, hirp, hm2, ho,
                hc]
          | completed =>
            right
            cases hl : env.ExAllocateFromNPagedLookasideList
            · left
              refine ⟨v, _, _, ⟨h0, hv, rfl, hb, rfl, ?_⟩, fun h => absurd ho h, rfl, rfl, ?_⟩
              · simp [newMdlOf, hirp, hm]
              · simp [csgPreWriteBuffers, csgPreWriteBuffers_try, preFinally, preSwap,
                  PreState.init, PreState.log, newMdlOf, mdlEvents, mdlFree, mapEvents,
                  swappedData, failedData, guardedCopy, transferSize, h0, hv, hb2, hirp, hm2, ho,
                  hc, hl]
            · right
              refine ⟨v, _, _, ⟨h0, hv, rfl, hb, rfl, ?_⟩, fun h => absurd ho h, rfl, rfl, ?_⟩
              · simp [newMdlOf, hirp, hm]
              · simp [csgPreWriteBuffers, csgPreWriteBuffers_try, preFinally, preSwap,
                  PreState.init, PreState.log, newMdlOf, mdlEvents, mdlFree, mapEvents,
                  swappedData, failedData, guardedCopy, transferSize, h0, hv, hb2, hirp, hm2, ho,
                  hc, hl]
        · by_cases hmap : env.MmGetSystemAddressForMdlSafe Data.Iopb.MdlAddress = 0
          · left
            refine ⟨v, _, _, ⟨h0, hv, rfl, hb, rfl, ?_⟩, ho, hmap, ?_⟩
            · simp [newMdlOf, hirp, hm]
            · simp [csgPreWriteBuffers, csgPreWriteBuffers_try, preFinally, preSwap,
                PreState.init, PreState.log, newMdlOf, mdlEvents, mdlFree, mapEvents,
                swappedData, failedData, guardedCopy, transferSize, h0, hv, hb2, hirp, hm2, ho,
                hmap]
          right
          cases hc : env.RtlCopyMemory with
          | faulted code written =>
            left
            refine ⟨v, _, _, code, written, ⟨h0, hv, rfl, hb, rfl, ?_⟩, fun _ => hmap, rfl, ?_⟩
            · simp [newMdlOf, hirp, hm]
            · simp [csgPreWriteBuffers, csgPreWriteBuffers_try, preFinally, preSwap,
                PreState.init, PreState.log, newMdlOf, mdlEvents, mdlFree, mapEvents,
                swappedData, failedData, guardedCopy, transferSize, h0, hv, hb2, hirp, hm2, ho,
                hmap, hc]
          | completed =>
            right
            cases hl : env.ExAllocateFromNPagedLookasideList
            · left
              refine ⟨v, _, _, ⟨h0, hv, rfl, hb, rfl, ?_⟩, fun _ => hmap, rfl, rfl, ?_⟩
              · simp [newMdlOf, hirp, hm]
              · simp [csgPreWriteBuffers, csgPreWriteBuffers_try, preFinally, preSwap,
                  PreState.init, PreState.log, newMdlOf, mdlEvents, mdlFree, mapEvents,
                  swappedData, failedData, guardedCopy, transferSize, h0, hv, hb2, hirp, hm2, ho,
                  hmap, hc, hl]
            · right
              refine ⟨v, _, _, ⟨h0, hv, rfl, hb, rfl, ?_⟩, fun _ => hmap, rfl, rfl, ?_⟩
              · simp [newMdlOf, hirp, hm]
              · simp [csgPreWriteBuffers, csgPreWriteBuffers_try, preFinally, preSwap,
                  PreState.init, PreState.log, newMdlOf, mdlEvents, mdlFree, mapEvents,
                  swappedData, failedData, guardedCopy, transferSize, h0, hv, hb2, hirp, hm2, ho,
                  hmap, hc, hl]
    · right
      by_cases ho : Data.Iopb.MdlAddress = 0
      · right
        cases hc : env.RtlCopyMemory with
        | faulted code written =>
          left
          refine ⟨v, _, _, code, written, ⟨h0, hv, rfl, hb, rfl, ?_⟩, fun h => absurd ho h, rfl, ?_⟩
          · simp [newMdlOf, hirp]
          · simp [csgPreWriteBuffers, csgPreWriteBuffers_try, preFinally, preSwap, PreState.init,
              PreState.log, newMdlOf, mdlEvents, mdlFree, mapEvents, swappedData, failedData,
              guardedCopy, transferSize, h0, hv, hb2, hirp, ho, hc]
        | completed =>
          right
          cases hl : env.ExAllocateFromNPagedLookasideList
          · left
            refine ⟨v, _, _, ⟨h0, hv, rfl, hb, rfl, ?_⟩, fun h => absurd ho h, rfl, rfl, ?_⟩
            · simp [newMdlOf, hirp]
            · simp [csgPreWriteBuffers, csgPreWriteBuffers_try, preFinally, preSwap,
                PreState.init, PreState.log, newMdlOf, mdlEvents, mdlFree, mapEvents,
                swappedData, failedData, guardedCopy, transferSize, h0, hv, hb2, hirp, ho, hc,
                hl]
          · right
            refine ⟨v, _, _, ⟨h0, hv, rfl, hb, rfl, ?_⟩, fun h => absurd ho h, rfl, rfl, ?_⟩
            · simp [newMdlOf, hirp]
            · simp [csgPreWriteBuffers, csgPreWriteBuffers_try, preFinally, preSwap,
                PreState.init, PreState.log, newMdlOf, mdlEvents, mdlFree, mapEvents,
                swappedData, failedData, guardedCopy, transferSize, h0, hv, hb2, hirp, ho, hc,
                hl]
      · by_cases hmap : env.MmGetSystemAddressForMdlSafe Data.Iopb.MdlAddress = 0
        · left
          refine ⟨v, _, _, ⟨h0, hv, rfl, hb, rfl, ?_⟩, ho, hmap, ?_⟩
          · simp [newMdlOf, hirp]
          · simp [csgPreWriteBuffers, csgPreWriteBuffers_try, preFinally, preSwap, PreState.init,
              PreState.log, newMdlOf, mdlEvents, mdlFree, mapEvents, swappedData, failedData,
              guardedCopy, transferSize, h0, hv, hb2, hirp, ho, hmap]
        right
        cases hc : env.RtlCopyMemory with
        | faulted code written =>
          left
          refine ⟨v, _, _, code, written, ⟨h0, hv, rfl, hb, rfl, ?_⟩, fun _ => hmap, rfl, ?_⟩
          · simp [newMdlOf, hirp]
          · simp [csgPreWriteBuffers, csgPreWriteBuffers_try, preFinally, preSwap, PreState.init,
              PreState.log, newMdlOf, mdlEvents, mdlFree, mapEvents, swappedData, failedData,
              guardedCopy, transferSize, h0, hv, hb2, hirp, ho, hmap, hc]
        | completed =>
          right
          cases hl : env.ExAllocateFromNPagedLookasideList
          · left
            refine ⟨v, _, _, ⟨h0, hv, rfl, hb, rfl, ?_⟩, fun _ => hmap, rfl, rfl, ?_⟩
            · simp [newMdlOf, hirp]
            · simp [csgPreWriteBuffers, csgPreWriteBuffers_try, preFinally, preSwap,
                PreState.init, PreState.log, newMdlOf, mdlEvents, mdlFree, mapEvents,
                swappedData, failedData, guardedCopy, transferSize, h0, hv, hb2, hirp, ho, hmap,
                hc, hl]
          · right
            refine ⟨v, _, _, ⟨h0, hv, rfl, hb, rfl, ?_⟩, fun _ => hmap, rfl, rfl, ?_⟩
            · simp [newMdlOf, hirp]
            · simp [csgPreWriteBuffers, csgPreWriteBuffers_try, preFinally, preSwap,
                PreState.init, PreState.log, newMdlOf, mdlEvents, mdlFree, mapEvents,
                swappedData, failedData, guardedCopy, transferSize, h0, hv, hb2, hirp, ho, hmap,
                hc, hl]

/-- A safe callback follows one of the ways of `SafePaths`. -/
theorem swapPostBuffersWhenSafe_paths (count : FLT_CALLBACK_DATA → Nat) (env : PostEnv)
    (p2pCtx : PRE_2_POST_CONTEXT) (s : PostState)
    (hc : count (lockUserBuffer env s.Data) = count s.Data) :
    SafePaths (count s.Data) env p2pCtx s (swapPostBuffersWhenSafe count env p2pCtx s) := by
  cases hl : NT_SUCCESS env.FltLockUserBuffer
  · left
    refine ⟨hl, ?_⟩
    simp [swapPostBuffersWhenSafe, swapPostBuffersWhenSafe_outcome, PostOutcome.state,
      PostState.log, PostState.fail, PostState.release, releaseEvents, failedData, hl]
  · right
    by_cases hm : env.MmGetSystemAddressForMdlSafe (lockUserBuffer env s.Data).Iopb.MdlAddress = 0
    · left
      refine ⟨hl, hm, ?_⟩
      simp [swapPostBuffersWhenSafe, swapPostBuffersWhenSafe_outcome, PostOutcome.state,
        PostState.log, PostState.fail, PostState.release, releaseEvents, failedData, hl, hm]
    · right
      refine ⟨hl, hm, ?_⟩
      simp [swapPostBuffersWhenSafe, swapPostBuffersWhenSafe_outcome, PostOutcome.state,
        guardedCopy, PostState.log, PostState.fail, PostState.release, releaseEvents,
        failedData, hl, hm, hc]

theorem lockUserBuffer_IoStatus (env : PostEnv) (Data : FLT_CALLBACK_DATA) :
    (lockUserBuffer env Data).IoStatus = Data.IoStatus := by
  unfold lockUserBuffer; split <;> rfl

theorem lockUserBuffer_Length (env : PostEnv) (Data : FLT_CALLBACK_DATA) :
    (lockUserBuffer env Data).Iopb.Length = Data.Iopb.Length := by
  unfold lockUserBuffer; split <;> rfl

theorem SwapPostReadBuffersWhenSafe_paths (env : PostEnv) (p2pCtx : PRE_2_POST_CONTEXT)
    (s : PostState) :
    SafePaths s.Data.IoStatus.Information env p2pCtx s
      (SwapPostReadBuffersWhenSafe env p2pCtx s) :=
  swapPostBuffersWhenSafe_paths (fun Data => Data.IoStatus.Information) env p2pCtx s
    (by simp [lockUserBuffer_IoStatus])

theorem SwapPostDirCtrlBuffersWhenSafe_paths (env : PostEnv) (p2pCtx : PRE_2_POST_CONTEXT)
    (s : PostState) :
    SafePaths s.Data.Iopb.Length env p2pCtx s (SwapPostDirCtrlBuffersWhenSafe env p2pCtx s) :=
  swapPostBuffersWhenSafe_paths (fun Data => Data.Iopb.Length) env p2pCtx s
    (by simp [lockUserBuffer_Length])

/-- A post-operation callback follows one of the ways of `PostPaths`. -/
theorem postBuffers_paths (count : FLT_CALLBACK_DATA → Nat)
    (safe : PostEnv → PRE_2_POST_CONTEXT → PostState → PostState)
    (hsafe : ∀ env p2pCtx s, SafePaths (count s.Data) env p2pCtx s (safe env p2pCtx s))
    (env : PostEnv) (Data : FLT_CALLBACK_DATA) (p2pCtx : PRE_2_POST_CONTEXT) (Flags : Nat)
    (memory : Memory) :
    PostPaths (count Data) env Data p2pCtx Flags memory
      (postFinally p2pCtx
        (postBuffers_try count safe env p2pCtx (PostState.init Data Flags memory))) := by
  by_cases hd : HasData Data
  case neg =>
    left; left
    refine ⟨hd, ?_⟩
    have : (!NT_SUCCESS Data.IoStatus.Status || Data.IoStatus.Information == 0) = true := by
      unfold HasData at hd
      cases h : NT_SUCCESS Data.IoStatus.Status
      · simp
      · simp [h] at hd; simp [hd]
    simp [postFinally, postBuffers_try, PostState.init, PostState.release, PostState.log,
      releaseEvents, this]
  have hd1 : (!NT_SUCCESS Data.IoStatus.Status || Data.IoStatus.Information == 0) = false := by
    obtain ⟨h1, h2⟩ := hd
    simp [h1, h2]
  by_cases ho : Data.Iopb.MdlAddress = 0
  · by_cases hf : (FlagOn Data.Flags FLTFL_CALLBACK_DATA_SYSTEM_BUFFER ||
        FlagOn Data.Flags FLTFL_CALLBACK_DATA_FAST_IO_OPERATION) = true
    · have ha : Addressable env Data := Or.inr ⟨ho, by simpa using hf⟩
      cases hc : env.RtlCopyMemory with
      | completed =>
        left; right; right; left
        refine ⟨hd, ha, hc, ?_⟩
        simp [postFinally, postBuffers_try, PostState.init, PostState.release, PostState.log,
          PostState.fail, releaseEvents, postMapEvents, guardedCopy, hd1, ho, hf, hc]
      | faulted code written =>
        left; right; right; right; left
        refine ⟨code, written, hd, ha, hc, ?_⟩
        simp [postFinally, postBuffers_try, PostState.init, PostState.release, PostState.log,
          PostState.fail, releaseEvents, postMapEvents, failedData, hd1, ho, hf, hc]
    · have hn : NeedsSafeContext Data := ⟨ho, by simpa using hf⟩
      cases hdf : env.FltDoCompletionProcessingWhenSafe with
      | rejected =>
        left; right; right; right; right
        refine ⟨hd, hn, hdf, ?_⟩
        simp [postFinally, postBuffers_try, PostState.init, PostState.release, PostState.log,
          PostState.fail, releaseEvents, failedData, hd1, ho, hf, hdf]
      | posted =>
        right; left
        refine ⟨hd, hn, hdf, ?_⟩
        simp [postFinally, postBuffers_try, PostState.init, PostState.release, PostState.log,
          PostState.fail, hd1, ho, hf, hdf]
      | synchronous =>
        right; right
        refine ⟨safe env p2pCtx ((PostState.init Data Flags memory).log
          (.FltDoCompletionProcessingWhenSafe .synchronous)), hd, hn, hdf, ?_, ?_⟩
        · have := hsafe env p2pCtx ((PostState.init Data Flags memory).log
            (.FltDoCompletionProcessingWhenSafe .synchronous))
          simpa [PostState.log, PostState.init] using this
        · simp [postFinally, postBuffers_try, PostState.init, PostState.release, PostState.log,
            PostState.fail, hd1, ho, hf, hdf]
  · by_cases hmap : env.MmGetSystemAddressForMdlSafe Data.Iopb.MdlAddress = 0
    · left; right; left
      refine ⟨hd, ho, hmap, ?_⟩
      simp [postFinally, postBuffers_try, PostState.init, PostState.release, PostState.log,
        PostState.fail, releaseEvents, failedData, hd1, ho, hmap]
    · have ha : Addressable env Data := Or.inl ⟨ho, hmap⟩
      cases hc : env.RtlCopyMemory with
      | completed =>
        left; right; right; left
        refine ⟨hd, ha, hc, ?_⟩
        simp [postFinally, postBuffers_try, PostState.init, PostState.release, PostState.log,
          PostState.fail, releaseEvents, postMapEvents, guardedCopy, hd1, ho, hmap, hc]
      | faulted code written =>
        left; right; right; right; left
        refine ⟨code, written, hd, ha, hc, ?_⟩
        simp [postFinally, postBuffers_try, PostState.init, PostState.release, PostState.log,
          PostState.fail, releaseEvents, postMapEvents, failedData, hd1, ho, hmap, hc]

/-- A safe callback leaves `cleanupAllocatedBuffer` and `queued` alone and
returns `FLT_POSTOP_FINISHED_PROCESSING`. -/
theorem safePaths_flags {n : Nat} {env : PostEnv} {p2pCtx : PRE_2_POST_CONTEXT}
    {s r : PostState} (h : SafePaths n env p2pCtx s r) :
    r.cleanupAllocatedBuffer = s.cleanupAllocatedBuffer ∧ r.queued = s.queued ∧
      r.retValue = FLT_POSTOP_FINISHED_PROCESSING := by
  rcases h with ⟨_, rfl⟩ | ⟨_, _, rfl⟩ | ⟨_, _, rfl⟩ <;> exact ⟨rfl, rfl, rfl⟩

/-- A safe callback looks at the callback data, the memory and the trace of the
state it is entered with, and at nothing else. -/
theorem safePaths_transport {n : Nat} {env : PostEnv} {p2pCtx : PRE_2_POST_CONTEXT}
    {s r : PostState} (h : SafePaths n env p2pCtx s r) (t : PostState)
    (hD : t.Data = s.Data) (hM : t.memory = s.memory) (hT : t.trace = s.trace) :
    SafePaths n env p2pCtx t
      { r with cleanupAllocatedBuffer := t.cleanupAllocatedBuffer, queued := t.queued } := by
  rcases h with ⟨h1, rfl⟩ | ⟨h1, h2, rfl⟩ | ⟨h1, h2, rfl⟩
  · left; exact ⟨h1, by simp [hD, hT, hM]⟩
  · right; left; exact ⟨h1, by rw [hD]; exact h2, by simp [hD, hT, hM]⟩
  · right; right; exact ⟨h1, by rw [hD]; exact h2, by simp [hD, hT, hM]⟩

theorem postDirectPaths_queued {n : Nat} {env : PostEnv} {Data : FLT_CALLBACK_DATA}
    {p2pCtx : PRE_2_POST_CONTEXT} {Flags : Nat} {memory : Memory} {r : PostState}
    (h : PostDirectPaths n env Data p2pCtx Flags memory r) : r.queued = false := by
  rcases h with ⟨_, rfl⟩ | ⟨_, _, _, rfl⟩ | ⟨_, _, _, rfl⟩ | ⟨_, _, _, _, _, rfl⟩ |
    ⟨_, _, _, rfl⟩ <;> rfl

/-- A post-step brought to its end follows one of the ways of `PostStepPaths`. -/
theorem postStep_paths (count : FLT_CALLBACK_DATA → Nat)
    (safe : PostEnv → PRE_2_POST_CONTEXT → PostState → PostState)
    (hsafe : ∀ env p2pCtx s, SafePaths (count s.Data) env p2pCtx s (safe env p2pCtx s))
    (env : PostEnv) (Data : FLT_CALLBACK_DATA) (p2pCtx : PRE_2_POST_CONTEXT) (Flags : Nat)
    (memory : Memory) :
    PostStepPaths (count Data) env Data p2pCtx Flags memory
      (runQueued safe env p2pCtx (postFinally p2pCtx
        (postBuffers_try count safe env p2pCtx (PostState.init Data Flags memory)))) := by
  rcases postBuffers_paths count safe hsafe env Data p2pCtx Flags memory with
    h | ⟨hd, hn, hdf, hr⟩ | ⟨x, hd, hn, hdf, hx, hr⟩
  · left
    simpa [runQueued, postDirectPaths_queued h] using h
  · right
    rw [hr]
    have h1 := hsafe env p2pCtx
      { PostState.init Data Flags memory with
        retValue := FLT_POSTOP_MORE_PROCESSING_REQUIRED
        cleanupAllocatedBuffer := false
        queued := true
        trace := (PostState.init Data Flags memory).trace ++
          [.FltDoCompletionProcessingWhenSafe .posted] }
    have h2 := safePaths_transport h1 ((PostState.init Data Flags memory).log
      (.FltDoCompletionProcessingWhenSafe .posted)) rfl rfl rfl
    refine ⟨_, hd, hn, by simp [hdf], by rw [hdf]; exact h2, ?_⟩
    have h3 := safePaths_flags h1
    simp [runQueued, PostState.log, PostState.init] at h3 ⊢
    simp [h3]
  · right
    rw [hr]
    have h3 := safePaths_flags hx
    have hq : x.queued = false := h3.2.1
    refine ⟨x, hd, hn, by simp [hdf], by rw [hdf]; exact hx, ?_⟩
    simp [runQueued, hq]

theorem csgPostReadBuffers_paths (env : PostEnv) (Data : FLT_CALLBACK_DATA)
    (p2pCtx : PRE_2_POST_CONTEXT) (Flags : Nat) (memory : Memory) :
    PostPaths Data.IoStatus.Information env Data p2pCtx Flags memory
      (csgPostReadBuffers env Data p2pCtx Flags memory) :=
  postBuffers_paths (fun Data => Data.IoStatus.Information) SwapPostReadBuffersWhenSafe
    SwapPostReadBuffersWhenSafe_paths env Data p2pCtx Flags memory

theorem csgPostDirCtrlBuffers_paths (env : PostEnv) (Data : FLT_CALLBACK_DATA)
    (p2pCtx : PRE_2_POST_CONTEXT) (Flags : Nat) (memory : Memory) :
    PostPaths Data.Iopb.Length env Data p2pCtx Flags memory
      (csgPostDirCtrlBuffers env Data p2pCtx Flags memory) :=
  postBuffers_paths (fun Data => Data.Iopb.Length) SwapPostDirCtrlBuffersWhenSafe
    SwapPostDirCtrlBuffersWhenSafe_paths env Data p2pCtx Flags memory

theorem readPostStep_paths (env : PostEnv) (Data : FLT_CALLBACK_DATA)
    (p2pCtx : PRE_2_POST_CONTEXT) (Flags : Nat) (memory : Memory) :
    PostStepPaths Data.IoStatus.Information env Data p2pCtx Flags memory
      (readPostStep env Data p2pCtx Flags memory) :=
  postStep_paths (fun Data => Data.IoStatus.Information) SwapPostReadBuffersWhenSafe
    SwapPostReadBuffersWhenSafe_paths env Data p2pCtx Flags memory

theorem dirCtrlPostStep_paths (env : PostEnv) (Data : FLT_CALLBACK_DATA)
    (p2pCtx : PRE_2_POST_CONTEXT) (Flags : Nat) (memory : Memory) :
    PostStepPaths Data.Iopb.Length env Data p2pCtx Flags memory
      (dirCtrlPostStep env Data p2pCtx Flags memory) :=
  postStep_paths (fun Data => Data.Iopb.Length) SwapPostDirCtrlBuffersWhenSafe
    SwapPostDirCtrlBuffersWhenSafe_paths env Data p2pCtx Flags memory

/-! ## Reading the traces -/

theorem poolRequests_mdlEvents (w : Bool) (b n m : Nat) : poolRequests (mdlEvents w b n m) = [] := by
  unfold mdlEvents poolRequests; split_ifs <;> simp

theorem poolRequests_mdlFree (m : Nat) : poolRequests (mdlFree m) = [] := by
  unfold mdlFree poolRequests; split_ifs <;> simp

theorem poolRequests_mapEvents (env : PreEnv) (Data : FLT_CALLBACK_DATA) :
    poolRequests (mapEvents env Data) = [] := by
  unfold mapEvents poolRequests; split_ifs <;> simp

theorem poolRequests_append (s t : Trace) :
    poolRequests (s ++ t) = poolRequests s ++ poolRequests t := by
  simp [poolRequests]

theorem poolRequests_nil : poolRequests [] = [] := rfl

theorem poolRequests_cons (e : Event) (t : Trace) :
    poolRequests (e :: t) =
      (match e with
        | .ExAllocatePoolWithTag size _ => [size]
        | _ => []) ++ poolRequests t := by
  cases e <;> simp [poolRequests]

theorem prePaths_requests {wantMdl : Bool} {size : VOLUME_CONTEXT → Nat} {env : PreEnv}
    {Data : FLT_CALLBACK_DATA} {memory : Memory} {r : PreState}
    (h : PrePaths wantMdl size env Data memory r) (v : VOLUME_CONTEXT)
    (h0 : Data.Iopb.Length ≠ 0) (hv : env.FltGetVolumeContext = some v) :
    poolRequests r.trace = [size v] := by
  rcases h with (⟨h, _⟩ | ⟨_, h, _⟩ | ⟨w, _, h, _, rfl⟩) | ⟨w, b, _, h, _, _, _, _, rfl⟩ |
    ⟨w, b, m, ⟨_, h, _⟩, _, rfl⟩ | ⟨w, b, m, ⟨_, h, _⟩, _, rfl⟩
  · exact absurd h h0
  · simp [hv] at h
  all_goals
    obtain rfl : v = w := by rw [hv] at h; exact Option.some.inj h
    simp [poolRequests_append, poolRequests_cons, poolRequests_nil, poolRequests_mdlEvents,
      poolRequests_mdlFree, PreState.init]

theorem preWritePaths_requests {wantMdl : Bool} {size : VOLUME_CONTEXT → Nat}
    {env : PreEnv} {Data : FLT_CALLBACK_DATA} {memory : Memory} {r : PreState}
    (h : PreWritePaths wantMdl size env Data memory r) (v : VOLUME_CONTEXT)
    (h0 : Data.Iopb.Length ≠ 0) (hv : env.FltGetVolumeContext = some v) :
    poolRequests r.trace = [size v] := by
  rcases h with (⟨h, _⟩ | ⟨_, h, _⟩ | ⟨w, _, h, _, rfl⟩) | ⟨w, b, _, h, _, _, _, _, rfl⟩ |
    ⟨w, b, m, ⟨_, h, _⟩, _, _, rfl⟩ | ⟨w, b, m, _, _, ⟨_, h, _⟩, _, _, rfl⟩ |
    ⟨w, b, m, ⟨_, h, _⟩, _, _, _, rfl⟩ | ⟨w, b, m, ⟨_, h, _⟩, _, _, _, rfl⟩
  · exact absurd h h0
  · simp [hv] at h
  all_goals
    obtain rfl : v = w := by rw [hv] at h; exact Option.some.inj h
    simp [poolRequests_append, poolRequests_cons, poolRequests_nil, poolRequests_mdlEvents,
      poolRequests_mdlFree, poolRequests_mapEvents, PreState.init]

/-- The one pool request of a read or write pre-step that gets its volume
context. -/
theorem preStep_poolRequests (k : Kind) (hk : k ≠ .DirectoryEnumeration) (env : PreEnv)
    (Data : FLT_CALLBACK_DATA) (memory : Memory) (v : VOLUME_CONTEXT)
    (h0 : Data.Iopb.Length ≠ 0) (hv : env.FltGetVolumeContext = some v) :
    poolRequests (preStep k env Data memory).trace = [transferSize Data v] := by
  cases k
  · exact prePaths_requests (csgPreReadBuffers_paths env Data memory) v h0 hv
  · exact preWritePaths_requests (csgPreWriteBuffers_paths env Data memory) v h0 hv
  · exact absurd rfl hk

/-- When `csgPreWriteBuffers` swaps, the new buffer holds the source up to the
number of bytes asked of the pool, and the source is as it was. -/
theorem write_swap_copies_source (env : PreEnv) (Data : FLT_CALLBACK_DATA) (memory : Memory)
    (v : VOLUME_CONTEXT) (hv : env.FltGetVolumeContext = some v)
    (hr : (csgPreWriteBuffers env Data memory).retValue = FLT_PREOP_SUCCESS_WITH_CALLBACK) :
    (∀ i, i < transferSize Data v →
      (csgPreWriteBuffers env Data memory).memory.swapped i = memory.original i) ∧
    (csgPreWriteBuffers env Data memory).memory.original = memory.original := by
  rcases csgPreWriteBuffers_paths env Data memory with
    (⟨_, h⟩ | ⟨_, _, h⟩ | ⟨w, _, _, _, h⟩) | ⟨w, b, _, _, _, _, _, _, h⟩ |
    ⟨w, b, m, _, _, _, h⟩ | ⟨w, b, m, _, _, _, _, _, h⟩ |
    ⟨w, b, m, _, _, _, _, h⟩ | ⟨w, b, m, ⟨_, hw, _⟩, _, _, _, h⟩
  all_goals rw [h] at hr ⊢
  all_goals first
    | (simp [PreState.init] at hr; done)
    | skip
  obtain rfl : v = w := by rw [hv] at hw; exact Option.some.inj hw
  refine ⟨fun i hi => ?_, rfl⟩
  simp [RtlCopyMemory, hi]

theorem not_addressable_of_needsSafeContext {env : PostEnv} {Data : FLT_CALLBACK_DATA}
    (hn : NeedsSafeContext Data) : ¬ Addressable env Data := by
  rintro (⟨h, _⟩ | ⟨_, h | h⟩)
  · exact h hn.1
  · rw [hn.2.1] at h; exact Bool.false_ne_true h
  · rw [hn.2.2] at h; exact Bool.false_ne_true h

theorem copiesToOriginal_postMapEvents (env : PostEnv) (Data : FLT_CALLBACK_DATA) :
    copiesToOriginal (postMapEvents env Data) = [] := by
  unfold postMapEvents copiesToOriginal; split_ifs <;> simp

theorem copiesToOriginal_releaseEvents (c : PRE_2_POST_CONTEXT) :
    copiesToOriginal (releaseEvents c) = [] := by
  simp [releaseEvents, copiesToOriginal]

theorem copiesToOriginal_append (s t : Trace) :
    copiesToOriginal (s ++ t) = copiesToOriginal s ++ copiesToOriginal t := by
  simp [copiesToOriginal]

theorem copiesToOriginal_nil : copiesToOriginal [] = [] := rfl

theorem copiesToOriginal_cons (e : Event) (t : Trace) :
    copiesToOriginal (e :: t) =
      (match e with
        | .RtlCopyMemory true n => [n]
        | _ => []) ++ copiesToOriginal t := by
  cases e <;> simp [copiesToOriginal]
  rename_i b n
  cases b <;> simp

/-- The result of a post-step that reaches the destination. -/
theorem postStepPaths_reached {n : Nat} {env : PostEnv} {Data : FLT_CALLBACK_DATA}
    {p2pCtx : PRE_2_POST_CONTEXT} {Flags : Nat} {memory : Memory} {r : PostState}
    (h : PostStepPaths n env Data p2pCtx Flags memory r) (hd : HasData Data)
    (hreach : DestinationReachable env Data) :
    r.memory.original = RtlCopyMemory memory.original memory.swapped n ∧
    r.memory.swapped = memory.swapped ∧
    r.Data.IoStatus = Data.IoStatus ∧ copiesToOriginal r.trace = [n] := by
  rcases h with (⟨h1, _⟩ | ⟨_, h1, h2, _⟩ | ⟨_, _, _, rfl⟩ | ⟨code, written, _, h1, h2, _⟩ |
    ⟨_, h1, h2, _⟩) | ⟨x, _, hn, hdf, hx, rfl⟩
  · exact absurd hd h1
  · rcases hreach with ⟨⟨_, h3⟩ | ⟨h3, _⟩, _⟩ | ⟨h3, _⟩
    · exact absurd h2 h3
    · exact absurd h3 h1
    · exact absurd h3.1 h1
  · simp [PostState.init, copiesToOriginal_append, copiesToOriginal_cons, copiesToOriginal_nil,
      copiesToOriginal_postMapEvents, copiesToOriginal_releaseEvents]
  · rcases hreach with ⟨_, h3⟩ | ⟨h3, _⟩
    · rw [h2] at h3; cases h3
    · exact absurd h1 (not_addressable_of_needsSafeContext h3)
  · rcases hreach with ⟨h3, _⟩ | ⟨_, h3, _⟩
    · exact absurd h3 (not_addressable_of_needsSafeContext h1)
    · exact absurd h2 h3
  · rcases hreach with ⟨h3, _⟩ | ⟨_, _, h3, h4⟩
    · exact absurd h3 (not_addressable_of_needsSafeContext hn)
    · rcases hx with ⟨h5, _⟩ | ⟨_, h5, _⟩ | ⟨_, _, rfl⟩
      · rw [h3] at h5; cases h5
      · simp [PostState.log, PostState.init] at h5
        exact absurd h5 h4
      · simp [PostState.init, PostState.log, copiesToOriginal_append, copiesToOriginal_cons,
          copiesToOriginal_nil, copiesToOriginal_releaseEvents, lockUserBuffer_IoStatus]

/-- Accounting of the releases made by a post-step brought to its end. -/
theorem postStepPaths_releases {n : Nat} {env : PostEnv} {Data : FLT_CALLBACK_DATA}
    {p2pCtx : PRE_2_POST_CONTEXT} {Flags : Nat} {memory : Memory} {r : PostState}
    (h : PostStepPaths n env Data p2pCtx Flags memory r) :
    linksAcquired r.trace = 0 ∧ linksReleased r.trace = 1 ∧
    poolFrees p2pCtx.SwappedBuffer r.trace = 1 ∧ contextReleases r.trace = 1 := by
  rcases h with (⟨_, rfl⟩ | ⟨_, _, _, rfl⟩ | ⟨_, _, _, rfl⟩ | ⟨code, written, _, _, _, rfl⟩ |
    ⟨_, _, _, rfl⟩) | ⟨x, _, _, _, hx, rfl⟩
  · simp [PostState.init, releaseEvents, linksAcquired, linksReleased, poolFrees,
      contextReleases]
  · simp [PostState.init, releaseEvents, linksAcquired, linksReleased, poolFrees,
      contextReleases]
  · simp only [PostState.init, releaseEvents, postMapEvents]
    split_ifs <;> simp [linksAcquired, linksReleased, poolFrees, contextReleases]
  · simp only [PostState.init, releaseEvents, postMapEvents]
    split_ifs <;> simp [linksAcquired, linksReleased, poolFrees, contextReleases]
  · simp [PostState.init, releaseEvents, linksAcquired, linksReleased, poolFrees,
      contextReleases]
  · rcases hx with ⟨_, rfl⟩ | ⟨_, _, rfl⟩ | ⟨_, _, rfl⟩ <;>
      simp [PostState.init, PostState.log, releaseEvents, linksAcquired, linksReleased,
        poolFrees, contextReleases]

theorem csgPostWriteBuffers_releases (Data : FLT_CALLBACK_DATA) (p2pCtx : PRE_2_POST_CONTEXT)
    (Flags : Nat) (memory : Memory) :
    linksAcquired (csgPostWriteBuffers Data p2pCtx Flags memory).trace = 0 ∧
    linksReleased (csgPostWriteBuffers Data p2pCtx Flags memory).trace = 1 ∧
    poolFrees p2pCtx.SwappedBuffer (csgPostWriteBuffers Data p2pCtx Flags memory).trace = 1 ∧
    contextReleases (csgPostWriteBuffers Data p2pCtx Flags memory).trace = 1 := by
  simp [csgPostWriteBuffers, PostState.release, PostState.log, linksAcquired, linksReleased,
    poolFrees, contextReleases]

/-- Accounting of the releases made by the post-step of any kind. -/
theorem postStep_releases (k : Kind) (env : PostEnv) (Data : FLT_CALLBACK_DATA)
    (p2pCtx : PRE_2_POST_CONTEXT) (Flags : Nat) (memory : Memory) :
    linksAcquired (postStep k env Data p2pCtx Flags memory).trace = 0 ∧
    linksReleased (postStep k env Data p2pCtx Flags memory).trace = 1 ∧
    poolFrees p2pCtx.SwappedBuffer (postStep k env Data p2pCtx Flags memory).trace = 1 ∧
    contextReleases (postStep k env Data p2pCtx Flags memory).trace = 1 := by
  cases k
  · exact postStepPaths_releases (readPostStep_paths env Data p2pCtx Flags memory)
  · exact csgPostWriteBuffers_releases Data p2pCtx Flags memory
  · exact postStepPaths_releases (dirCtrlPostStep_paths env Data p2pCtx Flags memory)

/-- Every copy a safe callback makes into the caller's buffer moves `n` bytes, and
it writes nothing from offset `n` on. -/
theorem safePaths_copies {n : Nat} {env : PostEnv} {p2pCtx : PRE_2_POST_CONTEXT}
    {s r : PostState} (h : SafePaths n env p2pCtx s r) :
    (∀ m ∈ copiesToOriginal r.trace, m ∈ copiesToOriginal s.trace ∨ m = n) ∧
    (∀ i, n ≤ i → r.memory.original i = s.memory.original i) ∧
    r.memory.swapped = s.memory.swapped := by
  rcases h with ⟨_, rfl⟩ | ⟨_, _, rfl⟩ | ⟨_, _, rfl⟩
  · simp [copiesToOriginal_append, copiesToOriginal_cons, copiesToOriginal_nil,
      copiesToOriginal_releaseEvents]
    exact fun m hm => Or.inl hm
  · simp [copiesToOriginal_append, copiesToOriginal_cons, copiesToOriginal_nil,
      copiesToOriginal_releaseEvents]
    exact fun m hm => Or.inl hm
  · refine ⟨?_, fun i hi => ?_, rfl⟩
    · simp [copiesToOriginal_append, copiesToOriginal_cons, copiesToOriginal_nil,
        copiesToOriginal_releaseEvents]
    · simp [RtlCopyMemory, Nat.not_lt.mpr hi]

/-- Every copy a direct way makes into the caller's buffer moves `n` bytes, and
it writes nothing from offset `n` on. -/
theorem postDirectPaths_copies {n : Nat} {env : PostEnv} {Data : FLT_CALLBACK_DATA}
    {p2pCtx : PRE_2_POST_CONTEXT} {Flags : Nat} {memory : Memory} {r : PostState}
    (h : PostDirectPaths n env Data p2pCtx Flags memory r) :
    (∀ m ∈ copiesToOriginal r.trace, m = n) ∧
    (∀ i, n ≤ i → r.memory.original i = memory.original i) ∧
    r.memory.swapped = memory.swapped := by
  rcases h with ⟨_, rfl⟩ | ⟨_, _, _, rfl⟩ | ⟨_, _, _, rfl⟩ | ⟨code, written, _, _, _, rfl⟩ |
    ⟨_, _, _, rfl⟩
  · simp [PostState.init, copiesToOriginal_append, copiesToOriginal_cons, copiesToOriginal_nil,
      copiesToOriginal_releaseEvents]
  · simp [PostState.init, copiesToOriginal_append, copiesToOriginal_cons, copiesToOriginal_nil,
      copiesToOriginal_releaseEvents]
  · refine ⟨?_, fun i hi => ?_, rfl⟩
    · simp [PostState.init, copiesToOriginal_append, copiesToOriginal_cons,
        copiesToOriginal_nil, copiesToOriginal_releaseEvents, copiesToOriginal_postMapEvents]
    · simp [PostState.init, RtlCopyMemory, Nat.not_lt.mpr hi]
  · refine ⟨?_, fun i hi => ?_, rfl⟩
    · simp [PostState.init, copiesToOriginal_append, copiesToOriginal_cons,
        copiesToOriginal_nil, copiesToOriginal_releaseEvents, copiesToOriginal_postMapEvents]
    · simp [PostState.init, guardedCopy, Nat.not_lt.mpr hi]
  · simp [PostState.init, copiesToOriginal_append, copiesToOriginal_cons, copiesToOriginal_nil,
      copiesToOriginal_releaseEvents]

theorem postStepPaths_copies {n : Nat} {env : PostEnv} {Data : FLT_CALLBACK_DATA}
    {p2pCtx : PRE_2_POST_CONTEXT} {Flags : Nat} {memory : Memory} {r : PostState}
    (h : PostStepPaths n env Data p2pCtx Flags memory r) :
    (∀ m ∈ copiesToOriginal r.trace, m = n) ∧
    (∀ i, n ≤ i → r.memory.original i = memory.original i) ∧
    r.memory.swapped = memory.swapped := by
  rcases h with h | ⟨x, _, _, _, hx, rfl⟩
  · exact postDirectPaths_copies h
  · obtain ⟨h1, h2, h3⟩ := safePaths_copies hx
    refine ⟨fun m hm => ?_, fun i hi => ?_, ?_⟩
    · rcases h1 m hm with h4 | h4
      · simp [PostState.init, PostState.log, copiesToOriginal_append, copiesToOriginal_cons,
          copiesToOriginal_nil] at h4
      · exact h4
    · simpa [PostState.init, PostState.log] using h2 i hi
    · simpa [PostState.init, PostState.log] using h3

theorem postPaths_copies {n : Nat} {env : PostEnv} {Data : FLT_CALLBACK_DATA}
    {p2pCtx : PRE_2_POST_CONTEXT} {Flags : Nat} {memory : Memory} {r : PostState}
    (h : PostPaths n env Data p2pCtx Flags memory r) :
    (∀ m ∈ copiesToOriginal r.trace, m = n) ∧
    (∀ i, n ≤ i → r.memory.original i = memory.original i) ∧
    r.memory.swapped = memory.swapped := by
  rcases h with h | ⟨_, _, _, rfl⟩ | ⟨x, _, _, _, hx, rfl⟩
  · exact postDirectPaths_copies h
  · simp [PostState.init, copiesToOriginal_append, copiesToOriginal_cons, copiesToOriginal_nil]
  · obtain ⟨h1, h2, h3⟩ := safePaths_copies hx
    refine ⟨fun m hm => ?_, fun i hi => ?_, ?_⟩
    · rcases h1 m hm with h4 | h4
      · simp [PostState.init, PostState.log, copiesToOriginal_append, copiesToOriginal_cons,
          copiesToOriginal_nil] at h4
      · exact h4
    · simpa [PostState.init, PostState.log] using h2 i hi
    · simpa [PostState.init, PostState.log] using h3

theorem prePaths_requests_mem {wantMdl : Bool} {size : VOLUME_CONTEXT → Nat}
    {env : PreEnv} {Data : FLT_CALLBACK_DATA} {memory : Memory} {r : PreState}
    (h : PrePaths wantMdl size env Data memory r) :
    ∀ n ∈ poolRequests r.trace, ∃ v, env.FltGetVolumeContext = some v ∧ n = size v := by
  intro n hn
  by_cases h0 : Data.Iopb.Length = 0
  · rcases h with (⟨_, rfl⟩ | ⟨h1, _⟩ | ⟨w, h1, _⟩) | ⟨w, b, h1, _⟩ |
      ⟨w, b, m, ⟨h1, _⟩, _⟩ | ⟨w, b, m, ⟨h1, _⟩, _⟩
    · simp [PreState.init, poolRequests_nil] at hn
    all_goals exact absurd h0 h1
  · cases hv : env.FltGetVolumeContext with
    | none =>
      rcases h with (⟨h1, _⟩ | ⟨_, _, rfl⟩ | ⟨w, _, h1, _⟩) | ⟨w, b, _, h1, _⟩ |
        ⟨w, b, m, ⟨_, h1, _⟩, _⟩ | ⟨w, b, m, ⟨_, h1, _⟩, _⟩
      · exact absurd h1 h0
      · simp [PreState.init, poolRequests_cons, poolRequests_nil] at hn
      all_goals (rw [hv] at h1; cases h1)
    | some v =>
      rw [prePaths_requests h v h0 hv] at hn
      exact ⟨v, rfl, by simpa using hn⟩

theorem not_mem_mdlEvents_copy (w : Bool) (b n m k : Nat) (t : Bool) :
    Event.RtlCopyMemory t k ∉ mdlEvents w b n m := by
  unfold mdlEvents; split_ifs <;> simp

theorem not_mem_mdlFree_copy (m k : Nat) (t : Bool) :
    Event.RtlCopyMemory t k ∉ mdlFree m := by
  unfold mdlFree; split_ifs <;> simp

theorem not_mem_mapEvents_copy (env : PreEnv) (Data : FLT_CALLBACK_DATA) (k : Nat) (t : Bool) :
    Event.RtlCopyMemory t k ∉ mapEvents env Data := by
  unfold mapEvents; split_ifs <;> simp

/-- The first call in the trace of a post-operation callback is the `ASSERT` on
the draining flag. -/
theorem postPaths_head {n : Nat} {env : PostEnv} {Data : FLT_CALLBACK_DATA}
    {p2pCtx : PRE_2_POST_CONTEXT} {Flags : Nat} {memory : Memory} {r : PostState}
    (h : PostPaths n env Data p2pCtx Flags memory r) :
    r.trace.head? = some (.ASSERT (!FlagOn Flags FLTFL_POST_OPERATION_DRAINING)) := by
  rcases h with (⟨_, rfl⟩ | ⟨_, _, _, rfl⟩ | ⟨_, _, _, rfl⟩ | ⟨code, written, _, _, _, rfl⟩ |
    ⟨_, _, _, rfl⟩) | ⟨_, _, _, rfl⟩ | ⟨x, _, _, _, hx, rfl⟩
  any_goals simp [PostState.init]
  rcases hx with ⟨_, rfl⟩ | ⟨_, _, rfl⟩ | ⟨_, _, rfl⟩ <;> simp [PostState.init, PostState.log]

/-- What a post-operation callback copies when the destination is addressable. -/
theorem postPaths_addressable {n : Nat} {env : PostEnv} {Data : FLT_CALLBACK_DATA}
    {p2pCtx : PRE_2_POST_CONTEXT} {Flags : Nat} {memory : Memory} {r : PostState}
    (h : PostPaths n env Data p2pCtx Flags memory r) (hd : HasData Data)
    (ha : Addressable env Data) :
    copiesToOriginal r.trace = [n] := by
  rcases h with (⟨h1, _⟩ | ⟨_, h1, h2, _⟩ | ⟨_, _, _, rfl⟩ | ⟨code, written, _, _, _, rfl⟩ |
    ⟨_, h1, _⟩) | ⟨_, h1, _⟩ | ⟨x, _, h1, _⟩
  · exact absurd hd h1
  · rcases ha with ⟨_, h3⟩ | ⟨h3, _⟩
    · exact absurd h2 h3
    · exact absurd h3 h1
  · simp [PostState.init, copiesToOriginal_append, copiesToOriginal_cons, copiesToOriginal_nil,
      copiesToOriginal_postMapEvents, copiesToOriginal_releaseEvents]
  · simp [PostState.init, copiesToOriginal_append, copiesToOriginal_cons, copiesToOriginal_nil,
      copiesToOriginal_postMapEvents, copiesToOriginal_releaseEvents]
  · exact absurd ha (not_addressable_of_needsSafeContext h1)
  · exact absurd ha (not_addressable_of_needsSafeContext h1)
  · exact absurd ha (not_addressable_of_needsSafeContext h1)

/-- What a post-operation callback does when there is no data. -/
theorem postPaths_noData {n : Nat} {env : PostEnv} {Data : FLT_CALLBACK_DATA}
    {p2pCtx : PRE_2_POST_CONTEXT} {Flags : Nat} {memory : Memory} {r : PostState}
    (h : PostPaths n env Data p2pCtx Flags memory r) (hd : ¬ HasData Data) :
    r = { PostState.init Data Flags memory with
          trace := (PostState.init Data Flags memory).trace ++ releaseEvents p2pCtx } := by
  rcases h with (⟨_, h⟩ | ⟨h1, _⟩ | ⟨h1, _⟩ | ⟨code, written, h1, _⟩ |
    ⟨h1, _⟩) | ⟨h1, _⟩ | ⟨x, h1, _⟩
  · exact h
  all_goals exact absurd h1 hd

theorem prePaths_degradable {wantMdl : Bool} {size : VOLUME_CONTEXT → Nat} {env : PreEnv}
    {Data : FLT_CALLBACK_DATA} {memory : Memory} {r : PreState}
    (h : PrePaths wantMdl size env Data memory r) (hf : DegradableFailure r.trace) :
    r.retValue = FLT_PREOP_SUCCESS_NO_CALLBACK ∧ r.Data = Data ∧ r.CompletionContext = none := by
  rcases h with (⟨_, rfl⟩ | ⟨_, _, rfl⟩ | ⟨w, _, _, _, rfl⟩) | ⟨w, b, _, _, _, _, _, _, rfl⟩ |
    ⟨w, b, m, _, _, rfl⟩ | ⟨w, b, m, ⟨_, _, _, hb, _, hm⟩, _, rfl⟩
  · exact ⟨rfl, rfl, rfl⟩
  · exact ⟨rfl, rfl, rfl⟩
  · exact ⟨rfl, rfl, rfl⟩
  · exact ⟨rfl, rfl, rfl⟩
  · exact ⟨rfl, rfl, rfl⟩
  · exfalso
    simp only [DegradableFailure, mdlEvents] at hf
    split_ifs at hf <;> first | (simp_all; done) | (simp_all; omega)

theorem preWritePaths_degradable {wantMdl : Bool} {size : VOLUME_CONTEXT → Nat} {env : PreEnv}
    {Data : FLT_CALLBACK_DATA} {memory : Memory} {r : PreState}
    (h : PreWritePaths wantMdl size env Data memory r) (hf : DegradableFailure r.trace) :
    r.retValue = FLT_PREOP_SUCCESS_NO_CALLBACK ∧ r.Data = Data ∧ r.CompletionContext = none := by
  rcases h with (⟨_, rfl⟩ | ⟨_, _, rfl⟩ | ⟨w, _, _, _, rfl⟩) | ⟨w, b, _, _, _, _, _, _, rfl⟩ |
    ⟨w, b, m, ⟨_, _, _, hb, _, hm⟩, _, _, rfl⟩ |
    ⟨w, b, m, c, wr, ⟨_, _, _, hb, _, hm⟩, _, _, rfl⟩ |
    ⟨w, b, m, _, _, _, _, rfl⟩ | ⟨w, b, m, ⟨_, _, _, hb, _, hm⟩, _, _, _, rfl⟩
  · exact ⟨rfl, rfl, rfl⟩
  · exact ⟨rfl, rfl, rfl⟩
  · exact ⟨rfl, rfl, rfl⟩
  · exact ⟨rfl, rfl, rfl⟩
  · exfalso
    simp only [DegradableFailure, mdlEvents, mdlFree, mapEvents] at hf
    split_ifs at hf <;> first | (simp_all; done) | (simp_all; omega)
  · exfalso
    simp only [DegradableFailure, mdlEvents, mdlFree, mapEvents] at hf
    split_ifs at hf <;> first | (simp_all; done) | (simp_all; omega)
  · exact ⟨rfl, rfl, rfl⟩
  · exfalso
    simp only [DegradableFailure, mdlEvents, mdlFree, mapEvents] at hf
    split_ifs at hf <;> first | (simp_all; done) | (simp_all; omega)

/-- With a copy that runs to its end, the safe callback with an open fate is the
safe callback. -/
theorem swapPostBuffersWhenSafe_raising_completed (count : FLT_CALLBACK_DATA → Nat)
    (env : PostEnv) (p2pCtx : PRE_2_POST_CONTEXT) (s : PostState) :
    swapPostBuffersWhenSafe_raising .completed count env p2pCtx s =
      some (swapPostBuffersWhenSafe count env p2pCtx s) := by
  cases hl : NT_SUCCESS env.FltLockUserBuffer
  · simp [swapPostBuffersWhenSafe_raising, swapPostBuffersWhenSafe,
      swapPostBuffersWhenSafe_outcome, PostOutcome.state, hl]
  · by_cases hm :
      env.MmGetSystemAddressForMdlSafe (lockUserBuffer env s.Data).Iopb.MdlAddress = 0
    · simp [swapPostBuffersWhenSafe_raising, swapPostBuffersWhenSafe,
        swapPostBuffersWhenSafe_outcome, PostOutcome.state, PostState.log, hl, hm]
    · simp [swapPostBuffersWhenSafe_raising, swapPostBuffersWhenSafe,
        swapPostBuffersWhenSafe_outcome, PostOutcome.state, guardedCopy, PostState.log, hl, hm]

/-! ## Releases of the post-operation callbacks -/

theorem poolFreed_append (s t : Trace) : poolFreed (s ++ t) = poolFreed s ++ poolFreed t := by
  simp [poolFreed]

theorem poolFreed_nil : poolFreed [] = [] := rfl

theorem poolFreed_cons (e : Event) (t : Trace) :
    poolFreed (e :: t) =
      (match e with
        | .ExFreePool p => [p]
        | _ => []) ++ poolFreed t := by
  cases e <;> simp [poolFreed]

theorem poolFreed_postMapEvents (env : PostEnv) (Data : FLT_CALLBACK_DATA) :
    poolFreed (postMapEvents env Data) = [] := by
  unfold postMapEvents poolFreed; split_ifs <;> simp

theorem poolFreed_releaseEvents (c : PRE_2_POST_CONTEXT) :
    poolFreed (releaseEvents c) = [c.SwappedBuffer] := by
  simp [releaseEvents, poolFreed]

/-- What a post-operation callback does when its guarded copy faults. -/
theorem postPaths_fault {n : Nat} {env : PostEnv} {Data : FLT_CALLBACK_DATA}
    {p2pCtx : PRE_2_POST_CONTEXT} {Flags : Nat} {memory : Memory} {r : PostState}
    (h : PostPaths n env Data p2pCtx Flags memory r) (hd : HasData Data)
    (ha : Addressable env Data) {code : NTSTATUS} {written : Nat → Bool}
    (hc : env.RtlCopyMemory = .faulted code written) :
    r = { PostState.init Data Flags memory with
          Data := failedData Data code
          memory := { memory with
            original := guardedCopy memory.original memory.swapped n (.faulted code written) }
          trace := (PostState.init Data Flags memory).trace ++ postMapEvents env Data ++
            [.RtlCopyMemory true n] ++ releaseEvents p2pCtx } := by
  rcases h with (⟨h1, _⟩ | ⟨_, h1, h2, _⟩ | ⟨_, _, h1, _⟩ | ⟨c, w, _, _, h1, h2⟩ |
    ⟨_, h1, _⟩) | ⟨_, h1, _⟩ | ⟨x, _, h1, _⟩
  · exact absurd hd h1
  · rcases ha with ⟨_, h3⟩ | ⟨h3, _⟩
    · exact absurd h2 h3
    · exact absurd h3 h1
  · rw [hc] at h1; cases h1
  · rw [hc] at h1; cases h1; exact h2
  · exact absurd ha (not_addressable_of_needsSafeContext h1)
  · exact absurd ha (not_addressable_of_needsSafeContext h1)
  · exact absurd ha (not_addressable_of_needsSafeContext h1)

/-- What a post-operation callback does when the safe context is refused. -/
theorem postPaths_rejected {n : Nat} {env : PostEnv} {Data : FLT_CALLBACK_DATA}
    {p2pCtx : PRE_2_POST_CONTEXT} {Flags : Nat} {memory : Memory} {r : PostState}
    (h : PostPaths n env Data p2pCtx Flags memory r) (hd : HasData Data)
    (hn : NeedsSafeContext Data) (hp : env.FltDoCompletionProcessingWhenSafe = .rejected) :
    r = { PostState.init Data Flags memory with
          Data := failedData Data STATUS_UNSUCCESSFUL
          trace := (PostState.init Data Flags memory).trace ++
            [.FltDoCompletionProcessingWhenSafe .rejected] ++ releaseEvents p2pCtx } := by
  rcases h with (⟨h1, _⟩ | ⟨_, h1, _⟩ | ⟨_, h1, _⟩ | ⟨c, w, _, h1, _⟩ |
    ⟨_, _, _, h1⟩) | ⟨_, _, h1, _⟩ | ⟨x, _, _, h1, _⟩
  · exact absurd hd h1
  · exact absurd hn.1 h1
  · exact absurd h1 (not_addressable_of_needsSafeContext hn)
  · exact absurd h1 (not_addressable_of_needsSafeContext hn)
  · exact h1
  · rw [hp] at h1; cases h1
  · rw [hp] at h1; cases h1

/-- A post-operation callback that fails the operation because the safe context
is refused. -/
theorem postPaths_failedOutright {n : Nat} {env : PostEnv} {Data : FLT_CALLBACK_DATA}
    {p2pCtx : PRE_2_POST_CONTEXT} {Flags : Nat} {memory : Memory} {r : PostState}
    (h : PostPaths n env Data p2pCtx Flags memory r) (hd : HasData Data)
    (hn : NeedsSafeContext Data) (hp : env.FltDoCompletionProcessingWhenSafe = .rejected) :
    FailedOutright Data p2pCtx memory r := by
  rw [postPaths_rejected h hd hn hp]
  simp [FailedOutright, failedData, PostState.init, copiesToOriginal_append,
    copiesToOriginal_cons, copiesToOriginal_nil, copiesToOriginal_releaseEvents,
    poolFreed_append, poolFreed_cons, poolFreed_nil, poolFreed_releaseEvents, releaseEvents,
    contextReleases, linksReleased]

/-- Where a post-operation callback asks for a safe context and gets it, it
leaves the releases to the safe callback. -/
theorem postBuffers_leaves_release (count : FLT_CALLBACK_DATA → Nat)
    (safe : PostEnv → PRE_2_POST_CONTEXT → PostState → PostState)
    (hsafe : ∀ env p2pCtx s, SafePaths (count s.Data) env p2pCtx s (safe env p2pCtx s))
    (env : PostEnv) (Data : FLT_CALLBACK_DATA) (p2pCtx : PRE_2_POST_CONTEXT) (Flags : Nat)
    (memory : Memory) (hd : HasData Data) (hn : NeedsSafeContext Data) :
    LeavesReleaseToSafeCallback
      (fun env Data p2pCtx Flags memory => postFinally p2pCtx
        (postBuffers_try count safe env p2pCtx (PostState.init Data Flags memory)))
      safe env Data p2pCtx Flags memory := by
  have hd1 : (!NT_SUCCESS Data.IoStatus.Status || Data.IoStatus.Information == 0) = false := by
    obtain ⟨h1, h2⟩ := hd
    simp [h1, h2]
  obtain ⟨ho, hf1, hf2⟩ := hn
  refine ⟨fun hp => ?_, fun hp => ?_⟩
  · simp [postFinally, postBuffers_try, PostState.init, PostState.log, hd1, ho, hf1, hf2, hp,
      poolFreed, contextReleases, linksReleased]
  · have hq := (safePaths_flags (hsafe env p2pCtx ((PostState.init Data Flags memory).log
      (.FltDoCompletionProcessingWhenSafe .synchronous)))).2.1
    simp [PostState.init, PostState.log] at hq
    simp [postFinally, postBuffers_try, PostState.init, PostState.log, hd1, ho, hf1, hf2, hp,
      hq]

/-! ## The swap and the releases of the pre-operation callbacks -/

/-- A callback without a copy stage that took a link has installed the swap. -/
theorem prePaths_swapped {wantMdl : Bool} {size : VOLUME_CONTEXT → Nat} {env : PreEnv}
    {Data : FLT_CALLBACK_DATA} {memory : Memory} {r : PreState}
    (h : PrePaths wantMdl size env Data memory r)
    (hl : Event.ExAllocateFromNPagedLookasideList true ∈ r.trace) :
    ∃ v b, env.FltGetVolumeContext = some v ∧ env.ExAllocatePoolWithTag (size v) = b ∧ b ≠ 0 ∧
      (wantMdl = true → env.IoAllocateMdl b (size v) ≠ 0) ∧
      r.Data = swappedData Data b (newMdlOf wantMdl (env.IoAllocateMdl b (size v))) ∧
      r.CompletionContext = some { VolCtx := v, SwappedBuffer := b } ∧
      r.retValue = FLT_PREOP_SUCCESS_WITH_CALLBACK := by
  rcases h with (⟨_, rfl⟩ | ⟨_, _, rfl⟩ | ⟨w, _, _, _, rfl⟩) | ⟨w, b, _, _, _, _, _, _, rfl⟩ |
    ⟨w, b, m, _, _, rfl⟩ | ⟨w, b, m, ⟨_, hv, hb, hb0, hm, hm0⟩, _, rfl⟩
  · simp [PreState.init] at hl
  · simp [PreState.init] at hl
  · simp [PreState.init] at hl
  · simp [PreState.init] at hl
  · exfalso
    simp only [mdlEvents, mdlFree] at hl
    split_ifs at hl <;> simp at hl
  · refine ⟨w, b, hv, hb, hb0, ?_, ?_, rfl, rfl⟩
    · intro hw
      have := hm0 hw
      rw [← hm] at this
      simpa [newMdlOf, hw] using this
    · simp only [hm]

/-- The trace of a callback without a copy stage that does not ask for the
post-operation callback. -/
theorem prePaths_released {wantMdl : Bool} {size : VOLUME_CONTEXT → Nat} {env : PreEnv}
    {Data : FLT_CALLBACK_DATA} {memory : Memory} {r : PreState}
    (h : PrePaths wantMdl size env Data memory r)
    (hr : r.retValue ≠ FLT_PREOP_SUCCESS_WITH_CALLBACK) :
    ReleasedWhatWasAcquired r.trace ∧ linksAcquired r.trace = 0 := by
  rcases h with (⟨_, rfl⟩ | ⟨_, _, rfl⟩ | ⟨w, _, _, _, rfl⟩) |
    ⟨w, b, _, _, _, hb0, _, _, rfl⟩ |
    ⟨w, b, m, ⟨_, _, _, hb0, hm, hm0⟩, _, rfl⟩ | ⟨w, b, m, _, _, rfl⟩
  · simp [ReleasedWhatWasAcquired, PreState.init, poolFreed, poolAcquired, mdlFreed,
      mdlAcquired, contextReleases, contextsAcquired, linksAcquired]
  · simp [ReleasedWhatWasAcquired, PreState.init, poolFreed, poolAcquired, mdlFreed,
      mdlAcquired, contextReleases, contextsAcquired, linksAcquired]
  · simp [ReleasedWhatWasAcquired, PreState.init, poolFreed, poolAcquired, mdlFreed,
      mdlAcquired, contextReleases, contextsAcquired, linksAcquired]
  · simp [ReleasedWhatWasAcquired, PreState.init, poolFreed, poolAcquired, mdlFreed,
      mdlAcquired, contextReleases, contextsAcquired, linksAcquired, hb0]
  · cases wantMdl
    · have hm1 : m = 0 := by simpa [newMdlOf] using hm.symm
      subst hm1
      simp [ReleasedWhatWasAcquired, PreState.init, mdlEvents, mdlFree, poolFreed,
        poolAcquired, mdlFreed, mdlAcquired, contextReleases, contextsAcquired,
        linksAcquired, hb0]
    · have hm1 : m ≠ 0 := hm0 rfl
      simp [ReleasedWhatWasAcquired, PreState.init, mdlEvents, mdlFree, poolFreed,
        poolAcquired, mdlFreed, mdlAcquired, contextReleases, contextsAcquired,
        linksAcquired, hb0, hm1]
  · exact absurd rfl hr

/-- The trace of `csgPreWriteBuffers` when it does not ask for the
post-operation callback. -/
theorem preWritePaths_released {wantMdl : Bool} {size : VOLUME_CONTEXT → Nat} {env : PreEnv}
    {Data : FLT_CALLBACK_DATA} {memory : Memory} {r : PreState}
    (h : PreWritePaths wantMdl size env Data memory r)
    (hr : r.retValue ≠ FLT_PREOP_SUCCESS_WITH_CALLBACK) :
    ReleasedWhatWasAcquired r.trace ∧ linksAcquired r.trace = 0 := by
  rcases h with (⟨_, rfl⟩ | ⟨_, _, rfl⟩ | ⟨w, _, _, _, rfl⟩) |
    ⟨w, b, _, _, _, hb0, _, _, rfl⟩ |
    ⟨w, b, m, ⟨_, _, _, hb0, hm, hm0⟩, _, _, rfl⟩ |
    ⟨w, b, m, c, wr, ⟨_, _, _, hb0, hm, hm0⟩, _, _, rfl⟩ |
    ⟨w, b, m, ⟨_, _, _, hb0, hm, hm0⟩, _, _, _, rfl⟩ | ⟨w, b, m, _, _, _, _, rfl⟩
  · simp [ReleasedWhatWasAcquired, PreState.init, poolFreed, poolAcquired, mdlFreed,
      mdlAcquired, contextReleases, contextsAcquired, linksAcquired]
  · simp [ReleasedWhatWasAcquired, PreState.init, poolFreed, poolAcquired, mdlFreed,
      mdlAcquired, contextReleases, contextsAcquired, linksAcquired]
  · simp [ReleasedWhatWasAcquired, PreState.init, poolFreed, poolAcquired, mdlFreed,
      mdlAcquired, contextReleases, contextsAcquired, linksAcquired]
  · simp [ReleasedWhatWasAcquired, PreState.init, poolFreed, poolAcquired, mdlFreed,
      mdlAcquired, contextReleases, contextsAcquired, linksAcquired, hb0]
  all_goals try exact absurd rfl hr
  all_goals
    cases wantMdl
    · have hm1 : m = 0 := by simpa [newMdlOf] using hm.symm
      subst hm1
      simp only [mapEvents]
      split_ifs <;>
        simp [ReleasedWhatWasAcquired, PreState.init, mdlEvents, mdlFree, poolFreed,
          poolAcquired, mdlFreed, mdlAcquired, contextReleases, contextsAcquired,
          linksAcquired, hb0]
    · have hm1 : m ≠ 0 := hm0 rfl
      simp only [mapEvents]
      split_ifs <;>
        simp [ReleasedWhatWasAcquired, PreState.init, mdlEvents, mdlFree, poolFreed,
          poolAcquired, mdlFreed, mdlAcquired, contextReleases, contextsAcquired,
          linksAcquired, hb0, hm1]

/-! ## Instance setup -/

/-- The context handed to `FltSetVolumeContext` by the end of the `try` block. -/
theorem setVolumeContext_trace (env : SetupEnv) (s : SetupState) (ctx : VOLUME_CONTEXT) :
    (setVolumeContext env s ctx).trace =
      s.trace ++ [.FltSetVolumeContext ctx env.FltSetVolumeContext] := by
  unfold setVolumeContext
  simp only [SetupState.log]
  split_ifs <;> rfl

/-- The status `InstanceSetup` returns once it gets to `FltSetVolumeContext`. -/
theorem setVolumeContext_status (env : SetupEnv) (s : SetupState) (ctx : VOLUME_CONTEXT) :
    NT_SUCCESS (setVolumeContext env s ctx).status = false ↔
      NT_SUCCESS env.FltSetVolumeContext = false ∧
        env.FltSetVolumeContext ≠ STATUS_FLT_CONTEXT_ALREADY_DEFINED := by
  unfold setVolumeContext
  simp only [SetupState.log]
  split_ifs with h
  · simp [h, NT_SUCCESS, STATUS_SUCCESS]
  · simp [h]

/-- The `finally` block of `InstanceSetup` leaves the status alone. -/
theorem setupFinally_status (s : SetupState) : (setupFinally s).status = s.status := by
  unfold setupFinally
  simp only [SetupState.log]
  split_ifs <;> rfl

/-- The `finally` block of `InstanceSetup` sets no context. -/
theorem setupFinally_set (s : SetupState) (c : VOLUME_CONTEXT) (st : NTSTATUS) :
    SetupEvent.FltSetVolumeContext c st ∈ (setupFinally s).trace ↔
      SetupEvent.FltSetVolumeContext c st ∈ s.trace := by
  unfold setupFinally
  simp only [SetupState.log]
  split_ifs <;> simp

/-- The contexts the fallback branch hands to `FltSetVolumeContext` have the
sector size it was entered with. -/
theorem useNtName_set (env : SetupEnv) (s : SetupState) (ctx c : VOLUME_CONTEXT)
    (st : NTSTATUS) (h : SetupEvent.FltSetVolumeContext c st ∈ (useNtName env s ctx).trace) :
    SetupEvent.FltSetVolumeContext c st ∈ s.trace ∨ c.SectorSize = ctx.SectorSize := by
  unfold useNtName at h
  simp only [SetupState.log] at h
  split_ifs at h
  all_goals first
    | (rw [setVolumeContext_trace] at h
       simp at h
       rcases h with h | h
       · exact Or.inl h
       · right; rw [h.1])
    | (simp at h; exact Or.inl h)

/-- The member `Length` of a name is positive exactly when the name is not
empty. -/
theorem unicodeLength_pos (name : List Nat) : unicodeLength name > 0 ↔ name ≠ [] := by
  unfold unicodeLength
  cases name <;> simp

/-- The status the fallback branch ends with. -/
theorem useNtName_status (env : SetupEnv) (s : SetupState) (ctx : VOLUME_CONTEXT) :
    NT_SUCCESS (useNtName env s ctx).status = false ↔
      (env.volProp.RealDeviceName = [] ∧ env.volProp.FileSystemDeviceName = []) ∨
      (workingNameOf env ≠ [] ∧
        env.ExAllocatePoolWithTag ((unicodeLength (workingNameOf env) + 2) % 2 ^ 16) = 0) ∨
      (NT_SUCCESS env.FltSetVolumeContext = false ∧
        env.FltSetVolumeContext ≠ STATUS_FLT_CONTEXT_ALREADY_DEFINED) := by
  unfold useNtName
  simp only [SetupState.log, unicodeLength_pos]
  by_cases hr : env.volProp.RealDeviceName = []
  · by_cases hf : env.volProp.FileSystemDeviceName = []
    · simp [hr, hf, NT_SUCCESS, STATUS_FLT_DO_NOT_ATTACH]
    · by_cases hb : env.ExAllocatePoolWithTag
          ((unicodeLength env.volProp.FileSystemDeviceName + 2) % 65536) = 0
      · simp [hr, hf, hb, workingNameOf, NT_SUCCESS, STATUS_INSUFFICIENT_RESOURCES]
      · simp [hr, hf, hb, workingNameOf, setVolumeContext_status]
  · by_cases hb : env.ExAllocatePoolWithTag
        ((unicodeLength env.volProp.RealDeviceName + 2) % 65536) = 0
    · simp [hr, hb, workingNameOf, NT_SUCCESS, STATUS_INSUFFICIENT_RESOURCES]
    · simp [hr, hb, workingNameOf, setVolumeContext_status]

/-! ## Failure to get an address for the original buffer -/

theorem postDirectPaths_unmapped {n : Nat} {env : PostEnv} {Data : FLT_CALLBACK_DATA}
    {p2pCtx : PRE_2_POST_CONTEXT} {Flags : Nat} {memory : Memory} {r : PostState}
    (h : PostDirectPaths n env Data p2pCtx Flags memory r) :
    (MappingFailed r.trace → FailedWithoutCopy STATUS_INSUFFICIENT_RESOURCES memory r) ∧
    (∀ status, ¬ LockFailed r.trace status) := by
  rcases h with ⟨_, rfl⟩ | ⟨_, _, _, rfl⟩ | ⟨_, ha, _, rfl⟩ | ⟨code, written, _, ha, _, rfl⟩ |
    ⟨_, _, _, rfl⟩
  · refine ⟨?_, ?_⟩
    · rintro ⟨m, hm⟩
      simp [PostState.init, releaseEvents] at hm
    · rintro status ⟨hs, -⟩
      simp [PostState.init, releaseEvents] at hs
  · refine ⟨fun _ => ⟨rfl, ?_, rfl, rfl⟩, ?_⟩
    · intro b k hk
      simp [PostState.init, releaseEvents] at hk
    · rintro status ⟨hs, -⟩
      simp [PostState.init, releaseEvents] at hs
  · refine ⟨?_, ?_⟩
    · rintro ⟨m, hm⟩
      exfalso
      simp only [PostState.init, releaseEvents, postMapEvents] at hm
      rcases ha with ⟨h1, h2⟩ | ⟨h1, _⟩
      · simp [h1] at hm
        exact h2 hm.2.symm
      · simp [h1] at hm
    · rintro status ⟨hs, -⟩
      simp only [PostState.init, releaseEvents, postMapEvents] at hs
      split_ifs at hs <;> simp at hs
  · refine ⟨?_, ?_⟩
    · rintro ⟨m, hm⟩
      exfalso
      simp only [PostState.init, releaseEvents, postMapEvents] at hm
      rcases ha with ⟨h1, h2⟩ | ⟨h1, _⟩
      · simp [h1] at hm
        exact h2 hm.2.symm
      · simp [h1] at hm
    · rintro status ⟨hs, -⟩
      simp only [PostState.init, releaseEvents, postMapEvents] at hs
      split_ifs at hs <;> simp at hs
  · refine ⟨?_, ?_⟩
    · rintro ⟨m, hm⟩
      simp [PostState.init, releaseEvents] at hm
    · rintro status ⟨hs, -⟩
      simp [PostState.init, releaseEvents] at hs

theorem safePaths_unmapped {n : Nat} {env : PostEnv} {p2pCtx : PRE_2_POST_CONTEXT}
    {Data : FLT_CALLBACK_DATA} {Flags : Nat} {memory : Memory} {a : DeferOutcome}
    {r : PostState}
    (h : SafePaths n env p2pCtx
      ((PostState.init Data Flags memory).log (.FltDoCompletionProcessingWhenSafe a)) r) :
    (MappingFailed r.trace → FailedWithoutCopy STATUS_INSUFFICIENT_RESOURCES memory r) ∧
    (∀ status, LockFailed r.trace status → FailedWithoutCopy status memory r) := by
  rcases h with ⟨hl, rfl⟩ | ⟨hl, _, rfl⟩ | ⟨hl, hm0, rfl⟩
  · refine ⟨?_, ?_⟩
    · rintro ⟨m, hm⟩
      simp [PostState.init, PostState.log, releaseEvents] at hm
    · rintro status ⟨hs, -⟩
      simp [PostState.init, PostState.log, releaseEvents] at hs
      subst hs
      refine ⟨rfl, ?_, rfl, rfl⟩
      intro b k hk
      simp [PostState.init, PostState.log, releaseEvents] at hk
  · refine ⟨fun _ => ⟨rfl, ?_, rfl, rfl⟩, ?_⟩
    · intro b k hk
      simp [PostState.init, PostState.log, releaseEvents] at hk
    · rintro status ⟨hs, hf⟩
      simp [PostState.init, PostState.log, releaseEvents] at hs
      subst hs
      rw [hl] at hf
      cases hf
  · refine ⟨?_, ?_⟩
    · rintro ⟨m, hm⟩
      simp [PostState.init, PostState.log, releaseEvents] at hm
      exact absurd hm.2.symm hm0
    · rintro status ⟨hs, hf⟩
      simp [PostState.init, PostState.log, releaseEvents] at hs
      subst hs
      rw [hl] at hf
      cases hf

theorem failedWithoutCopy_cleanup {status : NTSTATUS} {memory : Memory} {x : PostState}
    (b : Bool) (h : FailedWithoutCopy status memory x) :
    FailedWithoutCopy status memory { x with cleanupAllocatedBuffer := b } := h

theorem postStepPaths_unmapped {n : Nat} {env : PostEnv} {Data : FLT_CALLBACK_DATA}
    {p2pCtx : PRE_2_POST_CONTEXT} {Flags : Nat} {memory : Memory} {r : PostState}
    (h : PostStepPaths n env Data p2pCtx Flags memory r) :
    (MappingFailed r.trace → FailedWithoutCopy STATUS_INSUFFICIENT_RESOURCES memory r) ∧
    (∀ status, LockFailed r.trace status → FailedWithoutCopy status memory r) := by
  rcases h with h | ⟨x, _, _, _, hx, rfl⟩
  · exact ⟨(postDirectPaths_unmapped h).1,
      fun status hs => absurd hs ((postDirectPaths_unmapped h).2 status)⟩
  · exact ⟨fun hm => (safePaths_unmapped hx).1 hm,
      fun status hs => (safePaths_unmapped hx).2 status hs⟩

theorem postPaths_unmapped {n : Nat} {env : PostEnv} {Data : FLT_CALLBACK_DATA}
    {p2pCtx : PRE_2_POST_CONTEXT} {Flags : Nat} {memory : Memory} {r : PostState}
    (h : PostPaths n env Data p2pCtx Flags memory r) :
    (MappingFailed r.trace → FailedWithoutCopy STATUS_INSUFFICIENT_RESOURCES memory r) ∧
    (∀ status, LockFailed r.trace status → FailedWithoutCopy status memory r) := by
  rcases h with h | ⟨_, _, _, rfl⟩ | ⟨x, _, _, _, hx, rfl⟩
  · exact ⟨(postDirectPaths_unmapped h).1,
      fun status hs => absurd hs ((postDirectPaths_unmapped h).2 status)⟩
  · refine ⟨?_, ?_⟩
    · rintro ⟨m, hm⟩
      simp [PostState.init] at hm
    · rintro status ⟨hs, -⟩
      simp [PostState.init] at hs
  · exact ⟨fun hm => (safePaths_unmapped hx).1 hm,
      fun status hs => (safePaths_unmapped hx).2 status hs⟩

theorem not_mem_mdlEvents_map (w : Bool) (b n m k a : Nat) :
    Event.MmGetSystemAddressForMdlSafe k a ∉ mdlEvents w b n m := by
  unfold mdlEvents; split_ifs <;> simp

theorem not_mem_mdlFree_map (m k a : Nat) :
    Event.MmGetSystemAddressForMdlSafe k a ∉ mdlFree m := by
  unfold mdlFree; split_ifs <;> simp

theorem mem_mapEvents_map (env : PreEnv) (Data : FLT_CALLBACK_DATA) (k a : Nat) :
    Event.MmGetSystemAddressForMdlSafe k a ∈ mapEvents env Data ↔
      Data.Iopb.MdlAddress ≠ 0 ∧ k = Data.Iopb.MdlAddress ∧
        a = env.MmGetSystemAddressForMdlSafe Data.Iopb.MdlAddress := by
  unfold mapEvents; split_ifs with h <;> simp [h]

theorem preWritePaths_unmapped {wantMdl : Bool} {size : VOLUME_CONTEXT → Nat} {env : PreEnv}
    {Data : FLT_CALLBACK_DATA} {memory : Memory} {r : PreState}
    (h : PreWritePaths wantMdl size env Data memory r) (hm : MappingFailed r.trace) :
    r.retValue = FLT_PREOP_COMPLETE ∧
    r.Data.IoStatus = { Status := STATUS_INSUFFICIENT_RESOURCES, Information := 0 } ∧
    NoCopy r.trace ∧ r.memory.original = memory.original ∧
    r.memory.swapped = env.poolContents := by
  obtain ⟨k, hk⟩ := hm
  rcases h with (⟨_, rfl⟩ | ⟨_, _, rfl⟩ | ⟨w, _, _, _, rfl⟩) | ⟨w, b, _, _, _, _, _, _, rfl⟩ |
    ⟨w, b, m, _, _, _, rfl⟩ | ⟨w, b, m, c, wr, _, h1, _, rfl⟩ |
    ⟨w, b, m, _, h1, _, _, rfl⟩ | ⟨w, b, m, _, h1, _, _, rfl⟩
  · simp [PreState.init] at hk
  · simp [PreState.init] at hk
  · simp [PreState.init] at hk
  · simp [PreState.init] at hk
  · refine ⟨rfl, rfl, ?_, rfl, rfl⟩
    intro t j hj
    simp [not_mem_mdlEvents_copy, not_mem_mdlFree_copy, not_mem_mapEvents_copy] at hj
  all_goals
    exfalso
    simp [not_mem_mdlEvents_map, not_mem_mdlFree_map, mem_mapEvents_map] at hk
    exact h1 hk.1 hk.2.2.symm

/-! ## The MDL of the substitute buffer -/

theorem prePaths_mdl {wantMdl : Bool} {size : VOLUME_CONTEXT → Nat} {env : PreEnv}
    {Data : FLT_CALLBACK_DATA} {memory : Memory} {r : PreState}
    (h : PrePaths wantMdl size env Data memory r) :
    MdlBuiltExactlyWhen wantMdl env r.trace ∧
    (wantMdl = false → r.retValue = FLT_PREOP_SUCCESS_WITH_CALLBACK →
      r.Data.Iopb.MdlAddress = 0) := by
  rcases h with (⟨_, rfl⟩ | ⟨_, _, rfl⟩ | ⟨w, _, _, h0, rfl⟩) |
    ⟨w, b, _, _, hb, hb0, hw, hm, rfl⟩ |
    ⟨w, b, m, ⟨_, _, hb, hb0, hm, hm0⟩, _, rfl⟩ | ⟨w, b, m, ⟨_, _, hb, hb0, hm, hm0⟩, _, rfl⟩
  · simp [MdlBuiltExactlyWhen, PreState.init]
  · simp [MdlBuiltExactlyWhen, PreState.init]
  · refine ⟨⟨?_, ?_⟩, ?_⟩
    · intro b n hb h
      simp [PreState.init] at h
      exact absurd h.2 hb
    · simp [PreState.init]
    · simp [PreState.init]
  · subst hw
    refine ⟨⟨?_, ?_⟩, ?_⟩
    · intro b' n hb' h
      simp [PreState.init] at h
      obtain ⟨rfl, rfl⟩ := h
      simp [hm]
    · intro b' n m h
      simp [PreState.init] at h
      obtain ⟨rfl, rfl, rfl⟩ := h
      simp [hb0, hm]
    · simp
  all_goals
    cases wantMdl
    · have hm1 : m = 0 := by simpa [newMdlOf] using hm.symm
      subst hm1
      refine ⟨⟨?_, ?_⟩, ?_⟩
      · intro b' n hb' h
        simp [PreState.init, mdlEvents, mdlFree] at h
        obtain ⟨rfl, rfl⟩ := h
        simp [PreState.init, mdlEvents, mdlFree]
      · simp [PreState.init, mdlEvents, mdlFree]
      · simp [PreState.init, swappedData]
    · have hm1 : m ≠ 0 := hm0 rfl
      have hm2 : env.IoAllocateMdl b (size w) = m := by simpa [newMdlOf] using hm
      refine ⟨⟨?_, ?_⟩, ?_⟩
      · intro b' n hb' h
        simp [PreState.init, mdlEvents, mdlFree, hm1] at h
        obtain ⟨rfl, rfl⟩ := h
        refine ⟨?_, ?_⟩
        · simp [PreState.init, mdlEvents, mdlFree, hm1]
        · intro m'
          simp [PreState.init, mdlEvents, mdlFree, hm1, hm2]
          rintro rfl
          exact hm1
      · intro b' n m' h
        simp [PreState.init, mdlEvents, mdlFree, hm1] at h
        obtain ⟨rfl, rfl, rfl⟩ := h
        simp [PreState.init, mdlEvents, mdlFree, hm1, hm2, hb0]
      · simp

theorem preWritePaths_mdl {wantMdl : Bool} {size : VOLUME_CONTEXT → Nat} {env : PreEnv}
    {Data : FLT_CALLBACK_DATA} {memory : Memory} {r : PreState}
    (h : PreWritePaths wantMdl size env Data memory r) :
    MdlBuiltExactlyWhen wantMdl env r.trace ∧
    (wantMdl = false → r.retValue = FLT_PREOP_SUCCESS_WITH_CALLBACK →
      r.Data.Iopb.MdlAddress = 0) := by
  rcases h with (⟨_, rfl⟩ | ⟨_, _, rfl⟩ | ⟨w, _, _, h0, rfl⟩) |
    ⟨w, b, _, _, hb, hb0, hw, hm, rfl⟩ |
    ⟨w, b, m, ⟨_, _, hb, hb0, hm, hm0⟩, _, _, rfl⟩ |
    ⟨w, b, m, c, wr, ⟨_, _, hb, hb0, hm, hm0⟩, _, _, rfl⟩ |
    ⟨w, b, m, ⟨_, _, hb, hb0, hm, hm0⟩, _, _, _, rfl⟩ |
    ⟨w, b, m, ⟨_, _, hb, hb0, hm, hm0⟩, _, _, _, rfl⟩
  · simp [MdlBuiltExactlyWhen, PreState.init]
  · simp [MdlBuiltExactlyWhen, PreState.init]
  · refine ⟨⟨?_, ?_⟩, ?_⟩
    · intro b n hb h
      simp [PreState.init] at h
      exact absurd h.2 hb
    · simp [PreState.init]
    · simp [PreState.init]
  · subst hw
    refine ⟨⟨?_, ?_⟩, ?_⟩
    · intro b' n hb' h
      simp [PreState.init] at h
      obtain ⟨rfl, rfl⟩ := h
      simp [hm]
    · intro b' n m h
      simp [PreState.init] at h
      obtain ⟨rfl, rfl, rfl⟩ := h
      simp [hb0, hm]
    · simp
  all_goals
    have hmap : ∀ e ∈ mapEvents env Data, ∃ k a, e = Event.MmGetSystemAddressForMdlSafe k a := by
      intro e he
      unfold mapEvents at he
      split_ifs at he
      · simp at he
      · simp at he; exact ⟨_, _, he⟩
    have hmap1 : ∀ n b, Event.ExAllocatePoolWithTag n b ∉ mapEvents env Data := by
      intro n b hx
      obtain ⟨k, a, hk⟩ := hmap _ hx
      cases hk
    have hmap2 : ∀ b n m, Event.IoAllocateMdl b n m ∉ mapEvents env Data := by
      intro n b m hx
      obtain ⟨k, a, hk⟩ := hmap _ hx
      cases hk
    have hmap3 : ∀ m, Event.MmBuildMdlForNonPagedPool m ∉ mapEvents env Data := by
      intro m hx
      obtain ⟨k, a, hk⟩ := hmap _ hx
      cases hk
    cases wantMdl
    · have hm1 : m = 0 := by simpa [newMdlOf] using hm.symm
      subst hm1
      refine ⟨⟨?_, ?_⟩, ?_⟩
      · intro b' n hb' h
        simp [PreState.init, mdlEvents, mdlFree, hmap1] at h
        obtain ⟨rfl, rfl⟩ := h
        simp [PreState.init, mdlEvents, mdlFree, hmap2, hmap3]
      · simp [PreState.init, mdlEvents, mdlFree, hmap2]
      · simp [PreState.init, swappedData]
    · have hm1 : m ≠ 0 := hm0 rfl
      have hm2 : env.IoAllocateMdl b (size w) = m := by simpa [newMdlOf] using hm
      refine ⟨⟨?_, ?_⟩, ?_⟩
      · intro b' n hb' h
        simp [PreState.init, mdlEvents, mdlFree, hm1, hmap1] at h
        obtain ⟨rfl, rfl⟩ := h
        refine ⟨?_, ?_⟩
        · simp [PreState.init, mdlEvents, mdlFree, hm1]
        · intro m'
          simp [PreState.init, mdlEvents, mdlFree, hm1, hm2, hmap3]
          rintro rfl
          exact hm1
      · intro b' n m' h
        simp [PreState.init, mdlEvents, mdlFree, hm1, hmap2] at h
        obtain ⟨rfl, rfl, rfl⟩ := h
        simp [PreState.init, mdlEvents, mdlFree, hm1, hm2, hb0]
      · simp

/-! ## When a post-operation callback asks for a safe context -/

theorem deferralAttempts_append (s t : Trace) :
    deferralAttempts (s ++ t) = deferralAttempts s + deferralAttempts t := by
  simp [deferralAttempts]

theorem deferralAttempts_nil : deferralAttempts [] = 0 := rfl

theorem deferralAttempts_cons (e : Event) (t : Trace) :
    deferralAttempts (e :: t) =
      (match e with
        | .FltDoCompletionProcessingWhenSafe _ => 1
        | _ => 0) + deferralAttempts t := by
  cases e <;> simp [deferralAttempts, Nat.add_comm]

theorem deferralAttempts_postMapEvents (env : PostEnv) (Data : FLT_CALLBACK_DATA) :
    deferralAttempts (postMapEvents env Data) = 0 := by
  unfold postMapEvents deferralAttempts; split_ifs <;> simp

theorem deferralAttempts_releaseEvents (c : PRE_2_POST_CONTEXT) :
    deferralAttempts (releaseEvents c) = 0 := by
  simp [releaseEvents, deferralAttempts]

/-- The number of requests for a safe context made by a post-operation
callback. -/
theorem postPaths_deferralAttempts {n : Nat} {env : PostEnv} {Data : FLT_CALLBACK_DATA}
    {p2pCtx : PRE_2_POST_CONTEXT} {Flags : Nat} {memory : Memory} {r : PostState}
    (h : PostPaths n env Data p2pCtx Flags memory r) :
    (HasData Data ∧ NeedsSafeContext Data → deferralAttempts r.trace = 1) ∧
    (¬ (HasData Data ∧ NeedsSafeContext Data) → deferralAttempts r.trace = 0) := by
  rcases h with (⟨h1, rfl⟩ | ⟨_, h1, _, rfl⟩ | ⟨_, h1, _, rfl⟩ | ⟨c, w, _, h1, _, rfl⟩ |
    ⟨hd, hn, _, rfl⟩) | ⟨hd, hn, _, rfl⟩ | ⟨x, hd, hn, _, hx, rfl⟩
  · refine ⟨fun h => absurd h.1 h1, fun _ => ?_⟩
    simp [PostState.init, deferralAttempts_append, deferralAttempts_releaseEvents,
      deferralAttempts_cons, deferralAttempts_nil]
  · refine ⟨fun h => absurd h.2.1 h1, fun _ => ?_⟩
    simp [PostState.init, deferralAttempts_append, deferralAttempts_releaseEvents,
      deferralAttempts_cons, deferralAttempts_nil]
  · refine ⟨fun h => absurd h1 (not_addressable_of_needsSafeContext h.2), fun _ => ?_⟩
    simp [PostState.init, deferralAttempts_append, deferralAttempts_releaseEvents,
      deferralAttempts_postMapEvents, deferralAttempts_cons, deferralAttempts_nil]
  · refine ⟨fun h => absurd h1 (not_addressable_of_needsSafeContext h.2), fun _ => ?_⟩
    simp [PostState.init, deferralAttempts_append, deferralAttempts_releaseEvents,
      deferralAttempts_postMapEvents, deferralAttempts_cons, deferralAttempts_nil]
  · refine ⟨fun _ => ?_, fun h => absurd ⟨hd, hn⟩ h⟩
    simp [PostState.init, deferralAttempts_append, deferralAttempts_releaseEvents,
      deferralAttempts_cons, deferralAttempts_nil]
  · refine ⟨fun _ => ?_, fun h => absurd ⟨hd, hn⟩ h⟩
    simp [PostState.init, deferralAttempts_append, deferralAttempts_cons, deferralAttempts_nil]
  · refine ⟨fun _ => ?_, fun h => absurd ⟨hd, hn⟩ h⟩
    rcases hx with ⟨_, rfl⟩ | ⟨_, _, rfl⟩ | ⟨_, _, rfl⟩ <;>
      simp [PostState.init, PostState.log, deferralAttempts_append,
        deferralAttempts_releaseEvents, deferralAttempts_cons, deferralAttempts_nil]

/-- The calls by which a post-operation callback maps the original buffer. -/
theorem postPaths_mapping {n : Nat} {env : PostEnv} {Data : FLT_CALLBACK_DATA}
    {p2pCtx : PRE_2_POST_CONTEXT} {Flags : Nat} {memory : Memory} {r : PostState}
    (h : PostPaths n env Data p2pCtx Flags memory r) (hd : HasData Data) :
    (Data.Iopb.MdlAddress ≠ 0 →
      Event.MmGetSystemAddressForMdlSafe Data.Iopb.MdlAddress
        (env.MmGetSystemAddressForMdlSafe Data.Iopb.MdlAddress) ∈ r.trace) ∧
    (Data.Iopb.MdlAddress = 0 →
      (FlagOn Data.Flags FLTFL_CALLBACK_DATA_SYSTEM_BUFFER = true ∨
        FlagOn Data.Flags FLTFL_CALLBACK_DATA_FAST_IO_OPERATION = true) →
      ∀ m a, Event.MmGetSystemAddressForMdlSafe m a ∉ r.trace) := by
  rcases h with (⟨h1, rfl⟩ | ⟨_, h1, h2, rfl⟩ | ⟨_, h1, _, rfl⟩ | ⟨c, w, _, h1, _, rfl⟩ |
    ⟨_, hn, _, rfl⟩) | ⟨_, hn, _, rfl⟩ | ⟨x, _, hn, _, hx, rfl⟩
  · exact absurd hd h1
  · refine ⟨fun _ => ?_, fun h0 => absurd h0 h1⟩
    simp [PostState.init, h2]
  · refine ⟨fun h0 => ?_, fun h0 _ m a => ?_⟩
    · simp [PostState.init, postMapEvents, h0]
    · simp [PostState.init, postMapEvents, h0, releaseEvents]
  · refine ⟨fun h0 => ?_, fun h0 _ m a => ?_⟩
    · simp [PostState.init, postMapEvents, h0]
    · simp [PostState.init, postMapEvents, h0, releaseEvents]
  all_goals
    refine ⟨fun h0 => absurd hn.1 h0, fun _ hf => ?_⟩
    rcases hf with hf | hf
    · rw [hn.2.1] at hf; cases hf
    · rw [hn.2.2] at hf; cases hf

theorem postPaths_deferralRule {n : Nat} {env : PostEnv} {Data : FLT_CALLBACK_DATA}
    {p2pCtx : PRE_2_POST_CONTEXT} {Flags : Nat} {memory : Memory} {r : PostState}
    (h : PostPaths n env Data p2pCtx Flags memory r) : DeferralRule n env Data r := by
  obtain ⟨h1, h0⟩ := postPaths_deferralAttempts h
  refine ⟨⟨fun ha => ?_, h1⟩, ⟨fun ha => ?_, h0⟩, fun hd hm => ?_, fun hd hm hf => ?_⟩
  · by_contra hc
    rw [h0 hc] at ha
    cases ha
  · intro hc
    rw [h1 hc] at ha
    cases ha
  · have hn : ¬ (HasData Data ∧ NeedsSafeContext Data) := fun hc => hm hc.2.1
    refine ⟨(postPaths_mapping h hd).1 hm, h0 hn, fun ha => ⟨?_, ?_⟩⟩
    · simp [origBufOf, hm, ha]
    · exact postPaths_addressable h hd (Or.inl ⟨hm, ha⟩)
  · have hn : ¬ (HasData Data ∧ NeedsSafeContext Data) := by
      rintro ⟨-, -, h2, h3⟩
      rcases hf with hf | hf
      · rw [h2] at hf; cases hf
      · rw [h3] at hf; cases hf
    refine ⟨(postPaths_mapping h hd).2 hm hf, h0 hn, ?_, ?_⟩
    · rcases hf with hf | hf <;> simp [origBufOf, hm, hf]
    · exact postPaths_addressable h hd (Or.inr ⟨hm, hf⟩)

/-! ## Rounding to the ceiling -/

/-- The rounding for a power of two and a sum that fits 32 bits, a length of
zero included. -/
theorem round_pow2_any (L j : Nat) (h : L + 2 ^ j - 1 < 2 ^ 32) :
    toULONG (ROUND_TO_SIZE L (2 ^ j)) = 2 ^ j * ((L + 2 ^ j - 1) / 2 ^ j) := by
  have hpos : 0 < 2 ^ j := Nat.two_pow_pos j
  have hA : 2 ^ j < 2 ^ 32 + 1 := by omega
  have hj : j ≤ 32 := by
    by_contra hc
    have : 2 ^ 33 ≤ 2 ^ j := Nat.pow_le_pow_right (by norm_num) (by omega)
    omega
  unfold ROUND_TO_SIZE toULONG
  by_cases hj32 : j = 32
  · subst hj32
    have hL : L = 0 := by omega
    subst hL
    decide
  · have hA' : 2 ^ j < 2 ^ 32 := by
      have : j < 32 := by omega
      exact Nat.pow_lt_pow_right (by norm_num) this
    have e1 : (2 ^ j + 2 ^ 32 - 1) % 2 ^ 32 = 2 ^ j - 1 := by
      have : 2 ^ j + 2 ^ 32 - 1 = (2 ^ j - 1) + 2 ^ 32 := by omega
      rw [this, Nat.add_mod_right, Nat.mod_eq_of_lt (by omega)]
    have e2 : (L + (2 ^ j - 1)) % 2 ^ 64 = L + 2 ^ j - 1 := by
      rw [Nat.mod_eq_of_lt (by omega)]; omega
    rw [e1, e2, mask_land _ j (by omega) (by omega)]
    apply Nat.mod_eq_of_lt
    have := Nat.mul_div_le (L + 2 ^ j - 1) (2 ^ j)
    omega

/-- The quotient `(L + A - 1) / A` is the ceiling of `L / A`. -/
theorem ceil_div_eq (L A : Nat) (hA : 0 < A) :
    ⌈(L : ℚ) / (A : ℚ)⌉₊ = (L + A - 1) / A := by
  have hAq : (0 : ℚ) < (A : ℚ) := by exact_mod_cast hA
  have h1 := Nat.div_add_mod (L + A - 1) A
  have h2 := Nat.mod_lt (L + A - 1) hA
  apply le_antisymm
  · rw [Nat.ceil_le, div_le_iff₀ hAq]
    have : L ≤ (L + A - 1) / A * A := by
      rw [Nat.mul_comm]; omega
    exact_mod_cast this
  · rcases Nat.eq_zero_or_pos ((L + A - 1) / A) with h0 | hq
    · rw [h0]; exact Nat.zero_le _
    · apply Nat.le_of_pred_lt
      rw [Nat.lt_ceil, lt_div_iff₀ hAq]
      have : ((L + A - 1) / A).pred * A < L := by
        have e : ((L + A - 1) / A).pred = (L + A - 1) / A - 1 := rfl
        rw [e, Nat.sub_mul, Nat.one_mul, Nat.mul_comm]
        have : A ≤ A * ((L + A - 1) / A) := Nat.le_mul_of_pos_right A hq
        omega
      exact_mod_cast this

/-! ## The copy of `csgPreWriteBuffers` -/

theorem copiesFromOriginal_append (s t : Trace) :
    copiesFromOriginal (s ++ t) = copiesFromOriginal s ++ copiesFromOriginal t := by
  simp [copiesFromOriginal]

theorem copiesFromOriginal_nil : copiesFromOriginal [] = [] := rfl

theorem copiesFromOriginal_cons (e : Event) (t : Trace) :
    copiesFromOriginal (e :: t) =
      (match e with
        | .RtlCopyMemory false n => [n]
        | _ => []) ++ copiesFromOriginal t := by
  cases e with
  | RtlCopyMemory b n => cases b <;> simp [copiesFromOriginal]
  | _ => simp [copiesFromOriginal]

theorem copiesFromOriginal_mdlEvents (w : Bool) (b n m : Nat) :
    copiesFromOriginal (mdlEvents w b n m) = [] := by
  unfold mdlEvents copiesFromOriginal; split_ifs <;> simp

theorem copiesFromOriginal_mdlFree (m : Nat) : copiesFromOriginal (mdlFree m) = [] := by
  unfold mdlFree copiesFromOriginal; split_ifs <;> simp

theorem copiesFromOriginal_mapEvents (env : PreEnv) (Data : FLT_CALLBACK_DATA) :
    copiesFromOriginal (mapEvents env Data) = [] := by
  unfold mapEvents copiesFromOriginal; split_ifs <;> simp

/-- The copies `csgPreWriteBuffers` makes from the caller's buffer: none, or one
of the size asked of the pool. -/
theorem preWritePaths_copies {wantMdl : Bool} {size : VOLUME_CONTEXT → Nat} {env : PreEnv}
    {Data : FLT_CALLBACK_DATA} {memory : Memory} {r : PreState}
    (h : PreWritePaths wantMdl size env Data memory r) :
    copiesFromOriginal r.trace = [] ∨
    ∃ v, env.FltGetVolumeContext = some v ∧ copiesFromOriginal r.trace = [size v] ∧
      poolRequests r.trace = [size v] := by
  rcases h with (⟨_, rfl⟩ | ⟨_, _, rfl⟩ | ⟨w, _, _, _, rfl⟩) | ⟨w, b, _, _, _, _, _, _, rfl⟩ |
    ⟨w, b, m, _, _, _, rfl⟩ | ⟨w, b, m, c, wr, ⟨_, hv, _⟩, _, _, rfl⟩ |
    ⟨w, b, m, ⟨_, hv, _⟩, _, _, _, rfl⟩ | ⟨w, b, m, ⟨_, hv, _⟩, _, _, _, rfl⟩
  · left; simp [PreState.init, copiesFromOriginal_nil]
  · left; simp [PreState.init, copiesFromOriginal_cons, copiesFromOriginal_nil]
  · left; simp [PreState.init, copiesFromOriginal_cons, copiesFromOriginal_nil]
  · left; simp [PreState.init, copiesFromOriginal_cons, copiesFromOriginal_nil]
  · left
    simp [copiesFromOriginal_append, copiesFromOriginal_cons, copiesFromOriginal_nil,
      copiesFromOriginal_mdlEvents, copiesFromOriginal_mdlFree, copiesFromOriginal_mapEvents]
  all_goals
    right
    refine ⟨w, hv, ?_, ?_⟩
    · simp [copiesFromOriginal_append, copiesFromOriginal_cons, copiesFromOriginal_nil,
        copiesFromOriginal_mdlEvents, copiesFromOriginal_mdlFree,
        copiesFromOriginal_mapEvents]
    · simp [poolRequests_append, poolRequests_cons, poolRequests_nil, poolRequests_mdlEvents,
        poolRequests_mdlFree, poolRequests_mapEvents]

/-! ## When `csgPreWriteBuffers` completes the operation -/

theorem preWritePaths_complete {env : PreEnv} {Data : FLT_CALLBACK_DATA} {memory : Memory}
    {r : PreState}
    (h : PreWritePaths (FlagOn Data.Flags FLTFL_CALLBACK_DATA_IRP_OPERATION)
      (transferSize Data) env Data memory r) :
    (r.retValue = FLT_PREOP_COMPLETE ↔ WriteSourceUnreadable env Data) ∧
    (r.retValue = FLT_PREOP_COMPLETE →
      r.Data.IoStatus.Information = 0 ∧
      (r.Data.IoStatus.Status = STATUS_INSUFFICIENT_RESOURCES ∨
        ∃ code written, env.RtlCopyMemory = .faulted code written ∧
          r.Data.IoStatus.Status = code)) ∧
    (r.retValue ≠ FLT_PREOP_COMPLETE → r.Data.IoStatus = Data.IoStatus) := by
  rcases h with (⟨h0, rfl⟩ | ⟨_, hv, rfl⟩ | ⟨w, _, hv, hb, rfl⟩) |
    ⟨w, b, _, hv, hb, hb0, hw, hm, rfl⟩ |
    ⟨w, b, m, ⟨h0, hv, hb, hb0, hm, hm0⟩, ho, hmap, rfl⟩ |
    ⟨w, b, m, c, wr, ⟨h0, hv, hb, hb0, hm, hm0⟩, hmap, hc, rfl⟩ |
    ⟨w, b, m, ⟨_, hv, hb, hb0, hm, hm0⟩, hmap, hc, _, rfl⟩ |
    ⟨w, b, m, ⟨_, hv, hb, hb0, hm, hm0⟩, hmap, hc, _, rfl⟩
  · refine ⟨⟨fun h => by simp [PreState.init] at h, fun h => absurd h0 h.1⟩,
      fun h => by simp [PreState.init] at h, fun _ => rfl⟩
  · refine ⟨⟨fun h => by simp [PreState.init] at h, ?_⟩,
      fun h => by simp [PreState.init] at h, fun _ => rfl⟩
    rintro ⟨-, v, hv', -⟩
    rw [hv] at hv'; cases hv'
  · refine ⟨⟨fun h => by simp [PreState.init] at h, ?_⟩,
      fun h => by simp [PreState.init] at h, fun _ => rfl⟩
    rintro ⟨-, v, hv', hb', -⟩
    rw [hv] at hv'; cases hv'
    exact absurd hb hb'
  · refine ⟨⟨fun h => by simp [PreState.init] at h, ?_⟩,
      fun h => by simp [PreState.init] at h, fun _ => rfl⟩
    rintro ⟨-, v, hv', -, hm', -⟩
    rw [hv] at hv'; cases hv'
    rw [hb] at hm'
    exact absurd hm (hm' hw)
  · refine ⟨⟨fun _ => ⟨h0, w, hv, ?_, ?_, Or.inl ⟨ho, hmap⟩⟩, fun _ => rfl⟩,
      fun _ => ⟨rfl, Or.inl rfl⟩, fun h => absurd rfl h⟩
    · rw [hb]; exact hb0
    · intro hw
      rw [hb]
      have := hm0 hw
      rw [← hm] at this
      simpa [newMdlOf, hw] using this
  · refine ⟨⟨fun _ => ⟨h0, w, hv, ?_, ?_, Or.inr ⟨hmap, c, wr, hc⟩⟩, fun _ => rfl⟩,
      fun _ => ⟨rfl, Or.inr ⟨c, wr, hc, rfl⟩⟩, fun h => absurd rfl h⟩
    · rw [hb]; exact hb0
    · intro hw
      rw [hb]
      have := hm0 hw
      rw [← hm] at this
      simpa [newMdlOf, hw] using this
  all_goals
    refine ⟨⟨fun h => by simp [PreState.init] at h, ?_⟩,
      fun h => by simp [PreState.init] at h, fun _ => rfl⟩
    rintro ⟨-, v, -, -, -, ⟨h1, h2⟩ | ⟨-, c, wr, h3⟩⟩
    · exact absurd h2 (hmap h1)
    · rw [hc] at h3; cases h3

/-! ## The swap is all or nothing -/

theorem swapAllOrNothing_of (Data : FLT_CALLBACK_DATA) (r : PreState)
    (h : (r.retValue = FLT_PREOP_SUCCESS_WITH_CALLBACK ∧ SwapInstalled Data r) ∨
      (r.retValue ≠ FLT_PREOP_SUCCESS_WITH_CALLBACK ∧ SwapAbsent Data r)) :
    SwapAllOrNothing Data r := by
  refine ⟨h, ?_, ?_, ?_, ?_⟩
  · rcases h with ⟨h1, -, -, h2, -⟩ | ⟨h1, -, -, h2, -⟩
    · exact ⟨fun _ => h2, fun _ => h1⟩
    · exact ⟨fun h => absurd h h1, fun h => absurd h h2⟩
  · rcases h with ⟨h1, -, -, -, h2, -⟩ | ⟨h1, -, -, -, h2, -⟩
    · exact ⟨fun _ => h2, fun _ => h1⟩
    · refine ⟨fun h => absurd h h1, fun h => ?_⟩
      rw [h2] at h; cases h
  · rcases h with ⟨h1, -, -, -, -, v, h2⟩ | ⟨h1, -, -, -, -, h2⟩
    · refine ⟨fun _ => ?_, fun _ => h1⟩
      rw [h2]; exact Option.some_ne_none _
    · exact ⟨fun h => absurd h h1, fun h => absurd h2 h⟩
  · rcases h with ⟨h1, h0, h2, h3, -⟩ | ⟨h1, -, -, h2, -⟩
    · refine ⟨fun _ => ⟨h2, h0, ?_, h3⟩, fun _ => h1⟩
      rw [h2]; rfl
    · exact ⟨fun h => absurd h h1, fun h => absurd h.2.2.2 h2⟩

theorem prePaths_allOrNothing {wantMdl : Bool} {size : VOLUME_CONTEXT → Nat} {env : PreEnv}
    {Data : FLT_CALLBACK_DATA} {memory : Memory} {r : PreState}
    (h : PrePaths wantMdl size env Data memory r) :
    SwapAllOrNothing Data r ∧
    (r.retValue = FLT_PREOP_SUCCESS_WITH_CALLBACK ∨
      r.retValue = FLT_PREOP_SUCCESS_NO_CALLBACK) := by
  refine ⟨swapAllOrNothing_of Data r ?_, ?_⟩
  · rcases h with (⟨_, rfl⟩ | ⟨_, _, rfl⟩ | ⟨w, _, _, _, rfl⟩) |
      ⟨w, b, _, _, _, _, _, _, rfl⟩ |
      ⟨w, b, m, _, _, rfl⟩ | ⟨w, b, m, ⟨_, _, _, hb0, _⟩, _, rfl⟩
    · right; simp [SwapAbsent, PreState.init, linksAcquired]
    · right; simp [SwapAbsent, PreState.init, linksAcquired]
    · right; simp [SwapAbsent, PreState.init, linksAcquired]
    · right; simp [SwapAbsent, PreState.init, linksAcquired]
    · right
      simp only [SwapAbsent, PreState.init, mdlEvents, mdlFree]
      split_ifs <;> simp [linksAcquired]
    · left
      simp only [SwapInstalled, PreState.init, mdlEvents, mdlFree]
      split_ifs <;> simp [linksAcquired, hb0]
  · rcases h with (⟨_, rfl⟩ | ⟨_, _, rfl⟩ | ⟨w, _, _, _, rfl⟩) |
      ⟨w, b, _, _, _, _, _, _, rfl⟩ |
      ⟨w, b, m, _, _, rfl⟩ | ⟨w, b, m, _, _, rfl⟩
    all_goals first
      | exact Or.inl rfl
      | exact Or.inr rfl

theorem preWritePaths_allOrNothing {wantMdl : Bool} {size : VOLUME_CONTEXT → Nat}
    {env : PreEnv} {Data : FLT_CALLBACK_DATA} {memory : Memory} {r : PreState}
    (h : PreWritePaths wantMdl size env Data memory r) : SwapAllOrNothing Data r := by
  apply swapAllOrNothing_of
  rcases h with (⟨_, rfl⟩ | ⟨_, _, rfl⟩ | ⟨w, _, _, _, rfl⟩) | ⟨w, b, _, _, _, _, _, _, rfl⟩ |
    ⟨w, b, m, _, _, _, rfl⟩ | ⟨w, b, m, c, wr, _, _, _, rfl⟩ |
    ⟨w, b, m, _, _, _, _, rfl⟩ | ⟨w, b, m, ⟨_, _, _, hb0, _⟩, _, _, _, rfl⟩
  · right; simp [SwapAbsent, PreState.init, linksAcquired]
  · right; simp [SwapAbsent, PreState.init, linksAcquired]
  · right; simp [SwapAbsent, PreState.init, linksAcquired]
  · right; simp [SwapAbsent, PreState.init, linksAcquired]
  · right
    simp only [SwapAbsent, PreState.init, mdlEvents, mdlFree, mapEvents, failedData]
    split_ifs <;> simp [linksAcquired]
  · right
    simp only [SwapAbsent, PreState.init, mdlEvents, mdlFree, mapEvents, failedData]
    split_ifs <;> simp [linksAcquired]
  · right
    simp only [SwapAbsent, PreState.init, mdlEvents, mdlFree, mapEvents]
    split_ifs <;> simp [linksAcquired]
  · left
    simp only [SwapInstalled, PreState.init, mdlEvents, mdlFree, mapEvents]
    split_ifs <;> simp [linksAcquired, hb0]

/-! ## The result slot after a post-step -/

theorem slotRule_kept {env : PostEnv} {Data : FLT_CALLBACK_DATA} {r : PostState}
    (h : r.Data.IoStatus = Data.IoStatus) : SlotRule env Data r :=
  ⟨Or.inl h, fun _ => h, fun _ => h, Or.inl (by rw [h])⟩

theorem slotRule_failed {env : PostEnv} {Data : FLT_CALLBACK_DATA} {r : PostState}
    {status : NTSTATUS} (hd : HasData Data) (hs : NT_SUCCESS status = false)
    (h : r.Data.IoStatus = { Status := status, Information := 0 })
    (hc : ¬ CopyBackSucceeded env r) : SlotRule env Data r := by
  refine ⟨Or.inr ?_, fun hf => ?_, fun hx => absurd hx hc, Or.inr ?_⟩
  · rw [h]; exact ⟨hs, rfl⟩
  · rw [hd.1] at hf; cases hf
  · rw [h]

theorem safePaths_slotRule {n : Nat} {env : PostEnv} {p2pCtx : PRE_2_POST_CONTEXT}
    {Data : FLT_CALLBACK_DATA} {Flags : Nat} {memory : Memory} {a : DeferOutcome}
    {x : PostState} (hd : HasData Data)
    (h : SafePaths n env p2pCtx
      ((PostState.init Data Flags memory).log (.FltDoCompletionProcessingWhenSafe a)) x)
    (b : Bool) : SlotRule env Data { x with cleanupAllocatedBuffer := b } := by
  rcases h with ⟨hl, rfl⟩ | ⟨hl, _, rfl⟩ | ⟨hl, hm0, rfl⟩
  · refine slotRule_failed hd hl rfl ?_
    rintro ⟨hc, -⟩
    simp [PostState.init, PostState.log, copiesToOriginal_append, copiesToOriginal_cons,
      copiesToOriginal_nil, copiesToOriginal_releaseEvents] at hc
  · refine slotRule_failed hd (by decide : NT_SUCCESS STATUS_INSUFFICIENT_RESOURCES = false) rfl ?_
    rintro ⟨hc, -⟩
    simp [PostState.init, PostState.log, copiesToOriginal_append, copiesToOriginal_cons,
      copiesToOriginal_nil, copiesToOriginal_releaseEvents] at hc
  · apply slotRule_kept
    simp [PostState.init, PostState.log, lockUserBuffer_IoStatus]

theorem postDirectPaths_slotRule {n : Nat} {env : PostEnv} {Data : FLT_CALLBACK_DATA}
    {p2pCtx : PRE_2_POST_CONTEXT} {Flags : Nat} {memory : Memory} {r : PostState}
    (hx : FaultsAreFailures env) (h : PostDirectPaths n env Data p2pCtx Flags memory r) :
    SlotRule env Data r := by
  rcases h with ⟨_, rfl⟩ | ⟨hd, _, _, rfl⟩ | ⟨_, _, _, rfl⟩ | ⟨code, written, hd, _, hc, rfl⟩ |
    ⟨hd, _, _, rfl⟩
  · exact slotRule_kept rfl
  · refine slotRule_failed hd (by decide : NT_SUCCESS STATUS_INSUFFICIENT_RESOURCES = false) rfl ?_
    rintro ⟨h1, -⟩
    simp [PostState.init, copiesToOriginal_append, copiesToOriginal_cons,
      copiesToOriginal_nil, copiesToOriginal_releaseEvents] at h1
  · exact slotRule_kept rfl
  · refine slotRule_failed hd (hx code written hc) rfl ?_
    rintro ⟨-, h1⟩
    have h2 := h1 (by
      simp [PostState.init, deferralAttempts_append, deferralAttempts_cons,
        deferralAttempts_nil, deferralAttempts_postMapEvents, deferralAttempts_releaseEvents])
    rw [hc] at h2
    cases h2
  · refine slotRule_failed hd (by decide : NT_SUCCESS STATUS_UNSUCCESSFUL = false) rfl ?_
    rintro ⟨h1, -⟩
    simp [PostState.init, copiesToOriginal_append, copiesToOriginal_cons,
      copiesToOriginal_nil, copiesToOriginal_releaseEvents] at h1

theorem postStepPaths_slotRule {n : Nat} {env : PostEnv} {Data : FLT_CALLBACK_DATA}
    {p2pCtx : PRE_2_POST_CONTEXT} {Flags : Nat} {memory : Memory} {r : PostState}
    (hx : FaultsAreFailures env) (h : PostStepPaths n env Data p2pCtx Flags memory r) :
    SlotRule env Data r := by
  rcases h with h | ⟨x, hd, _, _, h, rfl⟩
  · exact postDirectPaths_slotRule hx h
  · exact safePaths_slotRule hd h false

theorem postPaths_slotRule {n : Nat} {env : PostEnv} {Data : FLT_CALLBACK_DATA}
    {p2pCtx : PRE_2_POST_CONTEXT} {Flags : Nat} {memory : Memory} {r : PostState}
    (hx : FaultsAreFailures env) (h : PostPaths n env Data p2pCtx Flags memory r) :
    SlotRule env Data r := by
  rcases h with h | ⟨_, _, _, rfl⟩ | ⟨x, hd, _, _, h, rfl⟩
  · exact postDirectPaths_slotRule hx h
  · exact slotRule_kept rfl
  · exact safePaths_slotRule hd h false

/-- A safe callback keeps or fails the result slot of the state it is entered
with. -/
theorem safePaths_slot {n : Nat} {env : PostEnv} {p2pCtx : PRE_2_POST_CONTEXT}
    {s r : PostState} (h : SafePaths n env p2pCtx s r) :
    SlotKeptOrFailed s.Data.IoStatus r.Data.IoStatus := by
  rcases h with ⟨hl, rfl⟩ | ⟨hl, _, rfl⟩ | ⟨hl, hm0, rfl⟩
  · exact Or.inr ⟨hl, rfl⟩
  · exact Or.inr ⟨(by decide : NT_SUCCESS STATUS_INSUFFICIENT_RESOURCES = false), rfl⟩
  · exact Or.inl (lockUserBuffer_IoStatus env s.Data)

/-! ## The post-steps with the fate of the deferred copy left open -/

/-- With a copy that runs to its end the safe callback returns, in the state of
`swapPostBuffersWhenSafe`. -/
theorem swapPostBuffersWhenSafe_outcome_completed (count : FLT_CALLBACK_DATA → Nat)
    (env : PostEnv) (p2pCtx : PRE_2_POST_CONTEXT) (s : PostState) :
    swapPostBuffersWhenSafe_outcome .completed count env p2pCtx s =
      .returned (swapPostBuffersWhenSafe count env p2pCtx s) := by
  cases hl : NT_SUCCESS env.FltLockUserBuffer
  · simp [swapPostBuffersWhenSafe, swapPostBuffersWhenSafe_outcome, PostOutcome.state, hl]
  · by_cases hm :
      env.MmGetSystemAddressForMdlSafe (lockUserBuffer env s.Data).Iopb.MdlAddress = 0
    · simp [swapPostBuffersWhenSafe, swapPostBuffersWhenSafe_outcome, PostOutcome.state,
        PostState.log, hl, hm]
    · simp [swapPostBuffersWhenSafe, swapPostBuffersWhenSafe_outcome, PostOutcome.state,
        PostState.log, hl, hm]

/-- A safe callback that does not get to its copy returns, whatever the fate of
the copy would be. -/
theorem swapPostBuffersWhenSafe_outcome_unreached (unguarded : CopyOutcome)
    (count : FLT_CALLBACK_DATA → Nat) (env : PostEnv) (p2pCtx : PRE_2_POST_CONTEXT)
    (s : PostState)
    (h : NT_SUCCESS env.FltLockUserBuffer = false ∨
      env.MmGetSystemAddressForMdlSafe (lockUserBuffer env s.Data).Iopb.MdlAddress = 0) :
    swapPostBuffersWhenSafe_outcome unguarded count env p2pCtx s =
      .returned (swapPostBuffersWhenSafe count env p2pCtx s) := by
  cases hl : NT_SUCCESS env.FltLockUserBuffer
  · simp [swapPostBuffersWhenSafe, swapPostBuffersWhenSafe_outcome, PostOutcome.state, hl]
  · rcases h with h | hm
    · rw [hl] at h; cases h
    · simp [swapPostBuffersWhenSafe, swapPostBuffersWhenSafe_outcome, PostOutcome.state,
        PostState.log, hl, hm]

/-- A safe callback whose copy raises: the exception leaves it after the copy
and before the releases. -/
theorem swapPostBuffersWhenSafe_outcome_raised (code : NTSTATUS) (written : Nat → Bool)
    (count : FLT_CALLBACK_DATA → Nat) (env : PostEnv) (p2pCtx : PRE_2_POST_CONTEXT)
    (s : PostState) (hl : NT_SUCCESS env.FltLockUserBuffer = true)
    (hm : env.MmGetSystemAddressForMdlSafe (lockUserBuffer env s.Data).Iopb.MdlAddress ≠ 0) :
    swapPostBuffersWhenSafe_outcome (.faulted code written) count env p2pCtx s =
      .raised code
        { s with
          Data := lockUserBuffer env s.Data
          memory := { s.memory with
            original := guardedCopy s.memory.original s.memory.swapped
              (count (lockUserBuffer env s.Data)) (.faulted code written) }
          trace := s.trace ++
            [.ASSERT (s.Data.IoStatus.Information != 0),
             .FltLockUserBuffer env.FltLockUserBuffer,
             .MmGetSystemAddressForMdlSafe (lockUserBuffer env s.Data).Iopb.MdlAddress
               (env.MmGetSystemAddressForMdlSafe (lockUserBuffer env s.Data).Iopb.MdlAddress),
             .RtlCopyMemory true (count (lockUserBuffer env s.Data))] } := by
  simp [swapPostBuffersWhenSafe_outcome, PostState.log, hl, hm]

/-- A safe callback leaves `queued` alone. -/
theorem swapPostBuffersWhenSafe_queued (count : FLT_CALLBACK_DATA → Nat) (env : PostEnv)
    (p2pCtx : PRE_2_POST_CONTEXT) (s : PostState) :
    (swapPostBuffersWhenSafe count env p2pCtx s).queued = s.queued := by
  cases hl : NT_SUCCESS env.FltLockUserBuffer
  · simp [swapPostBuffersWhenSafe, swapPostBuffersWhenSafe_outcome, PostOutcome.state,
      PostState.log, PostState.fail, PostState.release, hl]
  · by_cases hm :
      env.MmGetSystemAddressForMdlSafe (lockUserBuffer env s.Data).Iopb.MdlAddress = 0
    · simp [swapPostBuffersWhenSafe, swapPostBuffersWhenSafe_outcome, PostOutcome.state,
        PostState.log, PostState.fail, PostState.release, hl, hm]
    · simp [swapPostBuffersWhenSafe, swapPostBuffersWhenSafe_outcome, PostOutcome.state,
        PostState.log, PostState.fail, PostState.release, hl, hm]

/-- A post-step whose deferred copy runs to its end, or that does not get to
that copy, returns, in the state of the post-step without `_outcome`. -/
theorem postStepBuffers_outcome_returned (unguarded : CopyOutcome)
    (count : FLT_CALLBACK_DATA → Nat) (env : PostEnv) (Data : FLT_CALLBACK_DATA)
    (p2pCtx : PRE_2_POST_CONTEXT) (Flags : Nat) (memory : Memory)
    (h : unguarded = .completed ∨ ¬ DeferredCopyReached env Data) :
    runQueued_outcome unguarded count env p2pCtx
        (postBuffers_outcome unguarded count env p2pCtx (PostState.init Data Flags memory)) =
      .returned (runQueued (swapPostBuffersWhenSafe count) env p2pCtx
        (postFinally p2pCtx (postBuffers_try count (swapPostBuffersWhenSafe count) env p2pCtx
          (PostState.init Data Flags memory)))) := by
  by_cases hd1 : (!NT_SUCCESS Data.IoStatus.Status || Data.IoStatus.Information == 0) = true
  · simp [runQueued_outcome, runQueued, postBuffers_outcome, postBuffers_try, postFinally,
      PostState.init, PostState.release, PostState.log, hd1]
  have hd : HasData Data := by
    simp at hd1
    exact ⟨hd1.1, hd1.2⟩
  by_cases ho : Data.Iopb.MdlAddress = 0
  swap
  · by_cases hm : env.MmGetSystemAddressForMdlSafe Data.Iopb.MdlAddress = 0
    · simp [runQueued_outcome, runQueued, postBuffers_outcome, postBuffers_try, postFinally,
        PostState.init, PostState.release, PostState.log, PostState.fail, hd1, ho, hm]
    · cases hc : env.RtlCopyMemory <;>
        simp [runQueued_outcome, runQueued, postBuffers_outcome, postBuffers_try, postFinally,
          PostState.init, PostState.release, PostState.log, PostState.fail, hd1, ho, hm, hc]
  by_cases hf : (FlagOn Data.Flags FLTFL_CALLBACK_DATA_SYSTEM_BUFFER ||
      FlagOn Data.Flags FLTFL_CALLBACK_DATA_FAST_IO_OPERATION) = true
  · cases hc : env.RtlCopyMemory <;>
      simp [runQueued_outcome, runQueued, postBuffers_outcome, postBuffers_try, postFinally,
        PostState.init, PostState.release, PostState.log, PostState.fail, hd1, ho, hf, hc]
  have hn : NeedsSafeContext Data := by
    simp at hf
    exact ⟨ho, hf.1, hf.2⟩
  -- the outcome of the safe callback in the state it is entered with
  have key : ∀ s : PostState, s.Data = Data →
      swapPostBuffersWhenSafe_outcome unguarded count env p2pCtx s =
        .returned (swapPostBuffersWhenSafe count env p2pCtx s) ∨
      env.FltDoCompletionProcessingWhenSafe = .rejected := by
    intro s hs
    rcases h with rfl | h
    · exact Or.inl (swapPostBuffersWhenSafe_outcome_completed count env p2pCtx s)
    · by_cases hr : env.FltDoCompletionProcessingWhenSafe = .rejected
      · exact Or.inr hr
      · left
        apply swapPostBuffersWhenSafe_outcome_unreached
        rw [hs]
        by_contra hc
        push_neg at hc
        exact h ⟨hd, hn, hr, by simpa using hc.1, hc.2⟩
  cases hdf : env.FltDoCompletionProcessingWhenSafe
  · simp [runQueued_outcome, runQueued, postBuffers_outcome, postBuffers_try, postFinally,
      PostState.init, PostState.release, PostState.log, PostState.fail, hd1, ho, hf, hdf]
  · rcases key ((PostState.init Data Flags memory).log
      (.FltDoCompletionProcessingWhenSafe .synchronous)) rfl with hk | hk
    · have hq := swapPostBuffersWhenSafe_queued count env p2pCtx
        ((PostState.init Data Flags memory).log
          (.FltDoCompletionProcessingWhenSafe .synchronous))
      simp only [PostState.init, PostState.log, List.singleton_append, List.cons_append,
        List.nil_append] at hk hq
      simp [runQueued_outcome, runQueued, postBuffers_outcome, postBuffers_try, postFinally,
        PostState.init, PostState.log, hd1, ho, hf, hdf, hk, hq]
    · rw [hdf] at hk; cases hk
  · rcases key { (PostState.init Data Flags memory).log
        (.FltDoCompletionProcessingWhenSafe .posted) with
        retValue := FLT_POSTOP_MORE_PROCESSING_REQUIRED, queued := true,
        cleanupAllocatedBuffer := false } rfl with hk | hk
    · simp only [PostState.init, PostState.log, List.singleton_append, List.cons_append,
        List.nil_append] at hk
      simp [runQueued_outcome, runQueued, postBuffers_outcome, postBuffers_try, postFinally,
        PostState.init, PostState.log, hd1, ho, hf, hdf, hk]
    · rw [hdf] at hk; cases hk

/-- A post-step that gets to its deferred copy, when that copy raises: the
exception leaves the safe callback after the copy. -/
theorem postStepBuffers_outcome_raised (code : NTSTATUS) (written : Nat → Bool)
    (count : FLT_CALLBACK_DATA → Nat) (env : PostEnv) (Data : FLT_CALLBACK_DATA)
    (p2pCtx : PRE_2_POST_CONTEXT) (Flags : Nat) (memory : Memory)
    (h : DeferredCopyReached env Data) :
    ∃ x, runQueued_outcome (.faulted code written) count env p2pCtx
        (postBuffers_outcome (.faulted code written) count env p2pCtx
          (PostState.init Data Flags memory)) = .raised code x ∧
      RaisedIn (count (lockUserBuffer env Data)) env Data Flags memory
        (.faulted code written) x := by
  obtain ⟨⟨hd1, hd2⟩, ⟨ho, hf1, hf2⟩, hr, hl, hm⟩ := h
  cases hdf : env.FltDoCompletionProcessingWhenSafe
  · exact absurd hdf hr
  · simp [runQueued_outcome, postBuffers_outcome, swapPostBuffersWhenSafe_outcome,
      PostState.init, PostState.log, RaisedIn, lockUserBuffer_IoStatus, hd1, hd2, ho, hf1,
      hf2, hdf, hl, hm]
  · simp [runQueued_outcome, postBuffers_outcome, swapPostBuffersWhenSafe_outcome,
      postFinally, PostState.init, PostState.log, RaisedIn, lockUserBuffer_IoStatus, hd1,
      hd2, ho, hf1, hf2, hdf, hl, hm]

/-- The two ways the file follows an open fate of the copy agree:
`swapPostBuffersWhenSafe_raising` is `none` exactly when an exception leaves the
safe callback, and otherwise holds the state in which it returns. -/
theorem swapPostBuffersWhenSafe_raising_outcome (unguarded : CopyOutcome)
    (count : FLT_CALLBACK_DATA → Nat) (env : PostEnv) (p2pCtx : PRE_2_POST_CONTEXT)
    (s : PostState) :
    swapPostBuffersWhenSafe_raising unguarded count env p2pCtx s =
      (match swapPostBuffersWhenSafe_outcome unguarded count env p2pCtx s with
        | .returned x => some x
        | .raised _ _ => none) := by
  cases hl : NT_SUCCESS env.FltLockUserBuffer
  · simp [swapPostBuffersWhenSafe_raising, swapPostBuffersWhenSafe_outcome, hl]
  · by_cases hm :
      env.MmGetSystemAddressForMdlSafe (lockUserBuffer env s.Data).Iopb.MdlAddress = 0
    · simp [swapPostBuffersWhenSafe_raising, swapPostBuffersWhenSafe_outcome, PostState.log,
        hl, hm]
    · cases unguarded <;>
        simp [swapPostBuffersWhenSafe_raising, swapPostBuffersWhenSafe_outcome, PostState.log,
          guardedCopy, hl, hm]

/-- The two ends of a post-step, the fate of the deferred copy left open: it
returns in the state of the post-step without `_outcome`, or the deferred copy
is reached and raises, and the exception leaves the safe callback after the
copy. -/
theorem postStepBuffers_outcome_cases (unguarded : CopyOutcome)
    (count : FLT_CALLBACK_DATA → Nat) (env : PostEnv) (Data : FLT_CALLBACK_DATA)
    (p2pCtx : PRE_2_POST_CONTEXT) (Flags : Nat) (memory : Memory) :
    runQueued_outcome unguarded count env p2pCtx
        (postBuffers_outcome unguarded count env p2pCtx (PostState.init Data Flags memory)) =
      .returned (runQueued (swapPostBuffersWhenSafe count) env p2pCtx
        (postFinally p2pCtx (postBuffers_try count (swapPostBuffersWhenSafe count) env p2pCtx
          (PostState.init Data Flags memory)))) ∨
    ∃ code written x, unguarded = .faulted code written ∧ DeferredCopyReached env Data ∧
      runQueued_outcome unguarded count env p2pCtx
        (postBuffers_outcome unguarded count env p2pCtx (PostState.init Data Flags memory)) =
        .raised code x ∧
      RaisedIn (count (lockUserBuffer env Data)) env Data Flags memory unguarded x := by
  by_cases h : unguarded = .completed ∨ ¬ DeferredCopyReached env Data
  · exact Or.inl (postStepBuffers_outcome_returned unguarded count env Data p2pCtx Flags
      memory h)
  · push_neg at h
    obtain ⟨hu, hr⟩ := h
    cases unguarded with
    | completed => exact absurd rfl hu
    | faulted code written =>
      obtain ⟨x, hx, hx2⟩ :=
        postStepBuffers_outcome_raised code written count env Data p2pCtx Flags memory hr
      exact Or.inr ⟨code, written, x, rfl, hr, hx, hx2⟩

/-- The two ends of the directory-control post-step. -/
theorem dirCtrlPostStep_outcome_cases (unguarded : CopyOutcome) (env : PostEnv)
    (Data : FLT_CALLBACK_DATA) (p2pCtx : PRE_2_POST_CONTEXT) (Flags : Nat) (memory : Memory) :
    dirCtrlPostStep_outcome unguarded env Data p2pCtx Flags memory =
      .returned (dirCtrlPostStep env Data p2pCtx Flags memory) ∨
    ∃ code written x, unguarded = .faulted code written ∧ DeferredCopyReached env Data ∧
      dirCtrlPostStep_outcome unguarded env Data p2pCtx Flags memory = .raised code x ∧
      RaisedIn Data.Iopb.Length env Data Flags memory unguarded x := by
  have h := postStepBuffers_outcome_cases unguarded (fun Data => Data.Iopb.Length) env Data
    p2pCtx Flags memory
  simpa [lockUserBuffer_Length] using h

/-- The directory-control post-step that gets to its deferred copy, when that
copy raises. -/
theorem dirCtrlPostStep_outcome_raised (code : NTSTATUS) (written : Nat → Bool)
    (env : PostEnv) (Data : FLT_CALLBACK_DATA) (p2pCtx : PRE_2_POST_CONTEXT) (Flags : Nat)
    (memory : Memory) (h : DeferredCopyReached env Data) :
    ∃ x, dirCtrlPostStep_outcome (.faulted code written) env Data p2pCtx Flags memory =
        .raised code x ∧
      RaisedIn Data.Iopb.Length env Data Flags memory (.faulted code written) x := by
  have h := postStepBuffers_outcome_raised code written (fun Data => Data.Iopb.Length) env Data
    p2pCtx Flags memory h
  simpa [lockUserBuffer_Length] using h

/-! ## The pool block and its MDL, from what the routines answer -/

theorem prePaths_alloc_mem {wantMdl : Bool} {size : VOLUME_CONTEXT → Nat} {env : PreEnv}
    {Data : FLT_CALLBACK_DATA} {memory : Memory} {r : PreState}
    (h : PrePaths wantMdl size env Data memory r) (v : VOLUME_CONTEXT)
    (h0 : Data.Iopb.Length ≠ 0) (hv : env.FltGetVolumeContext = some v)
    (hb : env.ExAllocatePoolWithTag (size v) ≠ 0) :
    Event.ExAllocatePoolWithTag (size v) (env.ExAllocatePoolWithTag (size v)) ∈ r.trace := by
  rcases h with (⟨h1, _⟩ | ⟨_, h1, _⟩ | ⟨w, _, h1, h2, _⟩) | ⟨w, b, _, h1, h2, _, _, _, rfl⟩ |
    ⟨w, b, m, ⟨_, h1, h2, _⟩, _, rfl⟩ | ⟨w, b, m, ⟨_, h1, h2, _⟩, _, rfl⟩
  · exact absurd h1 h0
  · rw [hv] at h1; cases h1
  · rw [hv] at h1; cases h1
    exact absurd h2 hb
  all_goals
    rw [hv] at h1; cases h1
    simp [h2]

theorem preWritePaths_alloc_mem {wantMdl : Bool} {size : VOLUME_CONTEXT → Nat} {env : PreEnv}
    {Data : FLT_CALLBACK_DATA} {memory : Memory} {r : PreState}
    (h : PreWritePaths wantMdl size env Data memory r) (v : VOLUME_CONTEXT)
    (h0 : Data.Iopb.Length ≠ 0) (hv : env.FltGetVolumeContext = some v)
    (hb : env.ExAllocatePoolWithTag (size v) ≠ 0) :
    Event.ExAllocatePoolWithTag (size v) (env.ExAllocatePoolWithTag (size v)) ∈ r.trace := by
  rcases h with (⟨h1, _⟩ | ⟨_, h1, _⟩ | ⟨w, _, h1, h2, _⟩) | ⟨w, b, _, h1, h2, _, _, _, rfl⟩ |
    ⟨w, b, m, ⟨_, h1, h2, _⟩, _, _, rfl⟩ | ⟨w, b, m, c, wr, ⟨_, h1, h2, _⟩, _, _, rfl⟩ |
    ⟨w, b, m, ⟨_, h1, h2, _⟩, _, _, _, rfl⟩ | ⟨w, b, m, ⟨_, h1, h2, _⟩, _, _, _, rfl⟩
  · exact absurd h1 h0
  · rw [hv] at h1; cases h1
  · rw [hv] at h1; cases h1
    exact absurd h2 hb
  all_goals
    rw [hv] at h1; cases h1
    simp [h2]

/-- From the rule on the trace to the rule on what the routines answer. -/
theorem buildsMdl_of {wanted : Bool} {env : PreEnv} {Data : FLT_CALLBACK_DATA}
    {size : VOLUME_CONTEXT → Nat} {r : PreState}
    (h : MdlBuiltExactlyWhen wanted env r.trace)
    (ha : ∀ v, Data.Iopb.Length ≠ 0 → env.FltGetVolumeContext = some v →
      env.ExAllocatePoolWithTag (size v) ≠ 0 →
      Event.ExAllocatePoolWithTag (size v) (env.ExAllocatePoolWithTag (size v)) ∈ r.trace) :
    BuildsMdlOverNewBuffer wanted env Data size r := by
  intro v h0 hv hb
  have hm := ha v h0 hv hb
  obtain ⟨h1, h2⟩ := h.1 _ _ hb hm
  refine ⟨hm, ⟨fun hx => h1.mp ⟨_, hx⟩, fun hw => ?_⟩, h2⟩
  obtain ⟨m, hx⟩ := h1.mpr hw
  obtain ⟨-, -, rfl⟩ := h.2 _ _ _ hx
  exact hx

/-- A callback without a copy stage that builds no MDL swaps when the routines
succeed, and stores `NULL` as MDL address. -/
theorem prePaths_swap_without_mdl {size : VOLUME_CONTEXT → Nat} {env : PreEnv}
    {Data : FLT_CALLBACK_DATA} {memory : Memory} {r : PreState}
    (h : PrePaths false size env Data memory r) (v : VOLUME_CONTEXT)
    (h0 : Data.Iopb.Length ≠ 0) (hv : env.FltGetVolumeContext = some v)
    (hb : env.ExAllocatePoolWithTag (size v) ≠ 0)
    (hl : env.ExAllocateFromNPagedLookasideList = true) :
    r.retValue = FLT_PREOP_SUCCESS_WITH_CALLBACK ∧
    r.Data.Iopb.Buffer = env.ExAllocatePoolWithTag (size v) ∧ r.Data.Iopb.MdlAddress = 0 := by
  rcases h with (⟨h1, _⟩ | ⟨_, h1, _⟩ | ⟨w, _, h1, h2, _⟩) | ⟨w, b, _, h1, h2, _, hw, _⟩ |
    ⟨w, b, m, _, h3, _⟩ | ⟨w, b, m, ⟨_, h1, h2, _, hm, _⟩, _, rfl⟩
  · exact absurd h1 h0
  · rw [hv] at h1; cases h1
  · rw [hv] at h1; cases h1
    exact absurd h2 hb
  · cases hw
  · rw [hl] at h3; cases h3
  · rw [hv] at h1; cases h1
    have hm1 : m = 0 := by simpa [newMdlOf] using hm.symm
    simp [swappedData, h2, hm1]

/-- The write callback, building no MDL, swaps when the routines succeed and the
copy runs to its end, and stores `NULL` as MDL address. -/
theorem preWritePaths_swap_without_mdl {size : VOLUME_CONTEXT → Nat} {env : PreEnv}
    {Data : FLT_CALLBACK_DATA} {memory : Memory} {r : PreState}
    (h : PreWritePaths false size env Data memory r) (v : VOLUME_CONTEXT)
    (h0 : Data.Iopb.Length ≠ 0) (hv : env.FltGetVolumeContext = some v)
    (hb : env.ExAllocatePoolWithTag (size v) ≠ 0)
    (hmap : Data.Iopb.MdlAddress ≠ 0 →
      env.MmGetSystemAddressForMdlSafe Data.Iopb.MdlAddress ≠ 0)
    (hc : env.RtlCopyMemory = .completed)
    (hl : env.ExAllocateFromNPagedLookasideList = true) :
    r.retValue = FLT_PREOP_SUCCESS_WITH_CALLBACK ∧
    r.Data.Iopb.Buffer = env.ExAllocatePoolWithTag (size v) ∧ r.Data.Iopb.MdlAddress = 0 := by
  rcases h with (⟨h1, _⟩ | ⟨_, h1, _⟩ | ⟨w, _, h1, h2, _⟩) | ⟨w, b, _, h1, h2, _, hw, _⟩ |
    ⟨w, b, m, _, h3, h4, _⟩ | ⟨w, b, m, c, wr, _, _, h3, _⟩ |
    ⟨w, b, m, _, _, _, h3, _⟩ | ⟨w, b, m, ⟨_, h1, h2, _, hm, _⟩, _, _, _, rfl⟩
  · exact absurd h1 h0
  · rw [hv] at h1; cases h1
  · rw [hv] at h1; cases h1
    exact absurd h2 hb
  · cases hw
  · exact absurd h4 (hmap h3)
  · rw [hc] at h3; cases h3
  · rw [hl] at h3; cases h3
  · rw [hv] at h1; cases h1
    have hm1 : m = 0 := by simpa [newMdlOf] using hm.symm
    simp [swappedData, h2, hm1]

/-! ## The bytes moved by the copy of `csgPreWriteBuffers` -/

/-- When `csgPreWriteBuffers` makes its copy, the substitute buffer holds what
the guarded copy of the size asked of the pool leaves in a new block, and the
caller's buffer is as it was. -/
theorem preWritePaths_copied {wantMdl : Bool} {size : VOLUME_CONTEXT → Nat} {env : PreEnv}
    {Data : FLT_CALLBACK_DATA} {memory : Memory} {r : PreState}
    (h : PreWritePaths wantMdl size env Data memory r) (n : Nat)
    (hn : n ∈ copiesFromOriginal r.trace) :
    r.memory.swapped = guardedCopy env.poolContents memory.original n env.RtlCopyMemory ∧
    r.memory.original = memory.original := by
  rcases h with (⟨_, rfl⟩ | ⟨_, _, rfl⟩ | ⟨w, _, _, _, rfl⟩) | ⟨w, b, _, _, _, _, _, _, rfl⟩ |
    ⟨w, b, m, _, _, _, rfl⟩ | ⟨w, b, m, c, wr, _, _, hc, rfl⟩ |
    ⟨w, b, m, _, _, hc, _, rfl⟩ | ⟨w, b, m, _, _, hc, _, rfl⟩
  · simp [PreState.init, copiesFromOriginal_nil] at hn
  · simp [PreState.init, copiesFromOriginal_cons, copiesFromOriginal_nil] at hn
  · simp [PreState.init, copiesFromOriginal_cons, copiesFromOriginal_nil] at hn
  · simp [PreState.init, copiesFromOriginal_cons, copiesFromOriginal_nil] at hn
  · simp [copiesFromOriginal_append, copiesFromOriginal_cons, copiesFromOriginal_nil,
      copiesFromOriginal_mdlEvents, copiesFromOriginal_mdlFree, copiesFromOriginal_mapEvents]
      at hn
  all_goals
    simp [copiesFromOriginal_append, copiesFromOriginal_cons, copiesFromOriginal_nil,
      copiesFromOriginal_mdlEvents, copiesFromOriginal_mdlFree, copiesFromOriginal_mapEvents]
      at hn
    subst hn
    simp [hc, guardedCopy]

/-- When the length is not zero, the volume context is found, the pool and, if
it is asked, `IoAllocateMdl` return a block, and the original buffer can be
mapped, `csgPreWriteBuffers` makes its copy, of the size asked of the pool. -/
theorem preWritePaths_copy_reached {wantMdl : Bool} {size : VOLUME_CONTEXT → Nat}
    {env : PreEnv} {Data : FLT_CALLBACK_DATA} {memory : Memory} {r : PreState}
    (h : PreWritePaths wantMdl size env Data memory r) (v : VOLUME_CONTEXT)
    (h0 : Data.Iopb.Length ≠ 0) (hv : env.FltGetVolumeContext = some v)
    (hb : env.ExAllocatePoolWithTag (size v) ≠ 0)
    (hmdl : wantMdl = true → env.IoAllocateMdl (env.ExAllocatePoolWithTag (size v)) (size v) ≠ 0)
    (hmap : Data.Iopb.MdlAddress ≠ 0 →
      env.MmGetSystemAddressForMdlSafe Data.Iopb.MdlAddress ≠ 0) :
    copiesFromOriginal r.trace = [size v] := by
  rcases h with (⟨h1, _⟩ | ⟨_, h1, _⟩ | ⟨w, _, h1, h2, _⟩) |
    ⟨w, b, _, h1, h2, _, h3, h4, _⟩ |
    ⟨w, b, m, ⟨_, h1, _⟩, h2, h3, _⟩ | ⟨w, b, m, c, wr, ⟨_, h1, _⟩, _, _, rfl⟩ |
    ⟨w, b, m, ⟨_, h1, _⟩, _, _, _, rfl⟩ | ⟨w, b, m, ⟨_, h1, _⟩, _, _, _, rfl⟩
  · exact absurd h1 h0
  · rw [hv] at h1; cases h1
  · rw [hv] at h1; cases h1; exact absurd h2 hb
  · rw [hv] at h1; cases h1; subst h2; exact absurd h4 (hmdl h3)
  · exact absurd h3 (hmap h2)
  all_goals
    rw [hv] at h1; cases h1
    simp [copiesFromOriginal_append, copiesFromOriginal_cons, copiesFromOriginal_nil,
      copiesFromOriginal_mdlEvents, copiesFromOriginal_mdlFree, copiesFromOriginal_mapEvents]

/-! # The claims -/

/-- Claim C1.  A pre-operation callback of any of the three kinds, called with a
requested length of zero, returns `FLT_PREOP_SUCCESS_NO_CALLBACK`, calls no
external routine at all (so it allocates no buffer, no MDL and no link and does
not get the volume context), hands out no completion context and leaves the
callback data (buffer reference and MDL address included) and the memory as they
were. -/
theorem zero_length_no_swap (k : Kind) (env : PreEnv) (Data : FLT_CALLBACK_DATA)
    (memory : Memory) (h : Data.Iopb.Length = 0) :
    (preStep k env Data memory).retValue = FLT_PREOP_SUCCESS_NO_CALLBACK ∧
    (preStep k env Data memory).trace = [] ∧
    (preStep k env Data memory).Data = Data ∧
    (preStep k env Data memory).CompletionContext = none ∧
    (preStep k env Data memory).memory = memory := by
  cases k <;>
    simp [preStep, csgPreReadBuffers, csgPreReadBuffers_try, csgPreWriteBuffers,
      csgPreWriteBuffers_try, csgPreDirCtrlBuffers, csgPreDirCtrlBuffers_try, preFinally,
      PreState.init, h]

/-- Claim C1 at a read of zero bytes on a volume where every routine would
succeed. -/
theorem zero_length_no_swap_witness :
    (dataOf 0 IRP_NOCACHE 0).Iopb.Length = 0 ∧
    (preStep .Read preEnvOk (dataOf 0 IRP_NOCACHE 0) memoryOf).retValue =
      FLT_PREOP_SUCCESS_NO_CALLBACK ∧
    (preStep .Read preEnvOk (dataOf 0 IRP_NOCACHE 0) memoryOf).trace = [] ∧
    (preStep .Read preEnvOk (dataOf 0 IRP_NOCACHE 0) memoryOf).Data = dataOf 0 IRP_NOCACHE 0 ∧
    (preStep .Read preEnvOk (dataOf 0 IRP_NOCACHE 0) memoryOf).CompletionContext = none ∧
    (preStep .Read preEnvOk (dataOf 0 IRP_NOCACHE 0) memoryOf).memory = memoryOf :=
  ⟨rfl, zero_length_no_swap .Read preEnvOk (dataOf 0 IRP_NOCACHE 0) memoryOf rfl⟩

/-- Claim C2, as stated, fails.  A non-cached read of 100 bytes on a volume whose
context holds the sector size `0x300` (what `InstanceSetup` stores for a volume
reporting `0x300`) asks the pool for 256 bytes, which is no multiple of `0x300`;
and a non-cached write of `0xFFFFFFFF` bytes on a volume with 512-byte sectors
asks the pool for 0 bytes, which is less than the requested length. -/
theorem uncached_size_not_least_multiple :
    (0 < (dataOf 100 IRP_NOCACHE 0).Iopb.Length ∧
      FlagOn IRP_NOCACHE (dataOf 100 IRP_NOCACHE 0).Iopb.IrpFlags = true ∧
      (preEnvOn volume768).FltGetVolumeContext = some volume768 ∧
      volume768.SectorSize = usedSectorSize 0x300 ∧
      poolRequests
        (csgPreReadBuffers (preEnvOn volume768) (dataOf 100 IRP_NOCACHE 0) memoryOf).trace =
        [256] ∧
      ¬ IsLeastMultipleAtLeast volume768.SectorSize (dataOf 100 IRP_NOCACHE 0).Iopb.Length 256) ∧
    (0 < (dataOf 4294967295 IRP_NOCACHE 0).Iopb.Length ∧
      FlagOn IRP_NOCACHE (dataOf 4294967295 IRP_NOCACHE 0).Iopb.IrpFlags = true ∧
      (preEnvOn volume512).FltGetVolumeContext = some volume512 ∧
      volume512.SectorSize = usedSectorSize 0 ∧
      poolRequests
        (csgPreWriteBuffers (preEnvOn volume512) (dataOf 4294967295 IRP_NOCACHE 0)
          memoryOf).trace = [0] ∧
      ¬ IsLeastMultipleAtLeast volume512.SectorSize
          (dataOf 4294967295 IRP_NOCACHE 0).Iopb.Length 0) := by
  refine ⟨⟨by decide, by decide, rfl, by decide, by decide, ?_⟩,
    ⟨by decide, by decide, rfl, by decide, by decide, ?_⟩⟩
  · rintro ⟨h, -⟩
    revert h
    decide
  · rintro ⟨-, h, -⟩
    revert h
    decide

/-- Claim C2, amended.  For a non-cached read or write of `L > 0` bytes on a
volume whose context holds a sector size `A` that is a power of two, with
`L + A - 1 < 2^32`, the pre-operation callback asks the pool for exactly one
block, and its size is the smallest multiple of `A` that is at least `L`. -/
theorem uncached_size_least_multiple (k : Kind) (hk : k ≠ .DirectoryEnumeration)
    (env : PreEnv) (Data : FLT_CALLBACK_DATA) (memory : Memory) (v : VOLUME_CONTEXT) (j : Nat)
    (hv : env.FltGetVolumeContext = some v) (hL : 0 < Data.Iopb.Length)
    (hnc : FlagOn IRP_NOCACHE Data.Iopb.IrpFlags = true) (hA : v.SectorSize = 2 ^ j)
    (hov : Data.Iopb.Length + v.SectorSize - 1 < 2 ^ 32) :
    ∃ r, poolRequests (preStep k env Data memory).trace = [r] ∧
      IsLeastMultipleAtLeast v.SectorSize Data.Iopb.Length r := by
  refine ⟨_, preStep_poolRequests k hk env Data memory v (Nat.pos_iff_ne_zero.mp hL) hv, ?_⟩
  rw [hA] at hov ⊢
  simpa [transferSize, roundIfNoCache, hnc, hA] using round_least Data.Iopb.Length j hL hov

/-- Claim C2, amended, at a non-cached read of 100 bytes on a volume with
512-byte sectors. -/
theorem uncached_size_least_multiple_witness :
    Kind.Read ≠ .DirectoryEnumeration ∧
    (preEnvOn volume512).FltGetVolumeContext = some volume512 ∧
    0 < (dataOf 100 IRP_NOCACHE 0).Iopb.Length ∧
    FlagOn IRP_NOCACHE (dataOf 100 IRP_NOCACHE 0).Iopb.IrpFlags = true ∧
    volume512.SectorSize = 2 ^ 9 ∧
    (dataOf 100 IRP_NOCACHE 0).Iopb.Length + volume512.SectorSize - 1 < 2 ^ 32 ∧
    ∃ r, poolRequests
        (preStep .Read (preEnvOn volume512) (dataOf 100 IRP_NOCACHE 0) memoryOf).trace = [r] ∧
      IsLeastMultipleAtLeast volume512.SectorSize (dataOf 100 IRP_NOCACHE 0).Iopb.Length r :=
  ⟨by decide, rfl, by decide, by decide, by decide, by decide,
    uncached_size_least_multiple .Read (by decide) (preEnvOn volume512)
      (dataOf 100 IRP_NOCACHE 0) memoryOf volume512 9 rfl (by decide) (by decide) (by decide)
      (by decide)⟩

/-- Claim C3 at its failing input.  A non-cached write of `0xFFFFFFFF` bytes on a
volume with 512-byte sectors: the rounded length wraps to 0, `csgPreWriteBuffers`
asks the pool for 0 bytes, copies 0 bytes, installs the new block in the
callback data, leaves the requested length at `0xFFFFFFFF` and returns
`FLT_PREOP_SUCCESS_WITH_CALLBACK`; byte 0 of the installed block is not byte 0
of the source. -/
theorem write_swap_undersized_buffer :
    (csgPreWriteBuffers (preEnvOn volume512) (dataOf 4294967295 IRP_NOCACHE 0)
      memoryOf).retValue = FLT_PREOP_SUCCESS_WITH_CALLBACK ∧
    poolRequests (csgPreWriteBuffers (preEnvOn volume512) (dataOf 4294967295 IRP_NOCACHE 0)
      memoryOf).trace = [0] ∧
    Event.RtlCopyMemory false 0 ∈
      (csgPreWriteBuffers (preEnvOn volume512) (dataOf 4294967295 IRP_NOCACHE 0)
        memoryOf).trace ∧
    (csgPreWriteBuffers (preEnvOn volume512) (dataOf 4294967295 IRP_NOCACHE 0)
      memoryOf).Data.Iopb.Buffer = 4096 ∧
    (csgPreWriteBuffers (preEnvOn volume512) (dataOf 4294967295 IRP_NOCACHE 0)
      memoryOf).Data.Iopb.Length = 4294967295 ∧
    (csgPreWriteBuffers (preEnvOn volume512) (dataOf 4294967295 IRP_NOCACHE 0)
      memoryOf).memory.swapped 0 ≠ memoryOf.original 0 := by
  decide

/-- Claim C4.  For a read that succeeded with `T > 0` bytes transferred and whose
original destination can be reached, once the read post-step is over (the safe
callback included, when it was posted) the first `T` bytes of the destination
are the first `T` bytes of the substitute buffer, the result slot is untouched
and one copy of `T` bytes has been made. -/
theorem read_copy_back (env : PostEnv) (Data : FLT_CALLBACK_DATA)
    (CompletionContext : PRE_2_POST_CONTEXT) (Flags : Nat) (memory : Memory)
    (hs : NT_SUCCESS Data.IoStatus.Status = true) (hT : 0 < Data.IoStatus.Information)
    (hreach : DestinationReachable env Data) :
    (∀ i, i < Data.IoStatus.Information →
      (readPostStep env Data CompletionContext Flags memory).memory.original i =
        memory.swapped i) ∧
    (readPostStep env Data CompletionContext Flags memory).Data.IoStatus = Data.IoStatus ∧
    copiesToOriginal (readPostStep env Data CompletionContext Flags memory).trace =
      [Data.IoStatus.Information] := by
  obtain ⟨h1, -, h3, h4⟩ :=
    postStepPaths_reached (readPostStep_paths env Data CompletionContext Flags memory)
      ⟨hs, Nat.pos_iff_ne_zero.mp hT⟩ hreach
  refine ⟨fun i hi => ?_, h3, h4⟩
  rw [h1]
  simp [RtlCopyMemory, hi]

/-- Claim C4 at a read of a user buffer without an MDL that completed with 100
bytes: the safe callback is posted, locks the buffer, maps it and copies. -/
theorem read_copy_back_witness :
    NT_SUCCESS (completedWith (dataOf 100 0 0) STATUS_SUCCESS 100).IoStatus.Status = true ∧
    0 < (completedWith (dataOf 100 0 0) STATUS_SUCCESS 100).IoStatus.Information ∧
    DestinationReachable postEnvOk (completedWith (dataOf 100 0 0) STATUS_SUCCESS 100) ∧
    (∀ i, i < (completedWith (dataOf 100 0 0) STATUS_SUCCESS 100).IoStatus.Information →
      (readPostStep postEnvOk (completedWith (dataOf 100 0 0) STATUS_SUCCESS 100) linkOk 0
        memoryOf).memory.original i = memoryOf.swapped i) ∧
    (readPostStep postEnvOk (completedWith (dataOf 100 0 0) STATUS_SUCCESS 100) linkOk 0
      memoryOf).Data.IoStatus =
      (completedWith (dataOf 100 0 0) STATUS_SUCCESS 100).IoStatus ∧
    copiesToOriginal (readPostStep postEnvOk (completedWith (dataOf 100 0 0) STATUS_SUCCESS 100)
      linkOk 0 memoryOf).trace =
      [(completedWith (dataOf 100 0 0) STATUS_SUCCESS 100).IoStatus.Information] :=
  ⟨by decide, by decide,
    Or.inr ⟨⟨by decide, by decide, by decide⟩, by decide, by decide, by decide⟩,
    read_copy_back postEnvOk (completedWith (dataOf 100 0 0) STATUS_SUCCESS 100) linkOk 0
      memoryOf (by decide) (by decide)
      (Or.inr ⟨⟨by decide, by decide, by decide⟩, by decide, by decide, by decide⟩)⟩

/-- Claim C5.  Whatever result slot the lower layers report, every copy the
directory-control post-step makes into the caller's buffer, in
`csgPostDirCtrlBuffers` or in `SwapPostDirCtrlBuffersWhenSafe`, moves the
requested length; when there is data and the destination can be reached there
is exactly one such copy, after which the caller's buffer holds the bytes of the
substitute buffer at every offset below the requested length and its own bytes
from there on, whatever the bytes transferred that were reported; and the
requested length is the size of the block `csgPreDirCtrlBuffers` asks the pool
for.  The same holds whatever the fate of the copy of the safe callback, which
stands outside any `try`: every copy moves the requested length, and when that
copy is reached and raises, the caller's buffer holds the bytes of the substitute
buffer at the offsets below the requested length that were written before the
exception, and its own bytes elsewhere. -/
theorem dirctrl_copies_requested_length (pre : PreEnv) (post : PostEnv)
    (Data : FLT_CALLBACK_DATA) (IoStatus : IO_STATUS_BLOCK)
    (CompletionContext : PRE_2_POST_CONTEXT) (Flags : Nat) (memory memory1 : Memory) :
    (∀ n ∈ copiesToOriginal
        (csgPostDirCtrlBuffers post { Data with IoStatus := IoStatus } CompletionContext Flags
          memory1).trace, n = Data.Iopb.Length) ∧
    (∀ n ∈ copiesToOriginal
        (dirCtrlPostStep post { Data with IoStatus := IoStatus } CompletionContext Flags
          memory1).trace, n = Data.Iopb.Length) ∧
    (HasData { Data with IoStatus := IoStatus } →
      DestinationReachable post { Data with IoStatus := IoStatus } →
      copiesToOriginal
        (dirCtrlPostStep post { Data with IoStatus := IoStatus } CompletionContext Flags
          memory1).trace = [Data.Iopb.Length] ∧
      (∀ i, (dirCtrlPostStep post { Data with IoStatus := IoStatus } CompletionContext Flags
          memory1).memory.original i =
        if i < Data.Iopb.Length then memory1.swapped i else memory1.original i) ∧
      (dirCtrlPostStep post { Data with IoStatus := IoStatus } CompletionContext Flags
        memory1).memory.swapped = memory1.swapped) ∧
    (∀ n ∈ poolRequests (csgPreDirCtrlBuffers pre Data memory).trace, n = Data.Iopb.Length) ∧
    (Data.Iopb.Length ≠ 0 → ∀ v, pre.FltGetVolumeContext = some v →
      poolRequests (csgPreDirCtrlBuffers pre Data memory).trace = [Data.Iopb.Length]) ∧
    (∀ unguarded,
      (∀ n ∈ copiesToOriginal
          (dirCtrlPostStep_outcome unguarded post { Data with IoStatus := IoStatus }
            CompletionContext Flags memory1).state.trace, n = Data.Iopb.Length) ∧
      (∀ code written, unguarded = .faulted code written →
        DeferredCopyReached post { Data with IoStatus := IoStatus } →
        ∀ i, (dirCtrlPostStep_outcome unguarded post { Data with IoStatus := IoStatus }
            CompletionContext Flags memory1).state.memory.original i =
          if i < Data.Iopb.Length ∧ written i = true then memory1.swapped i
          else memory1.original i)) := by
  refine ⟨?_, ?_, ?_, ?_, ?_, fun unguarded => ⟨?_, ?_⟩⟩
  · exact (postPaths_copies (csgPostDirCtrlBuffers_paths post { Data with IoStatus := IoStatus }
      CompletionContext Flags memory1)).1
  · exact (postStepPaths_copies (dirCtrlPostStep_paths post { Data with IoStatus := IoStatus }
      CompletionContext Flags memory1)).1
  · intro hd hreach
    obtain ⟨h1, h2, -, h4⟩ := postStepPaths_reached (dirCtrlPostStep_paths post
      { Data with IoStatus := IoStatus } CompletionContext Flags memory1) hd hreach
    refine ⟨h4, fun i => ?_, h2⟩
    rw [h1]
    rfl
  · intro n hn
    obtain ⟨v, -, h⟩ := prePaths_requests_mem (csgPreDirCtrlBuffers_paths pre Data memory) n hn
    exact h
  · intro h0 v hv
    exact prePaths_requests (csgPreDirCtrlBuffers_paths pre Data memory) v h0 hv
  · rcases dirCtrlPostStep_outcome_cases unguarded post { Data with IoStatus := IoStatus }
        CompletionContext Flags memory1 with h | ⟨code, written, x, -, -, h, ht, -, -⟩
    · rw [h]
      exact (postStepPaths_copies (dirCtrlPostStep_paths post
        { Data with IoStatus := IoStatus } CompletionContext Flags memory1)).1
    · rw [h]
      intro n hn
      simpa [PostOutcome.state, ht, copiesToOriginal_cons, copiesToOriginal_nil] using hn
  · rintro code written rfl hreach i
    obtain ⟨x, h, -, hm, -⟩ := dirCtrlPostStep_outcome_raised code written post
      { Data with IoStatus := IoStatus } CompletionContext Flags memory1 hreach
    rw [h]
    simp only [PostOutcome.state, hm]
    rfl

/-- Claim C5 at a directory query of 16 bytes for which the lower layers report
8 bytes: the pool is asked for 16 bytes and 16 bytes are copied back, so that
the byte at offset 15 of the caller's buffer, which held 16, holds the 215 of
the substitute buffer, and the byte at offset 16 still holds 17; and at a
directory query of 2000 bytes into a user buffer without MDL whose deferred copy
raises after one kilobyte: the byte at offset 1023 holds the 1223 of the
substitute buffer and the byte at offset 1024 still holds 1025. -/
theorem dirctrl_copies_requested_length_witness :
    HasData (completedWith (dataOf 16 0 77) STATUS_SUCCESS 8) ∧
    DestinationReachable postEnvOk (completedWith (dataOf 16 0 77) STATUS_SUCCESS 8) ∧
    copiesToOriginal
      (dirCtrlPostStep postEnvOk (completedWith (dataOf 16 0 77) STATUS_SUCCESS 8) linkOk 0
        memoryOf).trace = [16] ∧
    memoryOf.original 15 = 16 ∧
    (dirCtrlPostStep postEnvOk (completedWith (dataOf 16 0 77) STATUS_SUCCESS 8) linkOk 0
      memoryOf).memory.original 15 = 215 ∧
    (dirCtrlPostStep postEnvOk (completedWith (dataOf 16 0 77) STATUS_SUCCESS 8) linkOk 0
      memoryOf).memory.original 16 = 17 ∧
    poolRequests (csgPreDirCtrlBuffers preEnvOk (dataOf 16 0 77) memoryOf).trace = [16] ∧
    DeferredCopyReached postEnvOk (completedWith (dataOf 2000 0 0) STATUS_SUCCESS 8) ∧
    (dirCtrlPostStep_outcome faultAfterKilobyte postEnvOk
      (completedWith (dataOf 2000 0 0) STATUS_SUCCESS 8) linkOk 0
      memoryOf).state.memory.original 1023 = 1223 ∧
    (dirCtrlPostStep_outcome faultAfterKilobyte postEnvOk
      (completedWith (dataOf 2000 0 0) STATUS_SUCCESS 8) linkOk 0
      memoryOf).state.memory.original 1024 = 1025 :=
  ⟨⟨by decide, by decide⟩, Or.inl ⟨Or.inl ⟨by decide, by decide⟩, rfl⟩,
    ((dirctrl_copies_requested_length preEnvOk postEnvOk (dataOf 16 0 77)
      { Status := STATUS_SUCCESS, Information := 8 } linkOk 0 memoryOf memoryOf).2.2.1
      ⟨by decide, by decide⟩ (Or.inl ⟨Or.inl ⟨by decide, by decide⟩, rfl⟩)).1,
    rfl,
    (((dirctrl_copies_requested_length preEnvOk postEnvOk (dataOf 16 0 77)
      { Status := STATUS_SUCCESS, Information := 8 } linkOk 0 memoryOf memoryOf).2.2.1
      ⟨by decide, by decide⟩ (Or.inl ⟨Or.inl ⟨by decide, by decide⟩, rfl⟩)).2.1 15).trans
      (by decide),
    (((dirctrl_copies_requested_length preEnvOk postEnvOk (dataOf 16 0 77)
      { Status := STATUS_SUCCESS, Information := 8 } linkOk 0 memoryOf memoryOf).2.2.1
      ⟨by decide, by decide⟩ (Or.inl ⟨Or.inl ⟨by decide, by decide⟩, rfl⟩)).2.1 16).trans
      (by decide),
    (dirctrl_copies_requested_length preEnvOk postEnvOk (dataOf 16 0 77)
      { Status := STATUS_SUCCESS, Information := 8 } linkOk 0 memoryOf memoryOf).2.2.2.2.1
      (by decide) volume512 rfl,
    ⟨⟨by decide, by decide⟩, ⟨by decide, by decide, by decide⟩, by decide, by decide,
      by decide⟩,
    ((((dirctrl_copies_requested_length preEnvOk postEnvOk (dataOf 2000 0 0)
      { Status := STATUS_SUCCESS, Information := 8 } linkOk 0 memoryOf memoryOf).2.2.2.2.2
      faultAfterKilobyte).2 STATUS_ACCESS_VIOLATION firstKilobyte rfl
      ⟨⟨by decide, by decide⟩, ⟨by decide, by decide, by decide⟩, by decide, by decide,
        by decide⟩) 1023).trans (by decide),
    ((((dirctrl_copies_requested_length preEnvOk postEnvOk (dataOf 2000 0 0)
      { Status := STATUS_SUCCESS, Information := 8 } linkOk 0 memoryOf memoryOf).2.2.2.2.2
      faultAfterKilobyte).2 STATUS_ACCESS_VIOLATION firstKilobyte rfl
      ⟨⟨by decide, by decide⟩, ⟨by decide, by decide, by decide⟩, by decide, by decide,
        by decide⟩) 1024).trans (by decide)⟩

/-- Claim C7.  When `csgPreWriteBuffers` reaches its copy from the original
source and the copy faults with the exception code `code`, the callback returns
`FLT_PREOP_COMPLETE` (so no post-operation callback is asked for and no link is
taken), the result slot holds `code` and zero bytes, the parameter block (buffer
reference and MDL address) and the dirty mark are as they were, no completion
context is handed out, and the new buffer, its MDL if there is one, and the
volume context are each released exactly once. -/
theorem write_copy_fault (env : PreEnv) (Data : FLT_CALLBACK_DATA) (memory : Memory)
    (code : NTSTATUS) (written : Nat → Bool)
    (hcopy : ∃ n, Event.RtlCopyMemory false n ∈ (csgPreWriteBuffers env Data memory).trace)
    (hfault : env.RtlCopyMemory = .faulted code written) :
    (csgPreWriteBuffers env Data memory).retValue = FLT_PREOP_COMPLETE ∧
    (csgPreWriteBuffers env Data memory).Data.IoStatus = { Status := code, Information := 0 } ∧
    (csgPreWriteBuffers env Data memory).Data.Iopb = Data.Iopb ∧
    (csgPreWriteBuffers env Data memory).Data.Dirty = Data.Dirty ∧
    (csgPreWriteBuffers env Data memory).CompletionContext = none ∧
    linksAcquired (csgPreWriteBuffers env Data memory).trace = 0 ∧
    (csgPreWriteBuffers env Data memory).newBuf ≠ 0 ∧
    poolFrees (csgPreWriteBuffers env Data memory).newBuf
      (csgPreWriteBuffers env Data memory).trace = 1 ∧
    ((csgPreWriteBuffers env Data memory).newMdl ≠ 0 →
      mdlFrees (csgPreWriteBuffers env Data memory).newMdl
        (csgPreWriteBuffers env Data memory).trace = 1) ∧
    contextReleases (csgPreWriteBuffers env Data memory).trace = 1 := by
  obtain ⟨n, hn⟩ := hcopy
  rcases csgPreWriteBuffers_paths env Data memory with
    (⟨_, h⟩ | ⟨_, _, h⟩ | ⟨w, _, _, _, h⟩) | ⟨w, b, _, _, _, _, _, _, h⟩ |
    ⟨w, b, m, _, _, _, h⟩ | ⟨w, b, m, c, wr, ⟨_, _, _, hb, _⟩, _, hc, h⟩ |
    ⟨w, b, m, _, _, hc, _, h⟩ | ⟨w, b, m, _, _, hc, _, h⟩
  · rw [h] at hn; simp [PreState.init] at hn
  · rw [h] at hn; simp [PreState.init] at hn
  · rw [h] at hn; simp [PreState.init] at hn
  · rw [h] at hn; simp [PreState.init] at hn
  · rw [h] at hn
    simp [PreState.init, not_mem_mdlEvents_copy, not_mem_mdlFree_copy,
      not_mem_mapEvents_copy] at hn
  · rw [hfault] at hc
    cases hc
    rw [h]
    refine ⟨rfl, rfl, rfl, rfl, rfl, ?_, hb, ?_, ?_, ?_⟩
    · simp only [mdlEvents, mdlFree, mapEvents]
      split_ifs <;> simp [linksAcquired]
    · simp only [mdlEvents, mdlFree, mapEvents]
      split_ifs <;> simp [poolFrees]
    · intro hm
      simp only [mdlEvents, mdlFree, mapEvents]
      split_ifs <;> simp_all [mdlFrees]
    · simp only [mdlEvents, mdlFree, mapEvents]
      split_ifs <;> simp [contextReleases]
  · rw [hfault] at hc; cases hc
  · rw [hfault] at hc; cases hc

/-- Claim C7 at an IRP based write of 4096 bytes whose copy faults with
`STATUS_ACCESS_VIOLATION`. -/
theorem write_copy_fault_witness :
    (∃ n, Event.RtlCopyMemory false n ∈
      (csgPreWriteBuffers preEnvFault (dataOf 4096 0 0) memoryOf).trace) ∧
    preEnvFault.RtlCopyMemory = .faulted STATUS_ACCESS_VIOLATION firstKilobyte ∧
    (csgPreWriteBuffers preEnvFault (dataOf 4096 0 0) memoryOf).retValue = FLT_PREOP_COMPLETE ∧
    (csgPreWriteBuffers preEnvFault (dataOf 4096 0 0) memoryOf).Data.IoStatus =
      { Status := STATUS_ACCESS_VIOLATION, Information := 0 } ∧
    (csgPreWriteBuffers preEnvFault (dataOf 4096 0 0) memoryOf).Data.Iopb =
      (dataOf 4096 0 0).Iopb ∧
    (csgPreWriteBuffers preEnvFault (dataOf 4096 0 0) memoryOf).Data.Dirty =
      (dataOf 4096 0 0).Dirty ∧
    (csgPreWriteBuffers preEnvFault (dataOf 4096 0 0) memoryOf).CompletionContext = none ∧
    linksAcquired (csgPreWriteBuffers preEnvFault (dataOf 4096 0 0) memoryOf).trace = 0 ∧
    (csgPreWriteBuffers preEnvFault (dataOf 4096 0 0) memoryOf).newBuf ≠ 0 ∧
    poolFrees (csgPreWriteBuffers preEnvFault (dataOf 4096 0 0) memoryOf).newBuf
      (csgPreWriteBuffers preEnvFault (dataOf 4096 0 0) memoryOf).trace = 1 ∧
    ((csgPreWriteBuffers preEnvFault (dataOf 4096 0 0) memoryOf).newMdl ≠ 0 →
      mdlFrees (csgPreWriteBuffers preEnvFault (dataOf 4096 0 0) memoryOf).newMdl
        (csgPreWriteBuffers preEnvFault (dataOf 4096 0 0) memoryOf).trace = 1) ∧
    contextReleases (csgPreWriteBuffers preEnvFault (dataOf 4096 0 0) memoryOf).trace = 1 :=
  ⟨⟨4096, by decide⟩, rfl,
    write_copy_fault preEnvFault (dataOf 4096 0 0) memoryOf STATUS_ACCESS_VIOLATION
      firstKilobyte ⟨4096, by decide⟩ rfl⟩

/-- Claim C8, as stated, fails.  `csgPostDirCtrlBuffers` called with the draining
flag set, for a query of 16 bytes that succeeded with 8 bytes and whose buffer
has an MDL, copies 16 bytes into the caller's buffer and changes its byte 0. -/
theorem drain_copies_back :
    FlagOn FLTFL_POST_OPERATION_DRAINING FLTFL_POST_OPERATION_DRAINING = true ∧
    copiesToOriginal
      (csgPostDirCtrlBuffers postEnvOk (completedWith (dataOf 16 0 77) STATUS_SUCCESS 8) linkOk
        FLTFL_POST_OPERATION_DRAINING memoryOf).trace = [16] ∧
    (csgPostDirCtrlBuffers postEnvOk (completedWith (dataOf 16 0 77) STATUS_SUCCESS 8) linkOk
        FLTFL_POST_OPERATION_DRAINING memoryOf).memory.original 0 ≠ memoryOf.original 0 := by
  decide

/-- Claim C8, amended.  `csgPostDirCtrlBuffers` called with the draining flag set
records a failed `ASSERT` and otherwise decides as it does without the flag:
when the result status is a failure or the bytes transferred are 0 it attempts
no copy and writes no byte of the original destination; when there is data and
the destination is addressable it copies the requested length. -/
theorem drain_flag_only_asserted (env : PostEnv) (Data : FLT_CALLBACK_DATA)
    (CompletionContext : PRE_2_POST_CONTEXT) (Flags : Nat) (memory : Memory)
    (hdrain : FlagOn Flags FLTFL_POST_OPERATION_DRAINING = true) :
    (csgPostDirCtrlBuffers env Data CompletionContext Flags memory).trace.head? =
      some (.ASSERT false) ∧
    ((NT_SUCCESS Data.IoStatus.Status = false ∨ Data.IoStatus.Information = 0) →
      copiesToOriginal (csgPostDirCtrlBuffers env Data CompletionContext Flags memory).trace =
        [] ∧
      (csgPostDirCtrlBuffers env Data CompletionContext Flags memory).memory.original =
        memory.original) ∧
    (HasData Data → Addressable env Data →
      copiesToOriginal (csgPostDirCtrlBuffers env Data CompletionContext Flags memory).trace =
        [Data.Iopb.Length]) := by
  have hp := csgPostDirCtrlBuffers_paths env Data CompletionContext Flags memory
  refine ⟨?_, fun h => ?_, fun hd ha => postPaths_addressable hp hd ha⟩
  · simpa [hdrain] using postPaths_head hp
  · have hd : ¬ HasData Data := by
      rintro ⟨h1, h2⟩
      rcases h with h | h
      · rw [h] at h1; cases h1
      · exact h2 h
    rw [postPaths_noData hp hd]
    simp [PostState.init, copiesToOriginal_append, copiesToOriginal_cons, copiesToOriginal_nil,
      copiesToOriginal_releaseEvents]

/-- Claim C8, amended, at a drained query that was cancelled with zero bytes. -/
theorem drain_flag_only_asserted_witness :
    FlagOn FLTFL_POST_OPERATION_DRAINING FLTFL_POST_OPERATION_DRAINING = true ∧
    (NT_SUCCESS (completedWith (dataOf 16 0 77) STATUS_CANCELLED 0).IoStatus.Status = false ∨
      (completedWith (dataOf 16 0 77) STATUS_CANCELLED 0).IoStatus.Information = 0) ∧
    (csgPostDirCtrlBuffers postEnvOk (completedWith (dataOf 16 0 77) STATUS_CANCELLED 0) linkOk
      FLTFL_POST_OPERATION_DRAINING memoryOf).trace.head? = some (.ASSERT false) ∧
    copiesToOriginal
      (csgPostDirCtrlBuffers postEnvOk (completedWith (dataOf 16 0 77) STATUS_CANCELLED 0)
        linkOk FLTFL_POST_OPERATION_DRAINING memoryOf).trace = [] ∧
    (csgPostDirCtrlBuffers postEnvOk (completedWith (dataOf 16 0 77) STATUS_CANCELLED 0) linkOk
      FLTFL_POST_OPERATION_DRAINING memoryOf).memory.original = memoryOf.original :=
  ⟨by decide, Or.inl (by decide),
    (drain_flag_only_asserted postEnvOk (completedWith (dataOf 16 0 77) STATUS_CANCELLED 0)
      linkOk FLTFL_POST_OPERATION_DRAINING memoryOf (by decide)).1,
    (drain_flag_only_asserted postEnvOk (completedWith (dataOf 16 0 77) STATUS_CANCELLED 0)
      linkOk FLTFL_POST_OPERATION_DRAINING memoryOf (by decide)).2.1 (Or.inl (by decide))⟩

/-- Claim C10.  Every copy the read post-step makes into the caller's buffer
moves `Data->IoStatus.Information` bytes, and every byte of the original
destination at an offset from that number on is as it was.  In the scenario of
the spec, a non-cached read of 100 bytes on a volume with 512-byte sectors asks
the pool for 512 bytes, and on completion with 100 bytes one copy of 100 bytes
is made: bytes 0 to 99 of the destination become those of the substitute buffer
and every other byte is as it was. -/
theorem read_copy_back_exact :
    (∀ (env : PostEnv) (Data : FLT_CALLBACK_DATA) (CompletionContext : PRE_2_POST_CONTEXT)
        (Flags : Nat) (memory : Memory),
      (∀ n ∈ copiesToOriginal (readPostStep env Data CompletionContext Flags memory).trace,
        n = Data.IoStatus.Information) ∧
      (∀ i, Data.IoStatus.Information ≤ i →
        (readPostStep env Data CompletionContext Flags memory).memory.original i =
          memory.original i)) ∧
    (poolRequests (csgPreReadBuffers (preEnvOn volume512) (dataOf 100 IRP_NOCACHE 77)
        memoryOf).trace = [512] ∧
      copiesToOriginal (readPostStep postEnvOk
        (completedWith (dataOf 100 IRP_NOCACHE 77) STATUS_SUCCESS 100) linkOk 0 memoryOf).trace =
        [100] ∧
      ∀ i, (readPostStep postEnvOk
        (completedWith (dataOf 100 IRP_NOCACHE 77) STATUS_SUCCESS 100) linkOk 0
          memoryOf).memory.original i =
        if i < 100 then memoryOf.swapped i else memoryOf.original i) := by
  refine ⟨fun env Data c Flags memory => ?_, by decide, by decide, fun i => ?_⟩
  · obtain ⟨h1, h2, -⟩ := postStepPaths_copies (readPostStep_paths env Data c Flags memory)
    exact ⟨h1, h2⟩
  · obtain ⟨h1, -⟩ := postStepPaths_reached (readPostStep_paths postEnvOk
      (completedWith (dataOf 100 IRP_NOCACHE 77) STATUS_SUCCESS 100) linkOk 0 memoryOf)
      ⟨by decide, by decide⟩ (Or.inl ⟨Or.inl ⟨by decide, by decide⟩, rfl⟩)
    rw [h1]
    rfl

/-- Claim C11.  When a pre-operation callback of any kind, called with a
requested length above zero, meets one of the degradable failures (the volume
context lookup fails, or the pool, the MDL allocator or the lookaside list
returns `NULL`), it returns `FLT_PREOP_SUCCESS_NO_CALLBACK` and the callback
data are as they were: buffer reference, MDL address, dirty mark, result status
and bytes transferred; no completion context is handed out. -/
theorem degradable_failure_no_swap (k : Kind) (env : PreEnv) (Data : FLT_CALLBACK_DATA)
    (memory : Memory) (hL : 0 < Data.Iopb.Length)
    (hf : DegradableFailure (preStep k env Data memory).trace) :
    (preStep k env Data memory).retValue = FLT_PREOP_SUCCESS_NO_CALLBACK ∧
    (preStep k env Data memory).Data.Iopb.Buffer = Data.Iopb.Buffer ∧
    (preStep k env Data memory).Data.Iopb.MdlAddress = Data.Iopb.MdlAddress ∧
    (preStep k env Data memory).Data.Dirty = Data.Dirty ∧
    (preStep k env Data memory).Data.IoStatus = Data.IoStatus ∧
    (preStep k env Data memory).Data = Data ∧
    (preStep k env Data memory).CompletionContext = none := by
  have _ := hL
  have key : (preStep k env Data memory).retValue = FLT_PREOP_SUCCESS_NO_CALLBACK ∧
      (preStep k env Data memory).Data = Data ∧
      (preStep k env Data memory).CompletionContext = none := by
    cases k
    · exact prePaths_degradable (csgPreReadBuffers_paths env Data memory) hf
    · exact preWritePaths_degradable (csgPreWriteBuffers_paths env Data memory) hf
    · exact prePaths_degradable (csgPreDirCtrlBuffers_paths env Data memory) hf
  obtain ⟨h1, h2, h3⟩ := key
  rw [h2]
  exact ⟨h1, rfl, rfl, rfl, rfl, rfl, h3⟩

/-- Claim C11 at a write of 100 bytes for which `Pre2PostContextList` is empty:
the lookaside list returns `NULL`, the callback returns
`FLT_PREOP_SUCCESS_NO_CALLBACK` and the callback data are as they were. -/
theorem degradable_failure_no_swap_witness :
    0 < (dataOf 100 0 77).Iopb.Length ∧
    DegradableFailure (preStep .Write preEnvNoLink (dataOf 100 0 77) memoryOf).trace ∧
    (preStep .Write preEnvNoLink (dataOf 100 0 77) memoryOf).retValue =
      FLT_PREOP_SUCCESS_NO_CALLBACK ∧
    (preStep .Write preEnvNoLink (dataOf 100 0 77) memoryOf).Data = dataOf 100 0 77 :=
  ⟨by decide, Or.inr (Or.inr (Or.inr (by decide))),
    (degradable_failure_no_swap .Write preEnvNoLink (dataOf 100 0 77) memoryOf (by decide)
      (Or.inr (Or.inr (Or.inr (by decide))))).1,
    (degradable_failure_no_swap .Write preEnvNoLink (dataOf 100 0 77) memoryOf (by decide)
      (Or.inr (Or.inr (Or.inr (by decide))))).2.2.2.2.2.1⟩

/-- Claim C12.  When the result status is a failure or the bytes transferred are
0, `csgPostReadBuffers` makes no copy and leaves the original destination as it
was, does not call `FltDoCompletionProcessingWhenSafe`, leaves the result slot
as it was and returns `FLT_POSTOP_FINISHED_PROCESSING`. -/
theorem read_no_data_no_copy (env : PostEnv) (Data : FLT_CALLBACK_DATA)
    (CompletionContext : PRE_2_POST_CONTEXT) (Flags : Nat) (memory : Memory)
    (h : NT_SUCCESS Data.IoStatus.Status = false ∨ Data.IoStatus.Information = 0) :
    copiesToOriginal (csgPostReadBuffers env Data CompletionContext Flags memory).trace = [] ∧
    (csgPostReadBuffers env Data CompletionContext Flags memory).memory.original =
      memory.original ∧
    deferralAttempts (csgPostReadBuffers env Data CompletionContext Flags memory).trace = 0 ∧
    (csgPostReadBuffers env Data CompletionContext Flags memory).queued = false ∧
    (csgPostReadBuffers env Data CompletionContext Flags memory).Data.IoStatus =
      Data.IoStatus ∧
    (csgPostReadBuffers env Data CompletionContext Flags memory).retValue =
      FLT_POSTOP_FINISHED_PROCESSING := by
  have hd : ¬ HasData Data := by
    rintro ⟨h1, h2⟩
    rcases h with h | h
    · rw [h] at h1; cases h1
    · exact h2 h
  rw [postPaths_noData (csgPostReadBuffers_paths env Data CompletionContext Flags memory) hd]
  simp [PostState.init, copiesToOriginal_append, copiesToOriginal_cons, copiesToOriginal_nil,
    copiesToOriginal_releaseEvents, deferralAttempts, releaseEvents]

/-- Claim C12 at a read of 100 bytes that was cancelled: no copy, no request for
a safe context, and the result slot still holds `STATUS_CANCELLED` and 0. -/
theorem read_no_data_no_copy_witness :
    NT_SUCCESS (completedWith (dataOf 100 0 0) STATUS_CANCELLED 0).IoStatus.Status = false ∧
    copiesToOriginal (csgPostReadBuffers postEnvOk
      (completedWith (dataOf 100 0 0) STATUS_CANCELLED 0) linkOk 0 memoryOf).trace = [] ∧
    deferralAttempts (csgPostReadBuffers postEnvOk
      (completedWith (dataOf 100 0 0) STATUS_CANCELLED 0) linkOk 0 memoryOf).trace = 0 ∧
    (csgPostReadBuffers postEnvOk
      (completedWith (dataOf 100 0 0) STATUS_CANCELLED 0) linkOk 0 memoryOf).Data.IoStatus =
      { Status := STATUS_CANCELLED, Information := 0 } :=
  ⟨by decide,
    (read_no_data_no_copy postEnvOk (completedWith (dataOf 100 0 0) STATUS_CANCELLED 0) linkOk
      0 memoryOf (Or.inl (by decide))).1,
    (read_no_data_no_copy postEnvOk (completedWith (dataOf 100 0 0) STATUS_CANCELLED 0) linkOk
      0 memoryOf (Or.inl (by decide))).2.2.1,
    (read_no_data_no_copy postEnvOk (completedWith (dataOf 100 0 0) STATUS_CANCELLED 0) linkOk
      0 memoryOf (Or.inl (by decide))).2.2.2.2.1⟩

/-- Claim C13, as stated, fails for the deferred copy: nothing catches a fault
of the copy in `SwapPostReadBuffersWhenSafe`, which stands outside any `try`
(the comment above it says that no try/except is needed there, the destination
being a system buffer address).  For a read of 100 bytes into a user buffer
without MDL, completed with 100 bytes, `csgPostReadBuffers` posts the safe
callback and gives the link back to nobody; the lock and the mapping succeed;
were the copy then to fault, the safe callback has no handler for it: it does
not return, so it stores no failure status and makes no release. -/
theorem deferred_copy_fault_not_caught :
    (csgPostReadBuffers postEnvOk (completedWith (dataOf 100 0 0) STATUS_SUCCESS 100) linkOk 0
      memoryOf).queued = true ∧
    linksReleased (csgPostReadBuffers postEnvOk
      (completedWith (dataOf 100 0 0) STATUS_SUCCESS 100) linkOk 0 memoryOf).trace = 0 ∧
    NT_SUCCESS postEnvOk.FltLockUserBuffer = true ∧
    postEnvOk.MmGetSystemAddressForMdlSafe postEnvOk.lockedMdl ≠ 0 ∧
    SwapPostReadBuffersWhenSafe_raising (.faulted STATUS_ACCESS_VIOLATION firstKilobyte)
      postEnvOk linkOk
      (csgPostReadBuffers postEnvOk (completedWith (dataOf 100 0 0) STATUS_SUCCESS 100) linkOk
        0 memoryOf) = none := by
  refine ⟨by decide, by decide, by decide, by decide, ?_⟩
  rfl

/-- Claim C13, amended to the direct copy.  When the copy that
`csgPostReadBuffers` itself makes into the original buffer faults, the handler
stores the exception code and 0 bytes in the result slot, the callback returns
`FLT_POSTOP_FINISHED_PROCESSING` with no safe callback left to run, and the
substitute buffer, the volume context and the link are released once each. -/
theorem read_copy_fault_caught (env : PostEnv) (Data : FLT_CALLBACK_DATA)
    (CompletionContext : PRE_2_POST_CONTEXT) (Flags : Nat) (memory : Memory)
    (code : NTSTATUS) (written : Nat → Bool) (hd : HasData Data) (ha : Addressable env Data)
    (hc : env.RtlCopyMemory = .faulted code written) :
    copiesToOriginal (csgPostReadBuffers env Data CompletionContext Flags memory).trace =
      [Data.IoStatus.Information] ∧
    (csgPostReadBuffers env Data CompletionContext Flags memory).Data.IoStatus =
      { Status := code, Information := 0 } ∧
    (csgPostReadBuffers env Data CompletionContext Flags memory).retValue =
      FLT_POSTOP_FINISHED_PROCESSING ∧
    (csgPostReadBuffers env Data CompletionContext Flags memory).queued = false ∧
    poolFreed (csgPostReadBuffers env Data CompletionContext Flags memory).trace =
      [CompletionContext.SwappedBuffer] ∧
    contextReleases (csgPostReadBuffers env Data CompletionContext Flags memory).trace = 1 ∧
    linksReleased (csgPostReadBuffers env Data CompletionContext Flags memory).trace = 1 := by
  rw [postPaths_fault (csgPostReadBuffers_paths env Data CompletionContext Flags memory) hd ha
    hc]
  refine ⟨?_, rfl, rfl, rfl, ?_, ?_, ?_⟩
  · simp [PostState.init, copiesToOriginal_append, copiesToOriginal_cons, copiesToOriginal_nil,
      copiesToOriginal_postMapEvents, copiesToOriginal_releaseEvents]
  · simp [PostState.init, poolFreed_append, poolFreed_cons, poolFreed_nil,
      poolFreed_postMapEvents, poolFreed_releaseEvents]
  · simp only [PostState.init, releaseEvents, postMapEvents]
    split_ifs <;> simp [contextReleases]
  · simp only [PostState.init, releaseEvents, postMapEvents]
    split_ifs <;> simp [linksReleased]

/-- Claim C13, amended, at a read of 100 bytes with an MDL whose copy back
faults with `STATUS_ACCESS_VIOLATION`. -/
theorem read_copy_fault_caught_witness :
    HasData (completedWith (dataOf 100 0 77) STATUS_SUCCESS 100) ∧
    Addressable postEnvFault (completedWith (dataOf 100 0 77) STATUS_SUCCESS 100) ∧
    (csgPostReadBuffers postEnvFault (completedWith (dataOf 100 0 77) STATUS_SUCCESS 100)
      linkOk 0 memoryOf).Data.IoStatus =
      { Status := STATUS_ACCESS_VIOLATION, Information := 0 } ∧
    linksReleased (csgPostReadBuffers postEnvFault
      (completedWith (dataOf 100 0 77) STATUS_SUCCESS 100) linkOk 0 memoryOf).trace = 1 :=
  ⟨⟨by decide, by decide⟩, Or.inl ⟨by decide, by decide⟩,
    (read_copy_fault_caught postEnvFault (completedWith (dataOf 100 0 77) STATUS_SUCCESS 100)
      linkOk 0 memoryOf STATUS_ACCESS_VIOLATION firstKilobyte ⟨by decide, by decide⟩
      (Or.inl ⟨by decide, by decide⟩) rfl).2.1,
    (read_copy_fault_caught postEnvFault (completedWith (dataOf 100 0 77) STATUS_SUCCESS 100)
      linkOk 0 memoryOf STATUS_ACCESS_VIOLATION firstKilobyte ⟨by decide, by decide⟩
      (Or.inl ⟨by decide, by decide⟩) rfl).2.2.2.2.2.2⟩

/-- Claim C15.  Where `csgPostReadBuffers` or `csgPostDirCtrlBuffers` asks for a
safe context (there is data and the original buffer has no MDL and is neither a
system buffer nor a fast I/O buffer) and `FltDoCompletionProcessingWhenSafe`
accepts: if the safe callback is posted, the callback makes no release, leaves
the result slot as it was and returns `FLT_POSTOP_MORE_PROCESSING_REQUIRED`; if
the safe callback has run on the spot, the callback adds no call, and so no
release, to those of the safe callback, changes nothing in the callback data
and returns what the safe callback returned. -/
theorem deferral_accepted_leaves_release (env : PostEnv) (Data : FLT_CALLBACK_DATA)
    (CompletionContext : PRE_2_POST_CONTEXT) (Flags : Nat) (memory : Memory)
    (hd : HasData Data) (hn : NeedsSafeContext Data) :
    LeavesReleaseToSafeCallback csgPostReadBuffers SwapPostReadBuffersWhenSafe env Data
      CompletionContext Flags memory ∧
    LeavesReleaseToSafeCallback csgPostDirCtrlBuffers SwapPostDirCtrlBuffersWhenSafe env Data
      CompletionContext Flags memory :=
  ⟨postBuffers_leaves_release (fun Data => Data.IoStatus.Information)
      SwapPostReadBuffersWhenSafe SwapPostReadBuffersWhenSafe_paths env Data CompletionContext
      Flags memory hd hn,
    postBuffers_leaves_release (fun Data => Data.Iopb.Length) SwapPostDirCtrlBuffersWhenSafe
      SwapPostDirCtrlBuffersWhenSafe_paths env Data CompletionContext Flags memory hd hn⟩

/-- Claim C15 at a read and at a directory query into a user buffer without
MDL, the safe callback being posted: both callbacks return
`FLT_POSTOP_MORE_PROCESSING_REQUIRED`, release nothing and leave the result
slot as it was. -/
theorem deferral_accepted_leaves_release_witness :
    HasData userRead ∧ NeedsSafeContext userRead ∧
    (csgPostReadBuffers postEnvOk userRead linkOk 0 memoryOf).retValue =
      FLT_POSTOP_MORE_PROCESSING_REQUIRED ∧
    linksReleased (csgPostReadBuffers postEnvOk userRead linkOk 0 memoryOf).trace = 0 ∧
    (csgPostDirCtrlBuffers postEnvOk userRead linkOk 0 memoryOf).Data = userRead ∧
    poolFreed (csgPostDirCtrlBuffers postEnvOk userRead linkOk 0 memoryOf).trace = [] :=
  ⟨⟨by decide, by decide⟩, ⟨by decide, by decide, by decide⟩,
    ((deferral_accepted_leaves_release postEnvOk userRead linkOk 0 memoryOf
      ⟨by decide, by decide⟩ ⟨by decide, by decide, by decide⟩).1.1 rfl).1,
    ((deferral_accepted_leaves_release postEnvOk userRead linkOk 0 memoryOf
      ⟨by decide, by decide⟩ ⟨by decide, by decide, by decide⟩).1.1 rfl).2.2.2.2.2.1,
    ((deferral_accepted_leaves_release postEnvOk userRead linkOk 0 memoryOf
      ⟨by decide, by decide⟩ ⟨by decide, by decide, by decide⟩).2.1 rfl).2.2.2.2.2.2.1,
    ((deferral_accepted_leaves_release postEnvOk userRead linkOk 0 memoryOf
      ⟨by decide, by decide⟩ ⟨by decide, by decide, by decide⟩).2.1 rfl).2.2.2.1⟩

/-- Claim C16.  Where `csgPostReadBuffers` or `csgPostDirCtrlBuffers` asks for a
safe context and `FltDoCompletionProcessingWhenSafe` refuses, the callback
stores `STATUS_UNSUCCESSFUL` and 0 bytes in the result slot, makes no copy into
the original buffer, which stays as it was, frees the substitute buffer,
releases the volume context and gives back the link, once each and before it
returns, and returns `FLT_POSTOP_FINISHED_PROCESSING`. -/
theorem deferral_rejected_fails_operation (env : PostEnv) (Data : FLT_CALLBACK_DATA)
    (CompletionContext : PRE_2_POST_CONTEXT) (Flags : Nat) (memory : Memory)
    (hd : HasData Data) (hn : NeedsSafeContext Data)
    (hr : env.FltDoCompletionProcessingWhenSafe = .rejected) :
    FailedOutright Data CompletionContext memory
      (csgPostReadBuffers env Data CompletionContext Flags memory) ∧
    FailedOutright Data CompletionContext memory
      (csgPostDirCtrlBuffers env Data CompletionContext Flags memory) :=
  ⟨postPaths_failedOutright (csgPostReadBuffers_paths env Data CompletionContext Flags memory)
      hd hn hr,
    postPaths_failedOutright (csgPostDirCtrlBuffers_paths env Data CompletionContext Flags
      memory) hd hn hr⟩

/-- Claim C16 at a read and at a directory query into a user buffer without
MDL, the safe context being refused. -/
theorem deferral_rejected_fails_operation_witness :
    HasData userRead ∧ NeedsSafeContext userRead ∧
    postEnvRejected.FltDoCompletionProcessingWhenSafe = .rejected ∧
    (csgPostReadBuffers postEnvRejected userRead linkOk 0 memoryOf).Data.IoStatus =
      { Status := STATUS_UNSUCCESSFUL, Information := 0 } ∧
    linksReleased (csgPostDirCtrlBuffers postEnvRejected userRead linkOk 0 memoryOf).trace =
      1 :=
  ⟨⟨by decide, by decide⟩, ⟨by decide, by decide, by decide⟩, rfl,
    (deferral_rejected_fails_operation postEnvRejected userRead linkOk 0 memoryOf
      ⟨by decide, by decide⟩ ⟨by decide, by decide, by decide⟩ rfl).1.1,
    (deferral_rejected_fails_operation postEnvRejected userRead linkOk 0 memoryOf
      ⟨by decide, by decide⟩ ⟨by decide, by decide, by decide⟩ rfl).2.2.2.2.2.2.2.1⟩

/-- Claim C17.  Whatever the result slot and the flags, `csgPostWriteBuffers`
makes exactly three calls: it frees the substitute buffer, releases the volume
context and gives the link back, once each; it makes no copy, leaves memory and
callback data, result slot included, as they were and returns
`FLT_POSTOP_FINISHED_PROCESSING`. -/
theorem write_post_only_releases (Data : FLT_CALLBACK_DATA)
    (CompletionContext : PRE_2_POST_CONTEXT) (Flags : Nat) (memory : Memory) :
    (csgPostWriteBuffers Data CompletionContext Flags memory).trace =
      [.ExFreePool CompletionContext.SwappedBuffer, .FltReleaseContext,
       .ExFreeToNPagedLookasideList] ∧
    copiesToOriginal (csgPostWriteBuffers Data CompletionContext Flags memory).trace = [] ∧
    (csgPostWriteBuffers Data CompletionContext Flags memory).memory = memory ∧
    (csgPostWriteBuffers Data CompletionContext Flags memory).Data = Data ∧
    poolFreed (csgPostWriteBuffers Data CompletionContext Flags memory).trace =
      [CompletionContext.SwappedBuffer] ∧
    contextReleases (csgPostWriteBuffers Data CompletionContext Flags memory).trace = 1 ∧
    linksReleased (csgPostWriteBuffers Data CompletionContext Flags memory).trace = 1 ∧
    (csgPostWriteBuffers Data CompletionContext Flags memory).queued = false ∧
    (csgPostWriteBuffers Data CompletionContext Flags memory).retValue =
      FLT_POSTOP_FINISHED_PROCESSING := by
  simp [csgPostWriteBuffers, PostState.release, PostState.log, copiesToOriginal, poolFreed,
    contextReleases, linksReleased]

/-- Claim C18.  When the acquisitions of `csgPreReadBuffers` all succeed (the
volume context `v` is found, the pool returns a block `b`, `IoAllocateMdl`,
called for IRP operations only, returns an MDL, the lookaside list returns an
object), the callback sets `ReadBuffer` to `b` and `MdlAddress` to the new MDL
(`NULL` when none was built), marks the callback data dirty, leaves the rest of
the callback data as it was, hands out a completion context that holds `v` and
`b`, and returns `FLT_PREOP_SUCCESS_WITH_CALLBACK`. -/
theorem read_swap_installed (env : PreEnv) (Data : FLT_CALLBACK_DATA) (memory : Memory)
    (h : SwapAcquired (csgPreReadBuffers env Data memory).trace) :
    ∃ v b, env.FltGetVolumeContext = some v ∧
      env.ExAllocatePoolWithTag (transferSize Data v) = b ∧ b ≠ 0 ∧
      (FlagOn Data.Flags FLTFL_CALLBACK_DATA_IRP_OPERATION = true →
        env.IoAllocateMdl b (transferSize Data v) ≠ 0) ∧
      (csgPreReadBuffers env Data memory).Data.Iopb.Buffer = b ∧
      (csgPreReadBuffers env Data memory).Data.Iopb.MdlAddress =
        (if FlagOn Data.Flags FLTFL_CALLBACK_DATA_IRP_OPERATION then
          env.IoAllocateMdl b (transferSize Data v) else 0) ∧
      (csgPreReadBuffers env Data memory).Data.Dirty = true ∧
      (csgPreReadBuffers env Data memory).Data =
        { Data with Iopb := { Data.Iopb with
                              Buffer := b
                              MdlAddress := (csgPreReadBuffers env Data
                                memory).Data.Iopb.MdlAddress }
                    Dirty := true } ∧
      (csgPreReadBuffers env Data memory).CompletionContext =
        some { VolCtx := v, SwappedBuffer := b } ∧
      (csgPreReadBuffers env Data memory).retValue = FLT_PREOP_SUCCESS_WITH_CALLBACK := by
  obtain ⟨v, b, hv, hb, hb0, hm, hD, hC, hR⟩ :=
    prePaths_swapped (csgPreReadBuffers_paths env Data memory) h.2.2.2
  refine ⟨v, b, hv, hb, hb0, hm, ?_, ?_, ?_, ?_, hC, hR⟩ <;> rw [hD] <;>
    simp [swappedData, newMdlOf]

/-- Claim C18 at a non-cached read of 100 bytes for which every routine
succeeds: the buffer at `4096` and the MDL at `8192` are installed. -/
theorem read_swap_installed_witness :
    SwapAcquired (csgPreReadBuffers preEnvOk (dataOf 100 IRP_NOCACHE 77) memoryOf).trace ∧
    (csgPreReadBuffers preEnvOk (dataOf 100 IRP_NOCACHE 77) memoryOf).Data.Iopb.Buffer =
      4096 ∧
    (csgPreReadBuffers preEnvOk (dataOf 100 IRP_NOCACHE 77) memoryOf).Data.Iopb.MdlAddress =
      8192 ∧
    (csgPreReadBuffers preEnvOk (dataOf 100 IRP_NOCACHE 77) memoryOf).CompletionContext =
      some { VolCtx := volume512, SwappedBuffer := 4096 } ∧
    ∃ v b, preEnvOk.FltGetVolumeContext = some v ∧
      (csgPreReadBuffers preEnvOk (dataOf 100 IRP_NOCACHE 77) memoryOf).CompletionContext =
        some { VolCtx := v, SwappedBuffer := b } :=
  ⟨⟨by decide, ⟨512, 4096, by decide, by decide⟩, by decide, by decide⟩, by decide, by decide,
    by decide,
    (read_swap_installed preEnvOk (dataOf 100 IRP_NOCACHE 77) memoryOf
      ⟨by decide, ⟨512, 4096, by decide, by decide⟩, by decide, by decide⟩).elim
      fun v hv => hv.elim fun b hb => ⟨v, b, hb.1, hb.2.2.2.2.2.2.2.2.1⟩⟩

/-- Claim C19.  Whenever a pre-operation callback of any of the three kinds
returns something else than `FLT_PREOP_SUCCESS_WITH_CALLBACK`, the pool blocks
it has freed are the pool blocks it obtained, the MDLs it has freed are the MDLs
it obtained and it has released as many volume context references as it
obtained, of each at most one: what it acquired is released exactly once and
nothing else is released.  It has taken no link. -/
theorem no_swap_releases_acquired (k : Kind) (env : PreEnv) (Data : FLT_CALLBACK_DATA)
    (memory : Memory)
    (h : (preStep k env Data memory).retValue ≠ FLT_PREOP_SUCCESS_WITH_CALLBACK) :
    ReleasedWhatWasAcquired (preStep k env Data memory).trace ∧
    linksAcquired (preStep k env Data memory).trace = 0 := by
  cases k
  · exact prePaths_released (csgPreReadBuffers_paths env Data memory) h
  · exact preWritePaths_released (csgPreWriteBuffers_paths env Data memory) h
  · exact prePaths_released (csgPreDirCtrlBuffers_paths env Data memory) h

/-- Claim C19 at a read of 100 bytes for which `Pre2PostContextList` is empty:
the block at `4096` and the MDL at `8192` were obtained and freed, and one
context reference was obtained and released. -/
theorem no_swap_releases_acquired_witness :
    (preStep .Read preEnvNoLink (dataOf 100 0 77) memoryOf).retValue ≠
      FLT_PREOP_SUCCESS_WITH_CALLBACK ∧
    poolAcquired (preStep .Read preEnvNoLink (dataOf 100 0 77) memoryOf).trace = [4096] ∧
    mdlAcquired (preStep .Read preEnvNoLink (dataOf 100 0 77) memoryOf).trace = [8192] ∧
    contextsAcquired (preStep .Read preEnvNoLink (dataOf 100 0 77) memoryOf).trace = 1 ∧
    ReleasedWhatWasAcquired (preStep .Read preEnvNoLink (dataOf 100 0 77) memoryOf).trace :=
  ⟨by decide, by decide, by decide, by decide,
    (no_swap_releases_acquired .Read preEnvNoLink (dataOf 100 0 77) memoryOf (by decide)).1⟩

/-- Claim C20.  For a requested length above zero, whatever the value of
`IrpFlags` (so with or without `IRP_NOCACHE`) and whatever the volume context
found (so whatever its sector size), `csgPreDirCtrlBuffers` asks the pool for
exactly one block, of the requested length; and in any environment, also one in
which no volume context is found, it asks for no block of another size. -/
theorem dirctrl_size_is_length (env : PreEnv) (Data : FLT_CALLBACK_DATA) (memory : Memory)
    (hL : 0 < Data.Iopb.Length) :
    (∀ (v : VOLUME_CONTEXT) (irpFlags : Nat),
      poolRequests (csgPreDirCtrlBuffers { env with FltGetVolumeContext := some v }
        { Data with Iopb := { Data.Iopb with IrpFlags := irpFlags } } memory).trace =
        [Data.Iopb.Length]) ∧
    (∀ n ∈ poolRequests (csgPreDirCtrlBuffers env Data memory).trace, n = Data.Iopb.Length) := by
  refine ⟨fun v irpFlags => ?_, fun n hn => ?_⟩
  · exact prePaths_requests (csgPreDirCtrlBuffers_paths { env with FltGetVolumeContext := some v }
      { Data with Iopb := { Data.Iopb with IrpFlags := irpFlags } } memory) v
      (Nat.pos_iff_ne_zero.mp hL) rfl
  · obtain ⟨v, -, h⟩ := prePaths_requests_mem (csgPreDirCtrlBuffers_paths env Data memory) n hn
    exact h

/-- Claim C20 at a non-cached directory query of 100 bytes on a volume with
512-byte sectors: the pool is asked for 100 bytes, where `csgPreReadBuffers`
asks for 512. -/
theorem dirctrl_size_is_length_witness :
    0 < (dataOf 100 IRP_NOCACHE 77).Iopb.Length ∧
    poolRequests (csgPreDirCtrlBuffers preEnvOk (dataOf 100 IRP_NOCACHE 77) memoryOf).trace =
      [100] ∧
    poolRequests (csgPreReadBuffers preEnvOk (dataOf 100 IRP_NOCACHE 77) memoryOf).trace =
      [512] :=
  ⟨by decide,
    (dirctrl_size_is_length preEnvOk (dataOf 100 IRP_NOCACHE 77) memoryOf (by decide)).1
      volume512 IRP_NOCACHE,
    by decide⟩

/-- Claim C21.  Every volume context `InstanceSetup` hands to
`FltSetVolumeContext`, for a volume that reports the sector size `s`, holds the
sector size `max(s, 0x200)`: it is at least `MIN_SECTOR_SIZE`, it is `0x200`
when the volume reports 0, and it fits 32 bits when `s` does. -/
theorem stored_sector_size (env : SetupEnv) (c : VOLUME_CONTEXT) (st : NTSTATUS)
    (h : SetupEvent.FltSetVolumeContext c st ∈ (InstanceSetup env).trace) :
    c.SectorSize = max env.volProp.SectorSize 0x200 ∧
    MIN_SECTOR_SIZE ≤ c.SectorSize ∧
    (env.volProp.SectorSize = 0 → c.SectorSize = 0x200) ∧
    (env.volProp.SectorSize < 2 ^ 32 → c.SectorSize < 2 ^ 32) := by
  have key : c.SectorSize = max env.volProp.SectorSize MIN_SECTOR_SIZE := by
    rw [InstanceSetup, setupFinally_set] at h
    unfold InstanceSetup_try at h
    simp only [SetupState.log] at h
    split_ifs at h
    any_goals (simp at h; done)
    all_goals first
      | (rcases useNtName_set _ _ _ _ _ h with h1 | h1
         · simp at h1
         · exact h1)
      | (rw [setVolumeContext_trace] at h
         simp at h
         rw [h.1])
  have hm : MIN_SECTOR_SIZE = 0x200 := rfl
  rw [hm] at key
  refine ⟨key, ?_, ?_, ?_⟩
  · rw [key, hm]; exact le_max_right _ _
  · intro h0; rw [key, h0]; rfl
  · intro h32; rw [key]; exact max_lt h32 (by norm_num)

/-- Claim C21 at a volume that reports no sector size: the context set holds
`0x200`. -/
theorem stored_sector_size_witness :
    SetupEvent.FltSetVolumeContext { Name := [67, 58], SectorSize := 0x200 } STATUS_SUCCESS ∈
      (InstanceSetup setupEnvNoSector).trace ∧
    setupEnvNoSector.volProp.SectorSize = 0 ∧
    MIN_SECTOR_SIZE ≤ (0x200 : Nat) :=
  ⟨by decide, rfl,
    (stored_sector_size setupEnvNoSector { Name := [67, 58], SectorSize := 0x200 }
      STATUS_SUCCESS (by decide)).2.1⟩

/-- Claim C22, as stated, fails: `InstanceSetup` also refuses to attach when
identifying information was resolved.  With the DOS name `C:` obtained, a
`FltSetVolumeContext` that fails with `STATUS_FLT_DELETING_OBJECT` makes
`InstanceSetup` return that status; and when no DOS name is obtained, the real
device name is there and the pool has no memory for it, `InstanceSetup` returns
`STATUS_INSUFFICIENT_RESOURCES`. -/
theorem attach_refused_with_name :
    (SetupEvent.RtlVolumeDeviceToDosName STATUS_SUCCESS ∈
        (InstanceSetup setupEnvDeleting).trace ∧
      ¬ NoUsableName setupEnvDeleting ∧
      (InstanceSetup setupEnvDeleting).status = STATUS_FLT_DELETING_OBJECT ∧
      NT_SUCCESS (InstanceSetup setupEnvDeleting).status = false) ∧
    (setupEnvNoPool.volProp.RealDeviceName = [92, 68] ∧
      ¬ NoUsableName setupEnvNoPool ∧
      (InstanceSetup setupEnvNoPool).status = STATUS_INSUFFICIENT_RESOURCES ∧
      NT_SUCCESS (InstanceSetup setupEnvNoPool).status = false) := by
  refine ⟨⟨by decide, ?_, by decide, by decide⟩, rfl, ?_, by decide, by decide⟩
  · rintro ⟨-, h, -⟩
    revert h
    decide
  · rintro ⟨-, h, -⟩
    revert h
    decide

/-- Claim C22, amended.  `InstanceSetup` returns a failure status exactly when
the context cannot be allocated, or the volume properties cannot be read, or no
usable identifying information is found (no DOS name and both device names
empty), or no DOS name is obtained and the pool has no buffer for the device
name, or `FltSetVolumeContext` fails with a status other than
`STATUS_FLT_CONTEXT_ALREADY_DEFINED`; in every other case it returns a success
status. -/
theorem attach_refused_iff (env : SetupEnv) :
    (NT_SUCCESS (InstanceSetup env).status = false ↔ AttachRefused env) ∧
    (NoUsableName env → NT_SUCCESS (InstanceSetup env).status = false) := by
  have key : NT_SUCCESS (InstanceSetup env).status = false ↔ AttachRefused env := by
    rw [InstanceSetup, setupFinally_status]
    unfold InstanceSetup_try AttachRefused NoUsableName DosNameFailed
    simp only [SetupState.log]
    cases ha : NT_SUCCESS env.FltAllocateContext
    · simp [ha]
    cases hp : NT_SUCCESS env.FltGetVolumeProperties
    · simp [ha, hp]
    cases hd : NT_SUCCESS env.FltGetDiskDeviceObject
    · simp [ha, hp, hd, useNtName_status]
    cases hn : NT_SUCCESS env.RtlVolumeDeviceToDosName
    · simp [ha, hp, hd, hn, useNtName_status]
    · simp [ha, hp, hd, hn, setVolumeContext_status]
  exact ⟨key, fun h => key.mpr (Or.inr (Or.inr (Or.inl h)))⟩

/-- Claim C22, amended, at a volume without a DOS name and without device
names: `InstanceSetup` returns the failure status `STATUS_FLT_DO_NOT_ATTACH`. -/
theorem attach_refused_iff_witness :
    NoUsableName setupEnvNoName ∧
    (InstanceSetup setupEnvNoName).status = STATUS_FLT_DO_NOT_ATTACH ∧
    NT_SUCCESS (InstanceSetup setupEnvNoName).status = false ∧
    NT_SUCCESS (InstanceSetup setupEnvOk).status = true :=
  ⟨⟨Or.inr (by decide), rfl, rfl⟩, by decide,
    (attach_refused_iff setupEnvNoName).2 ⟨Or.inr (by decide), rfl, rfl⟩, by decide⟩

/-- Claim C23.  Whenever a call of `MmGetSystemAddressForMdlSafe` returns `NULL`
in a post-operation callback of a read or of a directory query, in its safe
callback or in `csgPreWriteBuffers`, the result slot is set to
`STATUS_INSUFFICIENT_RESOURCES` and 0 bytes; whenever `FltLockUserBuffer` returns
a failure status in a safe callback, the result slot is set to that status and 0
bytes; and in all these cases `RtlCopyMemory` is not called and neither the
caller's buffer nor the substitute buffer is written (in `csgPreWriteBuffers`
the new block holds what the pool put in it, and the callback returns
`FLT_PREOP_COMPLETE`).  This is stated for the callbacks alone and for the
post-steps brought to their end. -/
theorem no_stable_address_fails_operation (post : PostEnv) (pre : PreEnv)
    (Data : FLT_CALLBACK_DATA) (CompletionContext : PRE_2_POST_CONTEXT) (Flags : Nat)
    (memory : Memory) (status : NTSTATUS) :
    (∀ r ∈ [csgPostReadBuffers post Data CompletionContext Flags memory,
            readPostStep post Data CompletionContext Flags memory,
            csgPostDirCtrlBuffers post Data CompletionContext Flags memory,
            dirCtrlPostStep post Data CompletionContext Flags memory],
      (MappingFailed r.trace → FailedWithoutCopy STATUS_INSUFFICIENT_RESOURCES memory r) ∧
      (LockFailed r.trace status → FailedWithoutCopy status memory r)) ∧
    (MappingFailed (csgPreWriteBuffers pre Data memory).trace →
      (csgPreWriteBuffers pre Data memory).retValue = FLT_PREOP_COMPLETE ∧
      (csgPreWriteBuffers pre Data memory).Data.IoStatus =
        { Status := STATUS_INSUFFICIENT_RESOURCES, Information := 0 } ∧
      NoCopy (csgPreWriteBuffers pre Data memory).trace ∧
      (csgPreWriteBuffers pre Data memory).memory.original = memory.original ∧
      (csgPreWriteBuffers pre Data memory).memory.swapped = pre.poolContents) := by
  refine ⟨?_, preWritePaths_unmapped (csgPreWriteBuffers_paths pre Data memory)⟩
  intro r hr
  simp only [List.mem_cons, List.mem_singleton, List.not_mem_nil, or_false] at hr
  rcases hr with rfl | rfl | rfl | rfl
  · exact ⟨(postPaths_unmapped (csgPostReadBuffers_paths _ _ _ _ _)).1,
      (postPaths_unmapped (csgPostReadBuffers_paths _ _ _ _ _)).2 status⟩
  · exact ⟨(postStepPaths_unmapped (readPostStep_paths _ _ _ _ _)).1,
      (postStepPaths_unmapped (readPostStep_paths _ _ _ _ _)).2 status⟩
  · exact ⟨(postPaths_unmapped (csgPostDirCtrlBuffers_paths _ _ _ _ _)).1,
      (postPaths_unmapped (csgPostDirCtrlBuffers_paths _ _ _ _ _)).2 status⟩
  · exact ⟨(postStepPaths_unmapped (dirCtrlPostStep_paths _ _ _ _ _)).1,
      (postStepPaths_unmapped (dirCtrlPostStep_paths _ _ _ _ _)).2 status⟩

/-- Claim C23 at a read whose MDL cannot be mapped, at a read into a user
buffer that cannot be locked, and at a write whose MDL cannot be mapped. -/
theorem no_stable_address_fails_operation_witness :
    MappingFailed (csgPostReadBuffers postEnvUnmapped
      (completedWith (dataOf 100 0 77) STATUS_SUCCESS 100) linkOk 0 memoryOf).trace ∧
    (csgPostReadBuffers postEnvUnmapped
      (completedWith (dataOf 100 0 77) STATUS_SUCCESS 100) linkOk 0 memoryOf).Data.IoStatus =
      { Status := STATUS_INSUFFICIENT_RESOURCES, Information := 0 } ∧
    LockFailed (readPostStep postEnvUnlocked userRead linkOk 0 memoryOf).trace
      STATUS_ACCESS_VIOLATION ∧
    (readPostStep postEnvUnlocked userRead linkOk 0 memoryOf).Data.IoStatus =
      { Status := STATUS_ACCESS_VIOLATION, Information := 0 } ∧
    MappingFailed (csgPreWriteBuffers preEnvUnmapped (dataOf 100 0 77) memoryOf).trace ∧
    (csgPreWriteBuffers preEnvUnmapped (dataOf 100 0 77) memoryOf).retValue =
      FLT_PREOP_COMPLETE :=
  ⟨⟨77, by decide⟩,
    (((no_stable_address_fails_operation postEnvUnmapped preEnvUnmapped
      (completedWith (dataOf 100 0 77) STATUS_SUCCESS 100) linkOk 0 memoryOf
      STATUS_ACCESS_VIOLATION).1 _ (List.mem_cons_self _ _)).1 ⟨77, by decide⟩).1,
    ⟨by decide, by decide⟩,
    (((no_stable_address_fails_operation postEnvUnlocked preEnvUnmapped userRead linkOk 0
      memoryOf STATUS_ACCESS_VIOLATION).1 _
      (List.mem_cons_of_mem _ (List.mem_cons_self _ _))).2 ⟨by decide, by decide⟩).1,
    ⟨77, by decide⟩,
    ((no_stable_address_fails_operation postEnvUnmapped preEnvUnmapped (dataOf 100 0 77)
      linkOk 0 memoryOf STATUS_ACCESS_VIOLATION).2 ⟨77, by decide⟩).1⟩

/-- Claim C24.  In `csgPreReadBuffers` and `csgPreWriteBuffers`, when the length
is not zero, the volume context is found and the pool returns the substitute
buffer, the callback has asked the pool for it, has called `IoAllocateMdl` over
it exactly when `FLTFL_CALLBACK_DATA_IRP_OPERATION` is set in `Data->Flags`,
and has built the MDL (`MmBuildMdlForNonPagedPool`) exactly when, in addition,
the allocation did not return `NULL`.  When the flag is clear and the remaining
routines succeed, the callback swaps, and whenever it swaps with the flag clear
it stores `NULL` in `MdlAddress`.  In `csgPreDirCtrlBuffers`, under the same
conditions on length, volume context and pool, `IoAllocateMdl` is called over
the substitute buffer and the requested length whatever the flags.  In all three
callbacks no MDL is allocated over anything else than a pool block the callback
obtained. -/
theorem mdl_built_iff_irp (env : PreEnv) (Data : FLT_CALLBACK_DATA) (memory : Memory) :
    (∀ k, k ≠ Kind.DirectoryEnumeration →
      BuildsMdlOverNewBuffer (FlagOn Data.Flags FLTFL_CALLBACK_DATA_IRP_OPERATION) env Data
        (transferSize Data) (preStep k env Data memory) ∧
      MdlBuiltExactlyWhen (FlagOn Data.Flags FLTFL_CALLBACK_DATA_IRP_OPERATION) env
        (preStep k env Data memory).trace ∧
      (FlagOn Data.Flags FLTFL_CALLBACK_DATA_IRP_OPERATION = false →
        (preStep k env Data memory).retValue = FLT_PREOP_SUCCESS_WITH_CALLBACK →
        (preStep k env Data memory).Data.Iopb.MdlAddress = 0)) ∧
    (∀ v, FlagOn Data.Flags FLTFL_CALLBACK_DATA_IRP_OPERATION = false →
      Data.Iopb.Length ≠ 0 → env.FltGetVolumeContext = some v →
      env.ExAllocatePoolWithTag (transferSize Data v) ≠ 0 →
      env.ExAllocateFromNPagedLookasideList = true →
      ((csgPreReadBuffers env Data memory).retValue = FLT_PREOP_SUCCESS_WITH_CALLBACK ∧
        (csgPreReadBuffers env Data memory).Data.Iopb.Buffer =
          env.ExAllocatePoolWithTag (transferSize Data v) ∧
        (csgPreReadBuffers env Data memory).Data.Iopb.MdlAddress = 0) ∧
      ((Data.Iopb.MdlAddress ≠ 0 →
          env.MmGetSystemAddressForMdlSafe Data.Iopb.MdlAddress ≠ 0) →
        env.RtlCopyMemory = .completed →
        (csgPreWriteBuffers env Data memory).retValue = FLT_PREOP_SUCCESS_WITH_CALLBACK ∧
        (csgPreWriteBuffers env Data memory).Data.Iopb.Buffer =
          env.ExAllocatePoolWithTag (transferSize Data v) ∧
        (csgPreWriteBuffers env Data memory).Data.Iopb.MdlAddress = 0)) ∧
    BuildsMdlOverNewBuffer true env Data (fun _ => Data.Iopb.Length)
      (csgPreDirCtrlBuffers env Data memory) ∧
    MdlBuiltExactlyWhen true env (csgPreDirCtrlBuffers env Data memory).trace := by
  refine ⟨fun k hk => ?_, fun v hirp h0 hv hb hl => ⟨?_, fun hmap hc => ?_⟩,
    buildsMdl_of (prePaths_mdl (csgPreDirCtrlBuffers_paths env Data memory)).1
      (prePaths_alloc_mem (csgPreDirCtrlBuffers_paths env Data memory)),
    (prePaths_mdl (csgPreDirCtrlBuffers_paths env Data memory)).1⟩
  · cases k
    · exact ⟨buildsMdl_of (prePaths_mdl (csgPreReadBuffers_paths env Data memory)).1
          (prePaths_alloc_mem (csgPreReadBuffers_paths env Data memory)),
        prePaths_mdl (csgPreReadBuffers_paths env Data memory)⟩
    · exact ⟨buildsMdl_of (preWritePaths_mdl (csgPreWriteBuffers_paths env Data memory)).1
          (preWritePaths_alloc_mem (csgPreWriteBuffers_paths env Data memory)),
        preWritePaths_mdl (csgPreWriteBuffers_paths env Data memory)⟩
    · exact absurd rfl hk
  · have hp := csgPreReadBuffers_paths env Data memory
    rw [hirp] at hp
    exact prePaths_swap_without_mdl hp v h0 hv hb hl
  · have hp := csgPreWriteBuffers_paths env Data memory
    rw [hirp] at hp
    exact preWritePaths_swap_without_mdl hp v h0 hv hb hmap hc hl

/-- Claim C24 at a write of 100 bytes that is an IRP operation (the MDL at
`8192` is allocated over the block at `4096` and built), at a fast I/O write and
a fast I/O read of 100 bytes (no MDL is allocated, the callback swaps and stores
`NULL` in `MdlAddress`), and at a directory query with the callback data of the
fast I/O read (an MDL is allocated and built). -/
theorem mdl_built_iff_irp_witness :
    (FlagOn (dataOf 100 0 77).Flags FLTFL_CALLBACK_DATA_IRP_OPERATION = true ∧
      Event.IoAllocateMdl 4096 100 8192 ∈
        (preStep .Write preEnvOk (dataOf 100 0 77) memoryOf).trace ∧
      Event.MmBuildMdlForNonPagedPool 8192 ∈
        (preStep .Write preEnvOk (dataOf 100 0 77) memoryOf).trace) ∧
    (FlagOn (fastIoData 100).Flags FLTFL_CALLBACK_DATA_IRP_OPERATION = false ∧
      Event.ExAllocatePoolWithTag 100 4096 ∈
        (preStep .Write preEnvOk (fastIoData 100) memoryOf).trace ∧
      Event.IoAllocateMdl 4096 100 8192 ∉
        (preStep .Write preEnvOk (fastIoData 100) memoryOf).trace ∧
      (csgPreWriteBuffers preEnvOk (fastIoData 100) memoryOf).retValue =
        FLT_PREOP_SUCCESS_WITH_CALLBACK ∧
      (csgPreWriteBuffers preEnvOk (fastIoData 100) memoryOf).Data.Iopb.MdlAddress = 0 ∧
      (csgPreReadBuffers preEnvOk (fastIoData 100) memoryOf).retValue =
        FLT_PREOP_SUCCESS_WITH_CALLBACK ∧
      (csgPreReadBuffers preEnvOk (fastIoData 100) memoryOf).Data.Iopb.MdlAddress = 0) ∧
    Event.IoAllocateMdl 4096 100 8192 ∈
      (csgPreDirCtrlBuffers preEnvOk (fastIoData 100) memoryOf).trace ∧
    Event.MmBuildMdlForNonPagedPool 8192 ∈
      (csgPreDirCtrlBuffers preEnvOk (fastIoData 100) memoryOf).trace :=
  ⟨⟨by decide,
      ((((mdl_built_iff_irp preEnvOk (dataOf 100 0 77) memoryOf).1 .Write (by decide)).1
        volume512 (by decide) rfl (by decide)).2.1).mpr (by decide),
      ((((mdl_built_iff_irp preEnvOk (dataOf 100 0 77) memoryOf).1 .Write (by decide)).1
        volume512 (by decide) rfl (by decide)).2.2 8192).mpr
        ⟨by decide, by decide, by decide⟩⟩,
    ⟨by decide,
      (((mdl_built_iff_irp preEnvOk (fastIoData 100) memoryOf).1 .Write (by decide)).1
        volume512 (by decide) rfl (by decide)).1,
      fun h => Bool.false_ne_true
        (((((mdl_built_iff_irp preEnvOk (fastIoData 100) memoryOf).1 .Write (by decide)).1
          volume512 (by decide) rfl (by decide)).2.1).mp h),
      (((mdl_built_iff_irp preEnvOk (fastIoData 100) memoryOf).2.1 volume512 (by decide)
        (by decide) rfl (by decide) rfl).2 (fun h => absurd rfl h) rfl).1,
      (((mdl_built_iff_irp preEnvOk (fastIoData 100) memoryOf).2.1 volume512 (by decide)
        (by decide) rfl (by decide) rfl).2 (fun h => absurd rfl h) rfl).2.2,
      ((mdl_built_iff_irp preEnvOk (fastIoData 100) memoryOf).2.1 volume512 (by decide)
        (by decide) rfl (by decide) rfl).1.1,
      ((mdl_built_iff_irp preEnvOk (fastIoData 100) memoryOf).2.1 volume512 (by decide)
        (by decide) rfl (by decide) rfl).1.2.2⟩,
    (((mdl_built_iff_irp preEnvOk (fastIoData 100) memoryOf).2.2.1 volume512 (by decide) rfl
      (by decide)).2.1).mpr rfl,
    (((mdl_built_iff_irp preEnvOk (fastIoData 100) memoryOf).2.2.1 volume512 (by decide) rfl
      (by decide)).2.2 8192).mpr ⟨rfl, by decide, by decide⟩⟩

/-- Claim C25.  `csgPostReadBuffers` and `csgPostDirCtrlBuffers` call
`FltDoCompletionProcessingWhenSafe`, once, exactly when the operation succeeded
with bytes transferred, the original parameters hold no MDL and neither
`FLTFL_CALLBACK_DATA_SYSTEM_BUFFER` nor `FLTFL_CALLBACK_DATA_FAST_IO_OPERATION`
is set.  When there is data and an MDL, the MDL is mapped and its system address
is the destination, whatever the two flags; when there is data, no MDL and one
of the flags, nothing is mapped and the destination is the buffer address of the
parameter block. -/
theorem deferral_iff_unaddressable (env : PostEnv) (Data : FLT_CALLBACK_DATA)
    (CompletionContext : PRE_2_POST_CONTEXT) (Flags : Nat) (memory : Memory) :
    DeferralRule Data.IoStatus.Information env Data
      (csgPostReadBuffers env Data CompletionContext Flags memory) ∧
    DeferralRule Data.Iopb.Length env Data
      (csgPostDirCtrlBuffers env Data CompletionContext Flags memory) :=
  ⟨postPaths_deferralRule (csgPostReadBuffers_paths env Data CompletionContext Flags memory),
    postPaths_deferralRule
      (csgPostDirCtrlBuffers_paths env Data CompletionContext Flags memory)⟩

/-- Claim C25 at three reads of 100 bytes: into a user buffer without MDL (a
safe context is asked for), into a system buffer with an MDL (the MDL is mapped,
`origBuf` is the mapped address `12288`), and a fast I/O read without MDL
(`origBuf` is the buffer address `256`). -/
theorem deferral_iff_unaddressable_witness :
    (HasData userRead ∧ NeedsSafeContext userRead ∧
      deferralAttempts (csgPostReadBuffers postEnvOk userRead linkOk 0 memoryOf).trace = 1) ∧
    (HasData systemBufferRead ∧ systemBufferRead.Iopb.MdlAddress ≠ 0 ∧
      FlagOn systemBufferRead.Flags FLTFL_CALLBACK_DATA_SYSTEM_BUFFER = true ∧
      origBufOf postEnvOk systemBufferRead = some 12288 ∧
      deferralAttempts
        (csgPostReadBuffers postEnvOk systemBufferRead linkOk 0 memoryOf).trace = 0) ∧
    (HasData fastIoRead ∧ fastIoRead.Iopb.MdlAddress = 0 ∧
      origBufOf postEnvOk fastIoRead = some 256 ∧
      copiesToOriginal
        (csgPostDirCtrlBuffers postEnvOk fastIoRead linkOk 0 memoryOf).trace = [100]) :=
  ⟨⟨⟨by decide, by decide⟩, ⟨by decide, by decide, by decide⟩,
      (deferral_iff_unaddressable postEnvOk userRead linkOk 0 memoryOf).1.1.mpr
        ⟨⟨by decide, by decide⟩, ⟨by decide, by decide, by decide⟩⟩⟩,
    ⟨⟨by decide, by decide⟩, by decide, by decide,
      (((deferral_iff_unaddressable postEnvOk systemBufferRead linkOk 0 memoryOf).1.2.2.1
        ⟨by decide, by decide⟩ (by decide)).2.2 (by decide)).1,
      ((deferral_iff_unaddressable postEnvOk systemBufferRead linkOk 0 memoryOf).1.2.2.1
        ⟨by decide, by decide⟩ (by decide)).2.1⟩,
    ⟨⟨by decide, by decide⟩, by decide,
      ((deferral_iff_unaddressable postEnvOk fastIoRead linkOk 0 memoryOf).2.2.2.2
        ⟨by decide, by decide⟩ (by decide) (Or.inr (by decide))).2.2.1,
      ((deferral_iff_unaddressable postEnvOk fastIoRead linkOk 0 memoryOf).2.2.2.2
        ⟨by decide, by decide⟩ (by decide) (Or.inr (by decide))).2.2.2⟩⟩

/-- Claim C26.  For a sector size `A = 2^j` and a length `L` with
`L + A - 1 < 2^32`, the value `(ULONG)ROUND_TO_SIZE(L, A)` that
`csgPreReadBuffers` and `csgPreWriteBuffers` compute for a non-cached transfer
is `ceil(L / A) * A`: it is a multiple of `A`, it is at least `L` and it
exceeds `L` by less than `A`. -/
theorem round_to_size_ceiling (L j IrpFlags : Nat) (h : L + 2 ^ j - 1 < 2 ^ 32) :
    toULONG (ROUND_TO_SIZE L (2 ^ j)) = ⌈(L : ℚ) / ((2 ^ j : ℕ) : ℚ)⌉₊ * 2 ^ j ∧
    2 ^ j ∣ toULONG (ROUND_TO_SIZE L (2 ^ j)) ∧
    L ≤ toULONG (ROUND_TO_SIZE L (2 ^ j)) ∧
    toULONG (ROUND_TO_SIZE L (2 ^ j)) - L < 2 ^ j ∧
    (FlagOn IRP_NOCACHE IrpFlags = true →
      roundIfNoCache IrpFlags L (2 ^ j) = ⌈(L : ℚ) / ((2 ^ j : ℕ) : ℚ)⌉₊ * 2 ^ j) := by
  have hpos : 0 < 2 ^ j := Nat.two_pow_pos j
  have e := round_pow2_any L j h
  have h1 := Nat.div_add_mod (L + 2 ^ j - 1) (2 ^ j)
  have h2 := Nat.mod_lt (L + 2 ^ j - 1) hpos
  have e1 : toULONG (ROUND_TO_SIZE L (2 ^ j)) =
      ⌈(L : ℚ) / ((2 ^ j : ℕ) : ℚ)⌉₊ * 2 ^ j := by
    rw [e, ceil_div_eq L (2 ^ j) hpos, Nat.mul_comm]
  refine ⟨e1, ?_, ?_, ?_, ?_⟩
  · rw [e]; exact Dvd.intro _ rfl
  · rw [e]; omega
  · rw [e]; omega
  · intro hnc
    rw [← e1]
    simp [roundIfNoCache, hnc]

/-- Claim C26 at `L = 100` and `A = 512 = 2^9`: the rounded length is 512. -/
theorem round_to_size_ceiling_witness :
    100 + 2 ^ 9 - 1 < 2 ^ 32 ∧ toULONG (ROUND_TO_SIZE 100 (2 ^ 9)) = 512 ∧
    2 ^ 9 ∣ toULONG (ROUND_TO_SIZE 100 (2 ^ 9)) ∧
    toULONG (ROUND_TO_SIZE 100 (2 ^ 9)) - 100 < 2 ^ 9 :=
  ⟨by decide, by decide, (round_to_size_ceiling 100 9 IRP_NOCACHE (by decide)).2.1,
    (round_to_size_ceiling 100 9 IRP_NOCACHE (by decide)).2.2.2.1⟩

/-- Claim C27.  `csgPreWriteBuffers` makes at most one copy from the original
buffer; the number of bytes it copies is the length after the rounding of a
non-cached write, which is also the size of the one block it asked of the pool;
for a cached write (`IRP_NOCACHE` clear) that number is the requested length.
When the copy runs to its end the substitute buffer holds, at every offset below
that number, the byte of the original buffer, and from there on what the pool
put in the block; when it faults, it holds the bytes the copy wrote before the
fault; the original buffer is as it was.  The copy is made whenever the length
is not zero, the volume context is found, the pool returns a block, the MDL, if
one is asked for, is allocated, and the original buffer can be mapped. -/
theorem write_copies_effective_length (env : PreEnv) (Data : FLT_CALLBACK_DATA)
    (memory : Memory) :
    (∀ n ∈ copiesFromOriginal (csgPreWriteBuffers env Data memory).trace,
      copiesFromOriginal (csgPreWriteBuffers env Data memory).trace = [n] ∧
      poolRequests (csgPreWriteBuffers env Data memory).trace = [n] ∧
      (∃ v, env.FltGetVolumeContext = some v ∧
        n = roundIfNoCache Data.Iopb.IrpFlags Data.Iopb.Length v.SectorSize) ∧
      (FlagOn IRP_NOCACHE Data.Iopb.IrpFlags = false → n = Data.Iopb.Length) ∧
      (env.RtlCopyMemory = .completed →
        ∀ i, (csgPreWriteBuffers env Data memory).memory.swapped i =
          if i < n then memory.original i else env.poolContents i) ∧
      (∀ code written, env.RtlCopyMemory = .faulted code written →
        ∀ i, (csgPreWriteBuffers env Data memory).memory.swapped i =
          if i < n ∧ written i = true then memory.original i else env.poolContents i) ∧
      (csgPreWriteBuffers env Data memory).memory.original = memory.original) ∧
    (∀ v, Data.Iopb.Length ≠ 0 → env.FltGetVolumeContext = some v →
      env.ExAllocatePoolWithTag (transferSize Data v) ≠ 0 →
      (FlagOn Data.Flags FLTFL_CALLBACK_DATA_IRP_OPERATION = true →
        env.IoAllocateMdl (env.ExAllocatePoolWithTag (transferSize Data v))
          (transferSize Data v) ≠ 0) →
      (Data.Iopb.MdlAddress ≠ 0 →
        env.MmGetSystemAddressForMdlSafe Data.Iopb.MdlAddress ≠ 0) →
      copiesFromOriginal (csgPreWriteBuffers env Data memory).trace =
        [roundIfNoCache Data.Iopb.IrpFlags Data.Iopb.Length v.SectorSize]) := by
  refine ⟨fun n h => ?_, fun v h0 hv hb hmdl hmap =>
    preWritePaths_copy_reached (csgPreWriteBuffers_paths env Data memory) v h0 hv hb hmdl hmap⟩
  obtain ⟨hs, ho⟩ := preWritePaths_copied (csgPreWriteBuffers_paths env Data memory) n h
  rcases preWritePaths_copies (csgPreWriteBuffers_paths env Data memory) with h0 | ⟨v, hv, hc, hp⟩
  · rw [h0] at h; cases h
  · rw [hc] at h
    obtain rfl : n = transferSize Data v := by simpa using h
    refine ⟨hc, hp, ⟨v, hv, rfl⟩, fun hnc => ?_, fun hk i => ?_, fun code written hk i => ?_,
      ho⟩
    · simp [transferSize, roundIfNoCache, hnc]
    · rw [hs, hk]; rfl
    · rw [hs, hk]; rfl

/-- Claim C27 at a non-cached write of 100 bytes on a volume with 512-byte
sectors, which copies 512 bytes: the byte at offset 511 of the substitute buffer
is the 512 of the original buffer and the byte at offset 512 is the 0 the pool
left there; and at a cached write of 100 bytes, which copies 100: the byte at
offset 99 is the 100 of the original buffer and the byte at offset 100 is 0. -/
theorem write_copies_effective_length_witness :
    copiesFromOriginal
      (csgPreWriteBuffers preEnvOk (dataOf 100 IRP_NOCACHE 0) memoryOf).trace = [512] ∧
    poolRequests (csgPreWriteBuffers preEnvOk (dataOf 100 IRP_NOCACHE 0) memoryOf).trace =
      [512] ∧
    (csgPreWriteBuffers preEnvOk (dataOf 100 IRP_NOCACHE 0) memoryOf).memory.swapped 511 =
      512 ∧
    (csgPreWriteBuffers preEnvOk (dataOf 100 IRP_NOCACHE 0) memoryOf).memory.swapped 512 =
      0 ∧
    copiesFromOriginal (csgPreWriteBuffers preEnvOk (dataOf 100 0 0) memoryOf).trace =
      [100] ∧
    (csgPreWriteBuffers preEnvOk (dataOf 100 0 0) memoryOf).memory.swapped 99 = 100 ∧
    (csgPreWriteBuffers preEnvOk (dataOf 100 0 0) memoryOf).memory.swapped 100 = 0 :=
  ⟨((write_copies_effective_length preEnvOk (dataOf 100 IRP_NOCACHE 0) memoryOf).2 volume512
      (by decide) rfl (by decide) (fun _ => by decide) (fun h => absurd rfl h)).trans
      (by decide),
    ((write_copies_effective_length preEnvOk (dataOf 100 IRP_NOCACHE 0) memoryOf).1 512
      (by decide)).2.1,
    ((((write_copies_effective_length preEnvOk (dataOf 100 IRP_NOCACHE 0) memoryOf).1 512
      (by decide)).2.2.2.2.1 rfl) 511).trans (by decide),
    ((((write_copies_effective_length preEnvOk (dataOf 100 IRP_NOCACHE 0) memoryOf).1 512
      (by decide)).2.2.2.2.1 rfl) 512).trans (by decide),
    ((write_copies_effective_length preEnvOk (dataOf 100 0 0) memoryOf).1 100
      (by decide)).1,
    ((((write_copies_effective_length preEnvOk (dataOf 100 0 0) memoryOf).1 100
      (by decide)).2.2.2.2.1 rfl) 99).trans (by decide),
    ((((write_copies_effective_length preEnvOk (dataOf 100 0 0) memoryOf).1 100
      (by decide)).2.2.2.2.1 rfl) 100).trans (by decide)⟩

/-- Claim C28.  `csgPreWriteBuffers` returns `FLT_PREOP_COMPLETE` exactly when
the length is not zero, the volume context, the pool block and (for an IRP
operation) the MDL are obtained, and then the MDL of the original buffer cannot
be mapped or the copy faults.  In those cases the result slot holds 0 bytes and
`STATUS_INSUFFICIENT_RESOURCES` or the exception code of the fault, a failure
status as long as exception codes are failure statuses; in every other case the
result slot is as it was. -/
theorem write_complete_iff (env : PreEnv) (Data : FLT_CALLBACK_DATA) (memory : Memory) :
    ((csgPreWriteBuffers env Data memory).retValue = FLT_PREOP_COMPLETE ↔
      WriteSourceUnreadable env Data) ∧
    ((csgPreWriteBuffers env Data memory).retValue = FLT_PREOP_COMPLETE →
      (csgPreWriteBuffers env Data memory).Data.IoStatus.Information = 0 ∧
      ((csgPreWriteBuffers env Data memory).Data.IoStatus.Status =
          STATUS_INSUFFICIENT_RESOURCES ∨
        ∃ code written, env.RtlCopyMemory = .faulted code written ∧
          (csgPreWriteBuffers env Data memory).Data.IoStatus.Status = code) ∧
      ((∀ code written, env.RtlCopyMemory = .faulted code written →
          NT_SUCCESS code = false) →
        NT_SUCCESS (csgPreWriteBuffers env Data memory).Data.IoStatus.Status = false)) ∧
    ((csgPreWriteBuffers env Data memory).retValue ≠ FLT_PREOP_COMPLETE →
      (csgPreWriteBuffers env Data memory).Data.IoStatus = Data.IoStatus) := by
  obtain ⟨h1, h2, h3⟩ := preWritePaths_complete (csgPreWriteBuffers_paths env Data memory)
  refine ⟨h1, fun hc => ?_, h3⟩
  obtain ⟨h4, h5⟩ := h2 hc
  refine ⟨h4, h5, fun hx => ?_⟩
  rcases h5 with h5 | ⟨code, written, h6, h7⟩
  · rw [h5]; decide
  · rw [h7]; exact hx code written h6

/-- Claim C28 at a write of 4096 bytes whose copy faults with
`STATUS_ACCESS_VIOLATION`: the callback returns `FLT_PREOP_COMPLETE` with that
status and 0 bytes; and at the same write with a copy that runs to its end: the
callback does not return `FLT_PREOP_COMPLETE` and the result slot is as it
was. -/
theorem write_complete_iff_witness :
    WriteSourceUnreadable preEnvFault (dataOf 4096 0 0) ∧
    (csgPreWriteBuffers preEnvFault (dataOf 4096 0 0) memoryOf).retValue =
      FLT_PREOP_COMPLETE ∧
    (csgPreWriteBuffers preEnvFault (dataOf 4096 0 0) memoryOf).Data.IoStatus =
      { Status := STATUS_ACCESS_VIOLATION, Information := 0 } ∧
    (csgPreWriteBuffers preEnvOk (dataOf 4096 0 0) memoryOf).retValue ≠
      FLT_PREOP_COMPLETE ∧
    (csgPreWriteBuffers preEnvOk (dataOf 4096 0 0) memoryOf).Data.IoStatus =
      (dataOf 4096 0 0).IoStatus :=
  ⟨⟨by decide, volume512, rfl, by decide, fun _ => by decide,
      Or.inr ⟨fun h => absurd rfl h, STATUS_ACCESS_VIOLATION, firstKilobyte, rfl⟩⟩,
    (write_complete_iff preEnvFault (dataOf 4096 0 0) memoryOf).1.mpr
      ⟨by decide, volume512, rfl, by decide, fun _ => by decide,
        Or.inr ⟨fun h => absurd rfl h, STATUS_ACCESS_VIOLATION, firstKilobyte, rfl⟩⟩,
    by decide, by decide,
    (write_complete_iff preEnvOk (dataOf 4096 0 0) memoryOf).2.2 (by decide)⟩

/-- Claim C29.  For each of the three pre-operation callbacks, in every
invocation: either the callback returns `FLT_PREOP_SUCCESS_WITH_CALLBACK`, has
stored the new buffer and the new MDL in the parameter block, has marked the
callback data dirty, has taken a link and hands it out as completion context; or
it returns something else and has done none of these.  So the return value is
`FLT_PREOP_SUCCESS_WITH_CALLBACK` exactly when each of them holds.  The read and
the directory-control callback return `FLT_PREOP_SUCCESS_WITH_CALLBACK` or
`FLT_PREOP_SUCCESS_NO_CALLBACK` and nothing else. -/
theorem swap_all_or_nothing (k : Kind) (env : PreEnv) (Data : FLT_CALLBACK_DATA)
    (memory : Memory) :
    SwapAllOrNothing Data (preStep k env Data memory) ∧
    (k ≠ .Write →
      (preStep k env Data memory).retValue = FLT_PREOP_SUCCESS_WITH_CALLBACK ∨
      (preStep k env Data memory).retValue = FLT_PREOP_SUCCESS_NO_CALLBACK) := by
  cases k
  · exact ⟨(prePaths_allOrNothing (csgPreReadBuffers_paths env Data memory)).1,
      fun _ => (prePaths_allOrNothing (csgPreReadBuffers_paths env Data memory)).2⟩
  · exact ⟨preWritePaths_allOrNothing (csgPreWriteBuffers_paths env Data memory),
      fun h => absurd rfl h⟩
  · exact ⟨(prePaths_allOrNothing (csgPreDirCtrlBuffers_paths env Data memory)).1,
      fun _ => (prePaths_allOrNothing (csgPreDirCtrlBuffers_paths env Data memory)).2⟩

/-- Claim C29 at a read of 100 bytes for which every routine succeeds (the swap
is in place) and at one for which `Pre2PostContextList` is empty (no part of it
is). -/
theorem swap_all_or_nothing_witness :
    Kind.Read ≠ .Write ∧
    (preStep .Read preEnvOk (dataOf 100 0 77) memoryOf).retValue =
      FLT_PREOP_SUCCESS_WITH_CALLBACK ∧
    Event.FltSetCallbackDataDirty ∈ (preStep .Read preEnvOk (dataOf 100 0 77) memoryOf).trace ∧
    (preStep .Read preEnvNoLink (dataOf 100 0 77) memoryOf).retValue =
      FLT_PREOP_SUCCESS_NO_CALLBACK ∧
    Event.FltSetCallbackDataDirty ∉
      (preStep .Read preEnvNoLink (dataOf 100 0 77) memoryOf).trace :=
  ⟨by decide, by decide,
    (swap_all_or_nothing .Read preEnvOk (dataOf 100 0 77) memoryOf).1.2.1.mp (by decide),
    by decide,
    fun h => absurd
      ((swap_all_or_nothing .Read preEnvNoLink (dataOf 100 0 77) memoryOf).1.2.1.mpr h)
      (by decide)⟩

/-- Claim C30.  As long as exception codes are failure statuses, the result slot
after `csgPostReadBuffers`, after `csgPostDirCtrlBuffers` and after either
post-step brought to its end is the slot the callback was given, or a failure
status with 0 bytes; a failure status given is kept with its byte count; the
slot of an operation whose copy back succeeded is kept; the byte count is the
one given or 0.  And whatever state a safe callback is entered with, it keeps
the result slot or stores a failure status with 0 bytes. -/
theorem result_slot_kept_or_failed (env : PostEnv) (Data : FLT_CALLBACK_DATA)
    (CompletionContext : PRE_2_POST_CONTEXT) (Flags : Nat) (memory : Memory)
    (hx : FaultsAreFailures env) :
    (∀ r ∈ [csgPostReadBuffers env Data CompletionContext Flags memory,
            readPostStep env Data CompletionContext Flags memory,
            csgPostDirCtrlBuffers env Data CompletionContext Flags memory,
            dirCtrlPostStep env Data CompletionContext Flags memory],
      SlotRule env Data r) ∧
    (∀ s : PostState,
      SlotKeptOrFailed s.Data.IoStatus
        (SwapPostReadBuffersWhenSafe env CompletionContext s).Data.IoStatus ∧
      SlotKeptOrFailed s.Data.IoStatus
        (SwapPostDirCtrlBuffersWhenSafe env CompletionContext s).Data.IoStatus) := by
  refine ⟨fun r hr => ?_, fun s =>
    ⟨safePaths_slot (SwapPostReadBuffersWhenSafe_paths env CompletionContext s),
      safePaths_slot (SwapPostDirCtrlBuffersWhenSafe_paths env CompletionContext s)⟩⟩
  simp only [List.mem_cons, List.mem_singleton, List.not_mem_nil, or_false] at hr
  rcases hr with rfl | rfl | rfl | rfl
  · exact postPaths_slotRule hx (csgPostReadBuffers_paths _ _ _ _ _)
  · exact postStepPaths_slotRule hx (readPostStep_paths _ _ _ _ _)
  · exact postPaths_slotRule hx (csgPostDirCtrlBuffers_paths _ _ _ _ _)
  · exact postStepPaths_slotRule hx (dirCtrlPostStep_paths _ _ _ _ _)

/-- Claim C30 at a read of 100 bytes with an MDL whose copy back faults with
`STATUS_ACCESS_VIOLATION`: the slot ends with that status and 0 bytes; and at
the same read with a copy that runs to its end: the slot is as it was. -/
theorem result_slot_kept_or_failed_witness :
    FaultsAreFailures postEnvFault ∧
    (csgPostReadBuffers postEnvFault (completedWith (dataOf 100 0 77) STATUS_SUCCESS 100)
      linkOk 0 memoryOf).Data.IoStatus =
      { Status := STATUS_ACCESS_VIOLATION, Information := 0 } ∧
    SlotKeptOrFailed (completedWith (dataOf 100 0 77) STATUS_SUCCESS 100).IoStatus
      (csgPostReadBuffers postEnvFault (completedWith (dataOf 100 0 77) STATUS_SUCCESS 100)
        linkOk 0 memoryOf).Data.IoStatus ∧
    FaultsAreFailures postEnvOk ∧
    (readPostStep postEnvOk (completedWith (dataOf 100 0 77) STATUS_SUCCESS 100) linkOk 0
      memoryOf).Data.IoStatus = { Status := STATUS_SUCCESS, Information := 100 } :=
  ⟨fun code written h => (by cases h; decide), by decide,
    ((result_slot_kept_or_failed postEnvFault
      (completedWith (dataOf 100 0 77) STATUS_SUCCESS 100) linkOk 0 memoryOf
      (fun code written h => (by cases h; decide))).1 _ (List.mem_cons_self _ _)).1,
    fun code written h => (by cases h), by decide⟩

end CipherStreamGuard
